import Mathlib

/-! # PlatONE-Go: the governed parameter store (core/vm/sc_param_manager.go)

A shallow embedding of the ParamManager system contract: its storage slots,
its typed getters and setters, the permission gate doParamSet, and the audit
events the setters emit.  Code of the repository that the file only calls
(rlp, generateStateKey, hasParamOpPermission, checkNameFormat,
getRegisterStatusByName) is collected in the structure Env and taken as a
parameter of every operation.
-/

namespace vm

/-- A Go byte slice; every element stands for one byte. -/
abbrev Bytes := List Nat

/-- Modelled from the spec: common.Address, an account or contract identity.
It is kept as its textual rendering, so that caller.String() is the value
itself. -/
abbrev Address := String

/-- The package-level error values used by the parameter manager, and the errors
of the rlp package (rlp, with the message of the error), which are none of
these values. -/
inductive Error where
  | errParamInvalid
  | errNoPermission
  | errEncodeFailure
  | errContactNameNotExist
  | errValidatorCountInvalid
  | errEmptyValue
  | rlp (msg : String)
  deriving DecidableEq

/-- The result code carried by an audit event. -/
abbrev CodeType := Nat

/-- Modelled from the spec: common.VRFParams, the record
"ElectionEpoch: integer (0 = VRF feature inactive), ValidatorCount: integer,
other election tunables"; the fields are unsigned 64-bit integers. -/
structure VRFParams where
  ElectionEpoch : Nat
  NextElectionBlock : Nat
  ValidatorCount : Nat
  deriving DecidableEq

/-- Modelled from the spec: an AuditEvent, "topic, code, message, block number,
emitting contract address". -/
structure Log where
  address : Address
  blockNumber : Nat
  topic : String
  code : CodeType
  msg : String
  deriving DecidableEq

/-- The part of the StateDB interface the contract uses: per-contract storage
from byte keys to byte values, and the append-only list of emitted events. -/
structure StateDB where
  storage : Address → Bytes → Bytes
  logs : List Log

/-- StateDB.GetState(addr, key). -/
def StateDB.GetState (db : StateDB) (addr : Address) (key : Bytes) : Bytes :=
  db.storage addr key

/-- StateDB.SetState(addr, key, value): only the slot (addr, key) changes. -/
def StateDB.SetState (db : StateDB) (addr : Address) (key value : Bytes) : StateDB :=
  { db with storage := fun a k => if a = addr ∧ k = key then value else db.storage a k }

/-- Modelled from the spec: emitEvent, the audit sink
Emit(contractAddress, blockNumber, topic, code, message); it appends one
entry to the log and touches no storage. -/
def emitEvent (address : Address) (stateDB : StateDB) (blockNumber : Nat)
    (topic : String) (code : CodeType) (msg : String) : StateDB :=
  { stateDB with logs := stateDB.logs ++ [⟨address, blockNumber, topic, code, msg⟩] }

/-- The dynamic values handed to doParamSet as interface values. -/
inductive Value where
  | u32 (n : Nat)
  | u64 (n : Nat)
  | str (s : String)
  | vrf (p : VRFParams)
  deriving DecidableEq

/-- The collaborators of the contract that live elsewhere in the repository.
The functions of the rlp package fail with an error of that package, given by
its message. -/
structure Env where
  /-- The function generateStateKey(name). -/
  generateStateKey : String → Bytes
  /-- The function hasParamOpPermission(stateDB, caller). -/
  hasParamOpPermission : StateDB → Address → Bool
  /-- The function checkNameFormat(name), first component. -/
  checkNameFormat : String → Bool
  /-- The function getRegisterStatusByName(stateDB, name), first component. -/
  getRegisterStatusByName : StateDB → String → Bool
  /-- The function rlp.EncodeToBytes(val). -/
  rlpEncodeToBytes : Value → Except String Bytes
  /-- The call rlp.DecodeBytes(value, &x) for x an unsigned integer of the given
  number of bits. -/
  rlpDecodeUint : (bits : Nat) → Bytes → Except String Nat
  /-- The call rlp.DecodeBytes(value, &s) for s a string. -/
  rlpDecodeString : Bytes → Except String String
  /-- The call rlp.DecodeBytes(value, &p) for p a common.VRFParams. -/
  rlpDecodeVRFParams : Bytes → Except String VRFParams

def gasContractNameKey (env : Env) : Bytes := env.generateStateKey "GasContractName"
def isProduceEmptyBlockKey (env : Env) : Bytes := env.generateStateKey "IsProduceEmptyBlock"
def txGasLimitKey (env : Env) : Bytes := env.generateStateKey "TxGasLimit"
def blockGasLimitKey (env : Env) : Bytes := env.generateStateKey "BlockGasLimit"
def isCheckContractDeployPermission (env : Env) : Bytes :=
  env.generateStateKey "isCheckContractDeployPermission"
def isApproveDeployedContractKey (env : Env) : Bytes :=
  env.generateStateKey "IsApproveDeployedContract"
def isTxUseGasKey (env : Env) : Bytes := env.generateStateKey "IsTxUseGas"
def vrfParamsKey (env : Env) : Bytes := env.generateStateKey "VRFParamsKey"
def isBlockUseTrieHashKey (env : Env) : Bytes := env.generateStateKey "IsBlockUseTrieHash"

def paramTrue : Nat := 1
def paramFalse : Nat := 0

def isCheckContractDeployPermissionDefault : Nat := paramFalse
def isTxUseGasDefault : Nat := paramFalse
def isApproveDeployedContractDefault : Nat := paramFalse
def isProduceEmptyBlockDefault : Nat := paramFalse
def gasContractNameDefault : String := ""
def isBlockUseTrieHashDefault : Nat := paramTrue

def TxGasLimitMinValue : Nat := 12771596 * 100
def TxGasLimitMaxValue : Nat := 2000000000
def txGasLimitDefaultValue : Nat := 1500000000
def BlockGasLimitMinValue : Nat := 12771596 * 100
def BlockGasLimitMaxValue : Nat := 20000000000
def blockGasLimitDefaultValue : Nat := 10000000000
def failFlag : Int := -1
def sucFlag : Int := 0

def doParamSetSuccess : CodeType := 0
def callerHasNoPermission : CodeType := 1
def encodeFailure : CodeType := 2
def paramInvalid : CodeType := 3
def contractNameNotExists : CodeType := 4

/-- The receiver of every operation. -/
structure ParamManager where
  stateDB : StateDB
  contractAddr : Address
  caller : Address
  blockNumber : Nat

/-- What a setter hands back: its two Go results (int32, error) and the state
database as the call left it. -/
structure Ret where
  val : Int
  err : Option Error
  stateDB : StateDB

/-- The rendering fmt.Sprintf("%v", key) of a byte slice: the decimal bytes
between square brackets. -/
def sprintV (key : Bytes) : String :=
  "[" ++ " ".intercalate (key.map toString) ++ "]"

def ParamManager.setState (u : ParamManager) (key value : Bytes) : StateDB :=
  u.stateDB.SetState u.contractAddr key value

def ParamManager.getState (u : ParamManager) (key : Bytes) : Bytes :=
  u.stateDB.GetState u.contractAddr key

/-- The method emitNotifyEventInParam; blockNumber.Uint64() keeps the low 64
bits. -/
def ParamManager.emitNotifyEventInParam (u : ParamManager) (topic : String)
    (code : CodeType) (msg : String) : StateDB :=
  emitEvent u.contractAddr u.stateDB (u.blockNumber % 2 ^ 64) topic code msg

/-- The method setParam: encode, and write only when the encoding succeeded. -/
def ParamManager.setParam (env : Env) (u : ParamManager) (key : Bytes) (val : Value) :
    Option Error × StateDB :=
  match env.rlpEncodeToBytes val with
  | .error m => (some (Error.rlp m), u.stateDB)
  | .ok value => (none, u.setState key value)

/-- The method getParam(key, &val): dec is the decoder selected by the type of
the pointer, val the value the pointer holds before the call.  The pair returned
is the pointee after the call and the error.  On a decoding error the pointee
is reported unchanged; no caller uses it in that case except getVRFParams,
whose result is then accompanied by the error. -/
def ParamManager.getParam {α : Type} (u : ParamManager) (dec : Bytes → Except String α)
    (key : Bytes) (val : α) : α × Option Error :=
  let value := u.getState key
  if value.length = 0 then (val, some Error.errEmptyValue)
  else
    match dec value with
    | .error m => (val, some (Error.rlp m))
    | .ok v => (v, none)

/-- The method doParamSet: the permission gate in front of setParam. -/
def ParamManager.doParamSet (env : Env) (u : ParamManager) (key : Bytes) (value : Value) : Ret :=
  if !env.hasParamOpPermission u.stateDB u.caller then
    ⟨failFlag, some Error.errNoPermission, u.stateDB⟩
  else
    match u.setParam env key value with
    | (some _, db) => ⟨failFlag, some Error.errEncodeFailure, db⟩
    | (none, db) => ⟨sucFlag, none, db⟩

/-- The method setGasContractName: the name-format check, the registration
check, then the gated write.  The error returned next to the registration
status is overwritten before it is read, so only the status is kept. -/
def ParamManager.setGasContractName (env : Env) (u : ParamManager) (contractName : String) : Ret :=
  if !env.checkNameFormat contractName then
    ⟨failFlag, some Error.errParamInvalid,
      u.emitNotifyEventInParam "GasContractName" paramInvalid "param is invalid."⟩
  else if !env.getRegisterStatusByName u.stateDB contractName then
    ⟨failFlag, some Error.errContactNameNotExist,
      u.emitNotifyEventInParam "GasContractName" contractNameNotExists "contract does not exsits."⟩
  else
    match u.doParamSet env (gasContractNameKey env) (Value.str contractName) with
    | ⟨ret, err, db⟩ =>
      let u1 : ParamManager := ⟨db, u.contractAddr, u.caller, u.blockNumber⟩
      match err with
      | some Error.errNoPermission =>
        ⟨failFlag, err, u1.emitNotifyEventInParam "GasContractName" callerHasNoPermission
          (u.caller ++ " has no permission to adjust param.")⟩
      | some Error.errEncodeFailure =>
        ⟨failFlag, err, u1.emitNotifyEventInParam "GasContractName" encodeFailure
          (sprintV (gasContractNameKey env) ++ " failed to encode.")⟩
      | _ =>
        ⟨ret, err, u1.emitNotifyEventInParam "GasContractName" doParamSetSuccess
          "param set successful."⟩

/-- The method getGasContractName. -/
def ParamManager.getGasContractName (env : Env) (u : ParamManager) : String × Option Error :=
  match u.getParam env.rlpDecodeString (gasContractNameKey env) gasContractNameDefault with
  | (contractName, err) =>
    if err ≠ none ∧ err ≠ some Error.errEmptyValue then ("", err)
    else (contractName, none)

/-- The method setIsProduceEmptyBlock (argument of type uint32). -/
def ParamManager.setIsProduceEmptyBlock (env : Env) (u : ParamManager) (isProduceEmptyBlock : Nat) : Ret :=
  if isProduceEmptyBlock / 2 ≠ 0 then
    ⟨failFlag, some Error.errParamInvalid,
      u.emitNotifyEventInParam "IsProduceEmptyBlock" paramInvalid "param is invalid."⟩
  else
    match u.doParamSet env (isProduceEmptyBlockKey env) (Value.u32 isProduceEmptyBlock) with
    | ⟨ret, err, db⟩ =>
      let u1 : ParamManager := ⟨db, u.contractAddr, u.caller, u.blockNumber⟩
      match err with
      | some Error.errNoPermission =>
        ⟨failFlag, err, u1.emitNotifyEventInParam "IsProduceEmptyBlock" callerHasNoPermission
          (u.caller ++ " has no permission to adjust param.")⟩
      | some Error.errEncodeFailure =>
        ⟨failFlag, err, u1.emitNotifyEventInParam "IsProduceEmptyBlock" encodeFailure
          (sprintV (isProduceEmptyBlockKey env) ++ " failed to encode.")⟩
      | _ =>
        ⟨ret, err, u1.emitNotifyEventInParam "IsProduceEmptyBlock" doParamSetSuccess
          "param set successful."⟩

/-- The method getIsProduceEmptyBlock. -/
def ParamManager.getIsProduceEmptyBlock (env : Env) (u : ParamManager) : Nat × Option Error :=
  match u.getParam (env.rlpDecodeUint 32) (isProduceEmptyBlockKey env) isProduceEmptyBlockDefault with
  | (v, err) =>
    if err ≠ none ∧ err ≠ some Error.errEmptyValue then (isProduceEmptyBlockDefault, err)
    else (v, none)

/-- The method setTxGasLimit (argument of type uint64): the range check, the
read of the block gas limit, the comparison with it, then the gated write. -/
def ParamManager.setTxGasLimit (env : Env) (u : ParamManager) (txGasLimit : Nat) : Ret :=
  if txGasLimit < TxGasLimitMinValue ∨ txGasLimit > TxGasLimitMaxValue then
    ⟨failFlag, some Error.errParamInvalid,
      u.emitNotifyEventInParam "TxGasLimit" paramInvalid "param is invalid."⟩
  else
    match u.getParam (env.rlpDecodeUint 64) (blockGasLimitKey env) blockGasLimitDefaultValue with
    | (blockGasLimit, err0) =>
      if err0 ≠ none ∧ err0 ≠ some Error.errEmptyValue then
        ⟨failFlag, err0, u.stateDB⟩
      else if txGasLimit > blockGasLimit then
        ⟨failFlag, some Error.errParamInvalid,
          u.emitNotifyEventInParam "TxGasLimit" paramInvalid
            "setting value is larger than block gas limit"⟩
      else
        match u.doParamSet env (txGasLimitKey env) (Value.u64 txGasLimit) with
        | ⟨ret, err, db⟩ =>
          let u1 : ParamManager := ⟨db, u.contractAddr, u.caller, u.blockNumber⟩
          match err with
          | some Error.errNoPermission =>
            ⟨failFlag, err, u1.emitNotifyEventInParam "TxGasLimit" callerHasNoPermission
              (u.caller ++ " has no permission to adjust param.")⟩
          | some Error.errEncodeFailure =>
            ⟨failFlag, err, u1.emitNotifyEventInParam "TxGasLimit" encodeFailure
              (sprintV (txGasLimitKey env) ++ " failed to encode.")⟩
          | _ =>
            ⟨ret, err, u1.emitNotifyEventInParam "TxGasLimit" doParamSetSuccess
              "param set successful."⟩

/-- The method getTxGasLimit. -/
def ParamManager.getTxGasLimit (env : Env) (u : ParamManager) : Nat × Option Error :=
  match u.getParam (env.rlpDecodeUint 64) (txGasLimitKey env) txGasLimitDefaultValue with
  | (v, err) =>
    if err ≠ none ∧ err ≠ some Error.errEmptyValue then (txGasLimitDefaultValue, err)
    else (v, none)

/-- The method setBlockGasLimit (argument of type uint64): the range check, the
read of the transaction gas limit, the comparison with it, then the gated
write.  The comparison branch returns a nil error. -/
def ParamManager.setBlockGasLimit (env : Env) (u : ParamManager) (blockGasLimit : Nat) : Ret :=
  if blockGasLimit < BlockGasLimitMinValue ∨ blockGasLimit > BlockGasLimitMaxValue then
    ⟨failFlag, some Error.errParamInvalid,
      u.emitNotifyEventInParam "BlockGasLimit" paramInvalid "param is invalid."⟩
  else
    match u.getParam (env.rlpDecodeUint 64) (txGasLimitKey env) txGasLimitDefaultValue with
    | (txGasLimit, err0) =>
      if err0 ≠ none ∧ err0 ≠ some Error.errEmptyValue then
        ⟨failFlag, err0, u.stateDB⟩
      else if txGasLimit > blockGasLimit then
        ⟨failFlag, none,
          u.emitNotifyEventInParam "BlockGasLimit" paramInvalid
            "setting value is smaller than tx gas limit"⟩
      else
        match u.doParamSet env (blockGasLimitKey env) (Value.u64 blockGasLimit) with
        | ⟨ret, err, db⟩ =>
          let u1 : ParamManager := ⟨db, u.contractAddr, u.caller, u.blockNumber⟩
          match err with
          | some Error.errNoPermission =>
            ⟨failFlag, err, u1.emitNotifyEventInParam "BlockGasLimit" callerHasNoPermission
              (u.caller ++ " has no permission to adjust param.")⟩
          | some Error.errEncodeFailure =>
            ⟨failFlag, err, u1.emitNotifyEventInParam "BlockGasLimit" encodeFailure
              (sprintV (blockGasLimitKey env) ++ " failed to encode.")⟩
          | _ =>
            ⟨ret, err, u1.emitNotifyEventInParam "BlockGasLimit" doParamSetSuccess
              "param set successful."⟩

/-- The method getBlockGasLimit. -/
def ParamManager.getBlockGasLimit (env : Env) (u : ParamManager) : Nat × Option Error :=
  match u.getParam (env.rlpDecodeUint 64) (blockGasLimitKey env) blockGasLimitDefaultValue with
  | (v, err) =>
    if err ≠ none ∧ err ≠ some Error.errEmptyValue then (blockGasLimitDefaultValue, err)
    else (v, none)

/-- The method setCheckContractDeployPermission (argument of type uint32). -/
def ParamManager.setCheckContractDeployPermission (env : Env) (u : ParamManager) (permission : Nat) : Ret :=
  if permission / 2 ≠ 0 then
    ⟨failFlag, some Error.errParamInvalid,
      u.emitNotifyEventInParam "IsCheckContractDeployPermission" paramInvalid "param is invalid."⟩
  else
    match u.doParamSet env (isCheckContractDeployPermission env) (Value.u32 permission) with
    | ⟨ret, err, db⟩ =>
      let u1 : ParamManager := ⟨db, u.contractAddr, u.caller, u.blockNumber⟩
      match err with
      | some Error.errNoPermission =>
        ⟨failFlag, err, u1.emitNotifyEventInParam "IsCheckContractDeployPermission" callerHasNoPermission
          (u.caller ++ " has no permission to adjust param.")⟩
      | some Error.errEncodeFailure =>
        ⟨failFlag, err, u1.emitNotifyEventInParam "IsCheckContractDeployPermission" encodeFailure
          (sprintV (isCheckContractDeployPermission env) ++ " failed to encode.")⟩
      | _ =>
        ⟨ret, err, u1.emitNotifyEventInParam "IsCheckContractDeployPermission" doParamSetSuccess
          "param set successful."⟩

/-- The method getCheckContractDeployPermission. -/
def ParamManager.getCheckContractDeployPermission (env : Env) (u : ParamManager) : Nat × Option Error :=
  match u.getParam (env.rlpDecodeUint 32) (isCheckContractDeployPermission env) isCheckContractDeployPermissionDefault with
  | (v, err) =>
    if err ≠ none ∧ err ≠ some Error.errEmptyValue then (isCheckContractDeployPermissionDefault, err)
    else (v, none)

/-- The method setIsApproveDeployedContract (argument of type uint32). -/
def ParamManager.setIsApproveDeployedContract (env : Env) (u : ParamManager) (isApproveDeployedContract : Nat) : Ret :=
  if isApproveDeployedContract / 2 ≠ 0 then
    ⟨failFlag, some Error.errParamInvalid,
      u.emitNotifyEventInParam "IsApproveDeployedContract" paramInvalid "param is invalid."⟩
  else
    match u.doParamSet env (isApproveDeployedContractKey env) (Value.u32 isApproveDeployedContract) with
    | ⟨ret, err, db⟩ =>
      let u1 : ParamManager := ⟨db, u.contractAddr, u.caller, u.blockNumber⟩
      match err with
      | some Error.errNoPermission =>
        ⟨failFlag, err, u1.emitNotifyEventInParam "IsApproveDeployedContract" callerHasNoPermission
          (u.caller ++ " has no permission to adjust param.")⟩
      | some Error.errEncodeFailure =>
        ⟨failFlag, err, u1.emitNotifyEventInParam "IsApproveDeployedContract" encodeFailure
          (sprintV (isApproveDeployedContractKey env) ++ " failed to encode.")⟩
      | _ =>
        ⟨ret, err, u1.emitNotifyEventInParam "IsApproveDeployedContract" doParamSetSuccess
          "param set successful."⟩

/-- The method getIsApproveDeployedContract. -/
def ParamManager.getIsApproveDeployedContract (env : Env) (u : ParamManager) : Nat × Option Error :=
  match u.getParam (env.rlpDecodeUint 32) (isApproveDeployedContractKey env) isApproveDeployedContractDefault with
  | (v, err) =>
    if err ≠ none ∧ err ≠ some Error.errEmptyValue then (isApproveDeployedContractDefault, err)
    else (v, none)

/-- The method setIsTxUseGas (argument of type uint64). -/
def ParamManager.setIsTxUseGas (env : Env) (u : ParamManager) (isTxUseGas : Nat) : Ret :=
  if isTxUseGas / 2 ≠ 0 then
    ⟨failFlag, some Error.errParamInvalid,
      u.emitNotifyEventInParam "IsTxUseGas" paramInvalid "param is invalid."⟩
  else
    match u.doParamSet env (isTxUseGasKey env) (Value.u64 isTxUseGas) with
    | ⟨ret, err, db⟩ =>
      let u1 : ParamManager := ⟨db, u.contractAddr, u.caller, u.blockNumber⟩
      match err with
      | some Error.errNoPermission =>
        ⟨failFlag, err, u1.emitNotifyEventInParam "IsTxUseGas" callerHasNoPermission
          (u.caller ++ " has no permission to adjust param.")⟩
      | some Error.errEncodeFailure =>
        ⟨failFlag, err, u1.emitNotifyEventInParam "IsTxUseGas" encodeFailure
          (sprintV (isTxUseGasKey env) ++ " failed to encode.")⟩
      | _ =>
        ⟨ret, err, u1.emitNotifyEventInParam "IsTxUseGas" doParamSetSuccess
          "param set successful."⟩

/-- The method checkVRFParams. -/
def ParamManager.checkVRFParams (_u : ParamManager) (params : VRFParams) : Option Error :=
  if params.ValidatorCount < 1 then some Error.errValidatorCountInvalid
  else none

/-- The method setVRFParams; every return statement gives the literal status 0,
and the encode-failure message names isTxUseGasKey. -/
def ParamManager.setVRFParams (env : Env) (u : ParamManager) (params : VRFParams) : Ret :=
  match u.checkVRFParams params with
  | some e =>
    ⟨0, some e, u.emitNotifyEventInParam "SetVRFParams" paramInvalid "param is invalid."⟩
  | none =>
    match u.doParamSet env (vrfParamsKey env) (Value.vrf params) with
    | ⟨_, err, db⟩ =>
      let u1 : ParamManager := ⟨db, u.contractAddr, u.caller, u.blockNumber⟩
      match err with
      | some Error.errNoPermission =>
        ⟨0, err, u1.emitNotifyEventInParam "SetVRFParams" callerHasNoPermission
          (u.caller ++ " has no permission to adjust param.")⟩
      | some Error.errEncodeFailure =>
        ⟨0, err, u1.emitNotifyEventInParam "SetVRFParams" encodeFailure
          (sprintV (isTxUseGasKey env) ++ " failed to encode.")⟩
      | _ =>
        ⟨0, none, u1.emitNotifyEventInParam "SetVRFParams" doParamSetSuccess
          "param set successful."⟩

/-- The method getVRFParams; on a decoding error the record is returned together
with the error. -/
def ParamManager.getVRFParams (env : Env) (u : ParamManager) : VRFParams × Option Error :=
  match u.getParam env.rlpDecodeVRFParams (vrfParamsKey env) (⟨0, 0, 0⟩ : VRFParams) with
  | (b, err) =>
    if err ≠ none ∧ err ≠ some Error.errEmptyValue then (b, err)
    else (b, none)

/-- The method getIsTxUseGas (result of type uint32). -/
def ParamManager.getIsTxUseGas (env : Env) (u : ParamManager) : Nat × Option Error :=
  match u.getParam (env.rlpDecodeUint 32) (isTxUseGasKey env) isTxUseGasDefault with
  | (v, err) =>
    if err ≠ none ∧ err ≠ some Error.errEmptyValue then (isTxUseGasDefault, err)
    else (v, none)

/-- The method setIsBlockUseTrieHash (argument of type uint64); the encode-failure
message names isTxUseGasKey. -/
def ParamManager.setIsBlockUseTrieHash (env : Env) (u : ParamManager) (isBlockUseTrieHash : Nat) : Ret :=
  if isBlockUseTrieHash / 2 ≠ 0 then
    ⟨failFlag, some Error.errParamInvalid,
      u.emitNotifyEventInParam "IsBlockUseTrieHash" paramInvalid "param is invalid."⟩
  else
    match u.doParamSet env (isBlockUseTrieHashKey env) (Value.u64 isBlockUseTrieHash) with
    | ⟨ret, err, db⟩ =>
      let u1 : ParamManager := ⟨db, u.contractAddr, u.caller, u.blockNumber⟩
      match err with
      | some Error.errNoPermission =>
        ⟨failFlag, err, u1.emitNotifyEventInParam "IsBlockUseTrieHash" callerHasNoPermission
          (u.caller ++ " has no permission to adjust param.")⟩
      | some Error.errEncodeFailure =>
        ⟨failFlag, err, u1.emitNotifyEventInParam "IsBlockUseTrieHash" encodeFailure
          (sprintV (isTxUseGasKey env) ++ " failed to encode.")⟩
      | _ =>
        ⟨ret, err, u1.emitNotifyEventInParam "IsBlockUseTrieHash" doParamSetSuccess
          "param set successful."⟩

/-- The method getIsBlockUseTrieHash (result of type uint32). -/
def ParamManager.getIsBlockUseTrieHash (env : Env) (u : ParamManager) : Nat × Option Error :=
  match u.getParam (env.rlpDecodeUint 32) (isBlockUseTrieHashKey env) isBlockUseTrieHashDefault with
  | (v, err) =>
    if err ≠ none ∧ err ≠ some Error.errEmptyValue then (isBlockUseTrieHashDefault, err)
    else (v, none)

/-- The setter entries of AllExportFns, each with its argument. -/
inductive SetterCall where
  | setGasContractName (contractName : String)
  | setIsProduceEmptyBlock (isProduceEmptyBlock : Nat)
  | setTxGasLimit (txGasLimit : Nat)
  | setBlockGasLimit (blockGasLimit : Nat)
  | setCheckContractDeployPermission (permission : Nat)
  | setIsApproveDeployedContract (isApproveDeployedContract : Nat)
  | setIsTxUseGas (isTxUseGas : Nat)
  | setVRFParams (params : VRFParams)
  | setIsBlockUseTrieHash (isBlockUseTrieHash : Nat)

/-- Dispatch of a setter entry of AllExportFns to the method bound to it. -/
def ParamManager.callSetter (env : Env) (u : ParamManager) : SetterCall → Ret
  | .setGasContractName n => u.setGasContractName env n
  | .setIsProduceEmptyBlock x => u.setIsProduceEmptyBlock env x
  | .setTxGasLimit x => u.setTxGasLimit env x
  | .setBlockGasLimit x => u.setBlockGasLimit env x
  | .setCheckContractDeployPermission x => u.setCheckContractDeployPermission env x
  | .setIsApproveDeployedContract x => u.setIsApproveDeployedContract env x
  | .setIsTxUseGas x => u.setIsTxUseGas env x
  | .setVRFParams p => u.setVRFParams env p
  | .setIsBlockUseTrieHash x => u.setIsBlockUseTrieHash env x

/-- The storage key a setter hands to doParamSet. -/
def SetterCall.key (env : Env) : SetterCall → Bytes
  | .setGasContractName _ => gasContractNameKey env
  | .setIsProduceEmptyBlock _ => isProduceEmptyBlockKey env
  | .setTxGasLimit _ => txGasLimitKey env
  | .setBlockGasLimit _ => blockGasLimitKey env
  | .setCheckContractDeployPermission _ => isCheckContractDeployPermission env
  | .setIsApproveDeployedContract _ => isApproveDeployedContractKey env
  | .setIsTxUseGas _ => isTxUseGasKey env
  | .setVRFParams _ => vrfParamsKey env
  | .setIsBlockUseTrieHash _ => isBlockUseTrieHashKey env

/-- The value a setter hands to doParamSet: its argument, at its Go type. -/
def SetterCall.value : SetterCall → Value
  | .setGasContractName n => Value.str n
  | .setIsProduceEmptyBlock x => Value.u32 x
  | .setTxGasLimit x => Value.u64 x
  | .setBlockGasLimit x => Value.u64 x
  | .setCheckContractDeployPermission x => Value.u32 x
  | .setIsApproveDeployedContract x => Value.u32 x
  | .setIsTxUseGas x => Value.u64 x
  | .setVRFParams p => Value.vrf p
  | .setIsBlockUseTrieHash x => Value.u64 x

/-- The status a setter returns on its failing returns: the literal 0 in
setVRFParams, failFlag in every other setter. -/
def SetterCall.failStatus : SetterCall → Int
  | .setVRFParams _ => 0
  | _ => failFlag

/-- The nine storage keys of the contract, in the order of their declaration. -/
def stateKeys (env : Env) : List Bytes :=
  [gasContractNameKey env, isProduceEmptyBlockKey env, txGasLimitKey env, blockGasLimitKey env,
   isCheckContractDeployPermission env, isApproveDeployedContractKey env, isTxUseGasKey env,
   vrfParamsKey env, isBlockUseTrieHashKey env]

/-- The nine keys produced by generateStateKey are pairwise distinct. -/
def KeysDistinct (env : Env) : Prop := (stateKeys env).Nodup

/-- A value fits the Go type it is passed at: uint32, uint64, a string (whose
length is a machine integer), or a VRFParams record of uint64 fields. -/
def Value.WellTyped : Value → Prop
  | .u32 n => n < 2 ^ 32
  | .u64 n => n < 2 ^ 64
  | .str s => s.length < 2 ^ 64
  | .vrf p => p.ElectionEpoch < 2 ^ 64 ∧ p.NextElectionBlock < 2 ^ 64 ∧ p.ValidatorCount < 2 ^ 64

/-- What the contract relies on from the rlp package: a well-typed value always
encodes, to a non-empty byte string, and decoding that string at the type of the
matching getter gives the value back.  The two flags written as uint64 and read
as uint32 need the third decoding law. -/
structure RlpLawful (env : Env) : Prop where
  encode_total : ∀ v : Value, v.WellTyped → ∃ bs, env.rlpEncodeToBytes v = .ok bs
  encode_ne_nil : ∀ (v : Value) (bs : Bytes), v.WellTyped →
    env.rlpEncodeToBytes v = .ok bs → bs ≠ []
  decode_u32 : ∀ (n : Nat) (bs : Bytes), n < 2 ^ 32 →
    env.rlpEncodeToBytes (.u32 n) = .ok bs → env.rlpDecodeUint 32 bs = .ok n
  decode_u64 : ∀ (n : Nat) (bs : Bytes), n < 2 ^ 64 →
    env.rlpEncodeToBytes (.u64 n) = .ok bs → env.rlpDecodeUint 64 bs = .ok n
  decode_u64_as_u32 : ∀ (n : Nat) (bs : Bytes), n < 2 ^ 32 →
    env.rlpEncodeToBytes (.u64 n) = .ok bs → env.rlpDecodeUint 32 bs = .ok n
  decode_str : ∀ (s : String) (bs : Bytes), s.length < 2 ^ 64 →
    env.rlpEncodeToBytes (.str s) = .ok bs → env.rlpDecodeString bs = .ok s
  decode_vrf : ∀ (p : VRFParams) (bs : Bytes), (Value.vrf p).WellTyped →
    env.rlpEncodeToBytes (.vrf p) = .ok bs → env.rlpDecodeVRFParams bs = .ok p

/-- The states of the governance contract at address addr that can be reached
from empty governance storage by setter calls, made by any caller at any block
number with any argument. -/
inductive Reachable (env : Env) (addr : Address) : StateDB → Prop where
  | init (db : StateDB) (h : ∀ k, db.storage addr k = []) : Reachable env addr db
  | step (db : StateDB) (caller : Address) (blockNumber : Nat) (c : SetterCall)
      (h : Reachable env addr db) :
      Reachable env addr ((ParamManager.mk db addr caller blockNumber).callSetter env c).stateDB

/-- The checks a setter makes on its argument before it calls doParamSet: the
name-format and registration checks, the boolean-domain check, the numeric
bounds together with the comparison against the sibling gas limit (which needs
the sibling slot to be absent or to decode), the validator count. -/
def SetterCall.passesValidation (env : Env) (u : ParamManager) : SetterCall → Prop
  | .setGasContractName n =>
    env.checkNameFormat n = true ∧ env.getRegisterStatusByName u.stateDB n = true
  | .setIsProduceEmptyBlock x => x / 2 = 0
  | .setTxGasLimit t =>
    TxGasLimitMinValue ≤ t ∧ t ≤ TxGasLimitMaxValue ∧
      (u.getBlockGasLimit env).2 = none ∧ t ≤ (u.getBlockGasLimit env).1
  | .setBlockGasLimit b =>
    BlockGasLimitMinValue ≤ b ∧ b ≤ BlockGasLimitMaxValue ∧
      (u.getTxGasLimit env).2 = none ∧ (u.getTxGasLimit env).1 ≤ b
  | .setCheckContractDeployPermission x => x / 2 = 0
  | .setIsApproveDeployedContract x => x / 2 = 0
  | .setIsTxUseGas x => x / 2 = 0
  | .setVRFParams p => 1 ≤ p.ValidatorCount
  | .setIsBlockUseTrieHash x => x / 2 = 0

/-- The sibling gas-limit slot a gas-limit setter reads before its comparison is
absent or decodes: the matching getter returns a nil error.  The other setters
read no slot. -/
def SetterCall.siblingReadable (env : Env) (u : ParamManager) : SetterCall → Prop
  | .setTxGasLimit _ => (u.getBlockGasLimit env).2 = none
  | .setBlockGasLimit _ => (u.getTxGasLimit env).2 = none
  | _ => True

/-- The getter of the parameter a setter call addresses returns the argument
of that call, with a nil error. -/
def SetterCall.readsBack (env : Env) (u : ParamManager) : SetterCall → Prop
  | .setGasContractName n => u.getGasContractName env = (n, none)
  | .setIsProduceEmptyBlock x => u.getIsProduceEmptyBlock env = (x, none)
  | .setTxGasLimit t => u.getTxGasLimit env = (t, none)
  | .setBlockGasLimit b => u.getBlockGasLimit env = (b, none)
  | .setCheckContractDeployPermission x => u.getCheckContractDeployPermission env = (x, none)
  | .setIsApproveDeployedContract x => u.getIsApproveDeployedContract env = (x, none)
  | .setIsTxUseGas x => u.getIsTxUseGas env = (x, none)
  | .setVRFParams p => u.getVRFParams env = (p, none)
  | .setIsBlockUseTrieHash x => u.getIsBlockUseTrieHash env = (x, none)

/-- The success outcome of a setter call: nil error, the parameter's slot holds
the encoding of the argument and nothing else was written, and exactly one
event was emitted, with code doParamSetSuccess. -/
def SuccessOutcome (env : Env) (u : ParamManager) (c : SetterCall) (r : Ret) : Prop :=
  r.err = none ∧
  (∃ bs, env.rlpEncodeToBytes c.value = .ok bs ∧
    r.stateDB.GetState u.contractAddr (c.key env) = bs ∧
    r.stateDB.storage = (u.setState (c.key env) bs).storage) ∧
  ∃ e : Log, r.stateDB.logs = u.stateDB.logs ++ [e] ∧ e.code = doParamSetSuccess

/-- The failure outcome of a setter call: no storage slot changed and an event
with one of the four failure codes was emitted. -/
def FailureOutcome (u : ParamManager) (r : Ret) : Prop :=
  r.stateDB.storage = u.stateDB.storage ∧
  ∃ e : Log, r.stateDB.logs = u.stateDB.logs ++ [e] ∧
    (e.code = callerHasNoPermission ∨ e.code = encodeFailure ∨ e.code = paramInvalid ∨
      e.code = contractNameNotExists)

/-- The third way a gas-limit setter can end: the sibling gas-limit slot holds a
value that does not decode, and the decoding error is returned with failFlag,
nothing written and no event emitted. -/
def SilentDecodeFailure (env : Env) (u : ParamManager) (c : SetterCall) (r : Ret) : Prop :=
  r.stateDB.storage = u.stateDB.storage ∧ r.stateDB.logs = u.stateDB.logs ∧
  r.val = failFlag ∧
  ∃ m : String, r.err = some (Error.rlp m) ∧
    ((∃ t, c = SetterCall.setTxGasLimit t ∧ (u.getBlockGasLimit env).2 = some (Error.rlp m)) ∨
     (∃ b, c = SetterCall.setBlockGasLimit b ∧ (u.getTxGasLimit env).2 = some (Error.rlp m)))

/-- The method getVRFParamsWrapper, the handler bound to the exported name
getVRFParams: both error branches return the empty string with a nil error.
The function json.Marshal is passed as jsonMarshal. -/
def ParamManager.getVRFParamsWrapper (env : Env) (jsonMarshal : VRFParams → Except String String)
    (u : ParamManager) : String × Option Error :=
  match u.getVRFParams env with
  | (vrf, err) =>
    if err ≠ none then ("", none)
    else
      match jsonMarshal vrf with
      | .error _ => ("", none)
      | .ok b => (b, none)

/-- The getter entries of AllExportFns. -/
inductive GetterCall where
  | getGasContractName
  | getIsProduceEmptyBlock
  | getTxGasLimit
  | getBlockGasLimit
  | getCheckContractDeployPermission
  | getIsApproveDeployedContract
  | getIsTxUseGas
  | getVRFParams
  | getIsBlockUseTrieHash
  deriving DecidableEq

/-- What an exported getter hands to its caller: a string or an unsigned
integer. -/
inductive GetterValue where
  | str (s : String)
  | uint (n : Nat)
  deriving DecidableEq

/-- Dispatch of a getter entry of AllExportFns to the method bound to it; the
name getVRFParams is bound to getVRFParamsWrapper. -/
def ParamManager.callGetter (env : Env) (jsonMarshal : VRFParams → Except String String)
    (u : ParamManager) : GetterCall → GetterValue × Option Error
  | .getGasContractName => (GetterValue.str (u.getGasContractName env).1, (u.getGasContractName env).2)
  | .getIsProduceEmptyBlock =>
    (GetterValue.uint (u.getIsProduceEmptyBlock env).1, (u.getIsProduceEmptyBlock env).2)
  | .getTxGasLimit => (GetterValue.uint (u.getTxGasLimit env).1, (u.getTxGasLimit env).2)
  | .getBlockGasLimit => (GetterValue.uint (u.getBlockGasLimit env).1, (u.getBlockGasLimit env).2)
  | .getCheckContractDeployPermission =>
    (GetterValue.uint (u.getCheckContractDeployPermission env).1,
      (u.getCheckContractDeployPermission env).2)
  | .getIsApproveDeployedContract =>
    (GetterValue.uint (u.getIsApproveDeployedContract env).1,
      (u.getIsApproveDeployedContract env).2)
  | .getIsTxUseGas => (GetterValue.uint (u.getIsTxUseGas env).1, (u.getIsTxUseGas env).2)
  | .getVRFParams =>
    (GetterValue.str (u.getVRFParamsWrapper env jsonMarshal).1,
      (u.getVRFParamsWrapper env jsonMarshal).2)
  | .getIsBlockUseTrieHash =>
    (GetterValue.uint (u.getIsBlockUseTrieHash env).1, (u.getIsBlockUseTrieHash env).2)

/-- The storage key a getter reads. -/
def GetterCall.key (env : Env) : GetterCall → Bytes
  | .getGasContractName => gasContractNameKey env
  | .getIsProduceEmptyBlock => isProduceEmptyBlockKey env
  | .getTxGasLimit => txGasLimitKey env
  | .getBlockGasLimit => blockGasLimitKey env
  | .getCheckContractDeployPermission => isCheckContractDeployPermission env
  | .getIsApproveDeployedContract => isApproveDeployedContractKey env
  | .getIsTxUseGas => isTxUseGasKey env
  | .getVRFParams => vrfParamsKey env
  | .getIsBlockUseTrieHash => isBlockUseTrieHashKey env

/-- The slot a getter reads holds a non-empty value that the decoder the getter
uses rejects. -/
def GetterCall.slotFailsToDecode (env : Env) (u : ParamManager) : GetterCall → Prop
  | .getGasContractName =>
    u.getState (gasContractNameKey env) ≠ [] ∧
      ∃ m, env.rlpDecodeString (u.getState (gasContractNameKey env)) = .error m
  | .getVRFParams =>
    u.getState (vrfParamsKey env) ≠ [] ∧
      ∃ m, env.rlpDecodeVRFParams (u.getState (vrfParamsKey env)) = .error m
  | .getTxGasLimit =>
    u.getState (txGasLimitKey env) ≠ [] ∧
      ∃ m, env.rlpDecodeUint 64 (u.getState (txGasLimitKey env)) = .error m
  | .getBlockGasLimit =>
    u.getState (blockGasLimitKey env) ≠ [] ∧
      ∃ m, env.rlpDecodeUint 64 (u.getState (blockGasLimitKey env)) = .error m
  | g =>
    u.getState (g.key env) ≠ [] ∧ ∃ m, env.rlpDecodeUint 32 (u.getState (g.key env)) = .error m

/-- The audit code that accompanies a reported error on the setter paths: the
invalid validator count shares the code paramInvalid with the invalid
parameter; the errors of getParam have no code. -/
def auditCodeOf : Error → Option CodeType
  | .errNoPermission => some callerHasNoPermission
  | .errEncodeFailure => some encodeFailure
  | .errParamInvalid => some paramInvalid
  | .errValidatorCountInvalid => some paramInvalid
  | .errContactNameNotExist => some contractNameNotExists
  | .errEmptyValue => none
  | .rlp _ => none

/-! ## A concrete set of collaborators

Canonical RLP for the four value shapes, keys that are the bytes of their
names, and a fixed administrator.  It instantiates the theorems below. -/

namespace sample

/-- Big-endian bytes of a number, without leading zeros; at most fuel bytes. -/
def toBigEndian : Nat → Nat → Bytes
  | 0, _ => []
  | fuel + 1, n => if n = 0 then [] else toBigEndian fuel (n / 256) ++ [n % 256]

def fromBigEndian (bs : Bytes) : Nat :=
  bs.foldl (fun acc b => acc * 256 + b) 0

/-- RLP of an unsigned integer: 0x80 for zero, the byte itself below 0x80,
otherwise the length-prefixed big-endian bytes. -/
def rlpEncodeUint (n : Nat) : Bytes :=
  if n = 0 then [0x80]
  else if n < 0x80 then [n]
  else (0x80 + (toBigEndian 8 n).length) :: toBigEndian 8 n

/-- Canonical RLP decoding into an unsigned integer of the given width. -/
def rlpDecodeUint (bits : Nat) : Bytes → Except String Nat
  | [] => .error "EOF"
  | h :: t =>
    if h < 0x80 then
      if t ≠ [] then .error "rlp: input contains more than one value"
      else if h = 0 then .error "rlp: non-canonical integer (leading zero bytes)"
      else .ok h
    else if h ≤ 0xb7 then
      if h - 0x80 > bits / 8 then .error "rlp: uint overflow"
      else if t.length < h - 0x80 then .error "rlp: value size exceeds available input length"
      else if t.length > h - 0x80 then .error "rlp: input contains more than one value"
      else if t.length = 1 ∧ t.head? = some 0 then
        .error "rlp: non-canonical integer (leading zero bytes)"
      else if t.length = 1 ∧ t.headD 0 < 0x80 then .error "rlp: non-canonical size information"
      else if t.head? = some 0 then .error "rlp: non-canonical integer (leading zero bytes)"
      else .ok (fromBigEndian t)
    else .error "rlp: expected input string or byte"

/-- The bytes of a string, one element per character. -/
def stringBytes (s : String) : Bytes := s.toList.map Char.toNat

/-- RLP of a string: a single byte below 0x80 stands for itself, up to 55 bytes
take a one-byte length prefix, longer strings a length-of-length prefix. -/
def rlpEncodeString (s : String) : Bytes :=
  let bs := stringBytes s
  if bs.length = 1 ∧ bs.headD 0 < 0x80 then bs
  else if bs.length < 56 then (0x80 + bs.length) :: bs
  else (0xb7 + (toBigEndian 8 bs.length).length) :: (toBigEndian 8 bs.length ++ bs)

/-- Canonical RLP decoding into a string. -/
def rlpDecodeString : Bytes → Except String String
  | [] => .error "EOF"
  | h :: t =>
    if h < 0x80 then
      if t ≠ [] then .error "rlp: input contains more than one value"
      else .ok (String.mk ([h].map Char.ofNat))
    else if h ≤ 0xb7 then
      if t.length ≠ h - 0x80 then .error "rlp: value size mismatch"
      else if t.length = 1 ∧ t.headD 0 < 0x80 then .error "rlp: non-canonical size information"
      else .ok (String.mk (t.map Char.ofNat))
    else if h ≤ 0xbf then
      if t.length < h - 0xb7 then .error "rlp: value size exceeds available input length"
      else if (t.take (h - 0xb7)).head? = some 0 then
        .error "rlp: non-canonical size information"
      else if fromBigEndian (t.take (h - 0xb7)) < 56 then
        .error "rlp: non-canonical size information"
      else if (t.drop (h - 0xb7)).length ≠ fromBigEndian (t.take (h - 0xb7)) then
        .error "rlp: value size mismatch"
      else .ok (String.mk ((t.drop (h - 0xb7)).map Char.ofNat))
    else .error "rlp: expected input string or byte"

/-- Split the first string item off an RLP payload. -/
def splitItem : Bytes → Option (Bytes × Bytes)
  | [] => none
  | h :: t =>
    if h < 0x80 then some ([h], t)
    else if h ≤ 0xb7 then
      if t.length < h - 0x80 then none
      else some (h :: t.take (h - 0x80), t.drop (h - 0x80))
    else none

/-- RLP of a VRFParams record: the list of its three fields. -/
def rlpEncodeVRFParams (p : VRFParams) : Bytes :=
  let payload := rlpEncodeUint p.ElectionEpoch ++ (rlpEncodeUint p.NextElectionBlock ++
    rlpEncodeUint p.ValidatorCount)
  (0xc0 + payload.length) :: payload

/-- Canonical RLP decoding into a VRFParams record. -/
def rlpDecodeVRFParams : Bytes → Except String VRFParams
  | [] => .error "EOF"
  | h :: t =>
    if h < 0xc0 then .error "rlp: expected input list"
    else if h > 0xf7 then .error "rlp: list too long"
    else if t.length ≠ h - 0xc0 then .error "rlp: value size mismatch"
    else
      match splitItem t with
      | none => .error "rlp: too few elements"
      | some (i1, r1) =>
        match rlpDecodeUint 64 i1 with
        | .error e => .error e
        | .ok a =>
          match splitItem r1 with
          | none => .error "rlp: too few elements"
          | some (i2, r2) =>
            match rlpDecodeUint 64 i2 with
            | .error e => .error e
            | .ok b =>
              match splitItem r2 with
              | none => .error "rlp: too few elements"
              | some (i3, r3) =>
                match rlpDecodeUint 64 i3 with
                | .error e => .error e
                | .ok c =>
                  if r3 ≠ [] then .error "rlp: input list has too many elements"
                  else .ok ⟨a, b, c⟩

def rlpEncodeToBytes : Value → Except String Bytes
  | .u32 n => .ok (rlpEncodeUint n)
  | .u64 n => .ok (rlpEncodeUint n)
  | .str s => .ok (rlpEncodeString s)
  | .vrf p => .ok (rlpEncodeVRFParams p)

/-- The address of the governance contract in the sample states. -/
def paramManagerAddr : Address := "0x1000000000000000000000000000000000000004"

/-- The sample collaborators: keys are the bytes of their names, the caller
"admin" alone may set parameters, a name is well-formed when it is not empty and
registered when the name registry holds an entry for it. -/
def env : Env where
  generateStateKey := stringBytes
  hasParamOpPermission := fun _ caller => decide (caller = "admin")
  checkNameFormat := fun name => decide (name ≠ "")
  getRegisterStatusByName := fun db name => decide (db.storage "cns" (stringBytes name) ≠ [])
  rlpEncodeToBytes := rlpEncodeToBytes
  rlpDecodeUint := rlpDecodeUint
  rlpDecodeString := rlpDecodeString
  rlpDecodeVRFParams := rlpDecodeVRFParams

/-- Empty storage everywhere, no event emitted yet. -/
def emptyDB : StateDB := ⟨fun _ _ => [], []⟩

/-- A state whose block-gas-limit slot holds the RLP of an empty list, which is
not the encoding of any unsigned integer. -/
def corruptDB : StateDB :=
  ⟨fun a k => if a = paramManagerAddr ∧ k = blockGasLimitKey env then [0xc0] else [], []⟩

/-- A state in which the name "gas" is registered. -/
def registeredDB : StateDB :=
  ⟨fun a k => if a = "cns" ∧ k = stringBytes "gas" then [1] else [], []⟩

/-- The contract called by the administrator on empty storage, at block 7. -/
def admin : ParamManager := ⟨emptyDB, paramManagerAddr, "admin", 7⟩

/-- The contract called by a caller without permission on empty storage. -/
def guest : ParamManager := ⟨emptyDB, paramManagerAddr, "guest", 7⟩

/-- The administrator calling the contract on the state with the corrupt slot. -/
def corruptAdmin : ParamManager := ⟨corruptDB, paramManagerAddr, "admin", 7⟩

/-- The administrator calling the contract at block 8, after the transaction gas
limit has been set to 2000000000 at block 7. -/
def adminAfterTx : ParamManager :=
  ⟨(admin.setTxGasLimit env 2000000000).stateDB, paramManagerAddr, "admin", 8⟩

/-- A state whose VRF-parameters slot holds the RLP of the empty string, which
is not the encoding of a list. -/
def corruptVrfDB : StateDB :=
  ⟨fun a k => if a = paramManagerAddr ∧ k = vrfParamsKey env then [0x80] else [], []⟩

/-- Any caller reading the state with the corrupt VRF-parameters slot. -/
def corruptVrfReader : ParamManager := ⟨corruptVrfDB, paramManagerAddr, "guest", 7⟩

/-- A stand-in for json.Marshal on VRFParams: the three fields in order. -/
def jsonMarshal (p : VRFParams) : Except String String :=
  .ok ("[" ++ toString p.ElectionEpoch ++ "," ++ toString p.NextElectionBlock ++ "," ++
    toString p.ValidatorCount ++ "]")

/-- The administrator calling the contract on a state in which the name "gas"
is registered. -/
def registeredAdmin : ParamManager := ⟨registeredDB, paramManagerAddr, "admin", 7⟩

end sample

end vm

/-! # The consensus node list resolver (consensus/istanbul/backend/call_contract.go)

The functions of the file are embedded over a structure Chain that collects what
they call and read: the chain reader, the state database, the virtual
machine, the process-wide configuration common.SysCfg and the helpers of the
packages common, json and discover.  A function returns, next to its Go
result, the list of the snapshots it opened and the synthetic calls it made; a
nil pointer dereference is the error of Except. -/

namespace backend

/-- A Go byte slice that may be nil (none). -/
abbrev GoBytes := Option vm.Bytes

/-- Modelled from the spec: common.NodeInfo, "PublicKey: variable-length hex
string, metadata fields". -/
structure NodeInfo where
  PublicKey : String
  metadata : String
  deriving DecidableEq

/-- Modelled from the spec: discover.NodeID, "a fixed-size identifier derived by
parsing PublicKey", kept as its bytes. -/
abbrev NodeID := vm.Bytes

/-- Modelled from the spec: common.CommonResult, the record the node-manager
entry points return; the resolver reads its field Data only. -/
structure CommonResult where
  RetCode : Int
  RetMsg : String
  Data : List NodeInfo
  deriving DecidableEq

/-- The fields of types.Header the file reads. -/
structure Header where
  Root : Nat
  Number : Nat
  deriving DecidableEq

/-- A run-time panic of the Go program. -/
inductive Panic where
  | nilPointerDereference
  deriving DecidableEq

/-- What a function of the file does to the chain while it runs: it opens the
state snapshot of a root, or it makes a synthetic call of a contract. -/
inductive Effect where
  | openState (root : Nat)
  | call (contract : vm.Address) (data : vm.Bytes)
  deriving DecidableEq

/-- The collaborators of the file; the type σ is the state the virtual machine
works on. -/
structure Chain (σ : Type) where
  /-- The number chain.CurrentHeader().Number.Uint64(). -/
  CurrentHeaderNumber : Nat
  /-- The method chain.GetHeaderByNumber(number); none is the nil header. -/
  GetHeaderByNumber : Nat → Option Header
  /-- The call state.New(root, state.NewDatabase(sb.db)), its error dropped; none
  is the nil state. -/
  stateNew : Nat → Option σ
  /-- The call evm.Call(vm.AccountRef(common.Address), conAddr, data,
  0xffffffffff, 0) on a machine built over the state: the output, the error,
  and the state the call leaves. -/
  evmCall : σ → vm.Address → vm.Bytes → (GoBytes × Option String) × σ
  /-- The constant syscontracts.CnsManagementAddress. -/
  CnsManagementAddress : vm.Address
  /-- The function common.GenCallData(funcName, params). -/
  GenCallData : String → List String → vm.Bytes
  /-- The function common.CallResAsString(res). -/
  CallResAsString : GoBytes → String
  /-- The function common.IsHexZeroAddress(s). -/
  IsHexZeroAddress : String → Bool
  /-- The function common.HexToAddress(s). -/
  HexToAddress : String → vm.Address
  /-- The call json.Unmarshal(utils.String2bytes(s), &d) for d holding a pointer to
  a common.VRFParams: an error, or the value d holds afterwards (none when it
  is nil). -/
  jsonUnmarshalVRFParams : String → Except String (Option vm.VRFParams)
  /-- The same call for d holding a pointer to a common.CommonResult. -/
  jsonUnmarshalCommonResult : String → Except String (Option CommonResult)
  /-- The variable common.SysCfg.SysParam.VRF. -/
  SysCfgVRF : vm.VRFParams
  /-- The method common.SysCfg.GetConsensusNodesFilterDelay(number, nodes,
  isOldBlock). -/
  GetConsensusNodesFilterDelay : Nat → List NodeInfo → Bool → List NodeInfo
  /-- The function discover.HexID(pubKey). -/
  HexID : String → Except String NodeID

/-- The closure callContract of CallSystemContractAtBlockNumber: nil when the
call returns an error, its output otherwise. -/
def callContract {σ : Type} (ch : Chain σ) (st : σ) (conAddr : vm.Address) (data : vm.Bytes) :
    GoBytes × σ :=
  match ch.evmCall st conAddr data with
  | ((res, err), st1) => if err ≠ none then (none, st1) else (res, st1)

/-- The name-registry lookup of CallSystemContractAtBlockNumber: the call of
getContractAddress with the contract name and the tag "latest" at the
name-registry address, as evm.Call answers it. -/
def registryLookup {σ : Type} (ch : Chain σ) (st : σ) (sysContractName : String) :
    (GoBytes × Option String) × σ :=
  ch.evmCall st ch.CnsManagementAddress
    (ch.GenCallData "getContractAddress" [sysContractName, "latest"])

/-- The function CallSystemContractAtBlockNumber.  The root is read from the
header returned by GetHeaderByNumber without a nil check. -/
def CallSystemContractAtBlockNumber {σ : Type} (ch : Chain σ) (number : Nat)
    (sysContractName sysFuncName : String) (sysFuncParams : List String) :
    Except Panic (GoBytes × List Effect) :=
  match ch.GetHeaderByNumber number with
  | none => .error Panic.nilPointerDereference
  | some header =>
    match ch.stateNew header.Root with
    | none => .ok (none, [Effect.openState header.Root])
    | some _state =>
      let callParams := [sysContractName, "latest"]
      let cnsData := ch.GenCallData "getContractAddress" callParams
      match callContract ch _state ch.CnsManagementAddress cnsData with
      | (btsRes, st1) =>
        let strRes := ch.CallResAsString btsRes
        if strRes.length = 0 ∨ ch.IsHexZeroAddress strRes = true then
          .ok (none, [Effect.openState header.Root, Effect.call ch.CnsManagementAddress cnsData])
        else
          let contractAddr := ch.HexToAddress strRes
          let data := ch.GenCallData sysFuncName sysFuncParams
          .ok ((callContract ch st1 contractAddr data).1,
            [Effect.openState header.Root, Effect.call ch.CnsManagementAddress cnsData,
              Effect.call contractAddr data])

/-- The function ParseResultToExtractType; unmarshal is json.Unmarshal at the
type of the second argument.  The result is nil on an error, and otherwise
what the unmarshalled interface holds. -/
def ParseResultToExtractType {σ α : Type} (ch : Chain σ)
    (unmarshal : String → Except String (Option α)) (res : GoBytes) : Option α :=
  let strRes := ch.CallResAsString res
  match unmarshal strRes with
  | .error _ => none
  | .ok d => d

/-- The function getVRFParamsAtNumber; none is the nil pointer. -/
def getVRFParamsAtNumber {σ : Type} (ch : Chain σ) (number : Nat) :
    Except Panic (Option vm.VRFParams × List Effect) :=
  let isOldBlock := decide (number < ch.CurrentHeaderNumber)
  if !isOldBlock then .ok (some ch.SysCfgVRF, [])
  else
    match CallSystemContractAtBlockNumber ch number "__sys_ParamManager" "getVRFParams" [] with
    | .error e => .error e
    | .ok (resVRF, effects) =>
      match ParseResultToExtractType ch ch.jsonUnmarshalVRFParams resVRF with
      | some vrf => .ok (some vrf, effects)
      | none => .ok (none, effects)

/-- The function getVrfConsensusNodesAtNumber. -/
def getVrfConsensusNodesAtNumber {σ : Type} (ch : Chain σ) (number : Nat) :
    Except Panic (List NodeInfo × List Effect) :=
  match CallSystemContractAtBlockNumber ch number "__sys_NodeManager" "getVrfConsensusNodes" [] with
  | .error e => .error e
  | .ok (resVrfConsensusNodes, effects) =>
    match ParseResultToExtractType ch ch.jsonUnmarshalCommonResult resVrfConsensusNodes with
    | some nodes => .ok (nodes.Data, effects)
    | none => .ok ([], effects)

/-- The function getCandidateNodesAtNumber. -/
def getCandidateNodesAtNumber {σ : Type} (ch : Chain σ) (number : Nat) :
    Except Panic (List NodeInfo × List Effect) :=
  let isOldBlock := decide (number < ch.CurrentHeaderNumber)
  if isOldBlock then
    match CallSystemContractAtBlockNumber ch number "__sys_NodeManager" "getAllNodes" [] with
    | .error e => .error e
    | .ok (resNodes, effects) =>
      match ParseResultToExtractType ch ch.jsonUnmarshalCommonResult resNodes with
      | some tmp => .ok (ch.GetConsensusNodesFilterDelay number tmp.Data isOldBlock, effects)
      | none => .ok (ch.GetConsensusNodesFilterDelay number [] isOldBlock, effects)
  else .ok (ch.GetConsensusNodesFilterDelay number [] isOldBlock, [])

/-- One turn of the loop of getConsensusNodesList. -/
def appendNodeID {σ : Type} (ch : Chain σ) (nodeIDs : List NodeID) (dataObj : NodeInfo) :
    List NodeID :=
  if dataObj.PublicKey.length > 0 then
    match ch.HexID dataObj.PublicKey with
    | .ok nodeID => nodeIDs ++ [nodeID]
    | .error _ => nodeIDs
  else nodeIDs

/-- The loop of getConsensusNodesList over the selected records. -/
def nodeIDsOf {σ : Type} (ch : Chain σ) (tmp : List NodeInfo) : List NodeID :=
  tmp.foldl (appendNodeID ch) []

/-- The function getConsensusNodesList: its two Go results, the node identities
and the error, and the effects.  The election epoch is read through the pointer
returned by getVRFParamsAtNumber without a nil check.  The comment above the
function in the source names it getInitialNodesList and says that the list is
caught from the paramManager contract; the code reads only the VRF parameters
from "__sys_ParamManager", and takes the list from "__sys_NodeManager" or from
the in-memory list of SysCfg. -/
def getConsensusNodesList {σ : Type} (ch : Chain σ) (number : Nat) :
    Except Panic ((List NodeID × Option String) × List Effect) :=
  match getVRFParamsAtNumber ch number with
  | .error e => .error e
  | .ok (none, _) => .error Panic.nilPointerDereference
  | .ok (some tmpVrfParam, effects1) =>
    if tmpVrfParam.ElectionEpoch ≠ 0 then
      match getVrfConsensusNodesAtNumber ch number with
      | .error e => .error e
      | .ok (tmp, effects2) => .ok ((nodeIDsOf ch tmp, none), effects1 ++ effects2)
    else
      match getCandidateNodesAtNumber ch number with
      | .error e => .error e
      | .ok (tmp, effects2) => .ok ((nodeIDsOf ch tmp, none), effects1 ++ effects2)

/-- The filter-map the loop computes: a record gives its parsed identity when
its PublicKey is not empty and discover.HexID accepts it. -/
def usableNodeID {σ : Type} (ch : Chain σ) (dataObj : NodeInfo) : Option NodeID :=
  if dataObj.PublicKey.length > 0 then
    match ch.HexID dataObj.PublicKey with
    | .ok nodeID => some nodeID
    | .error _ => none
  else none

/-- The type ChainContext: the chain reader and the engine; both are part of the
collaborators collected in Chain. -/
structure ChainContext (σ : Type) where
  chain : Chain σ
  engine : Chain σ

/-- The method ChainContext.GetHeader, run with a bound on the depth of its
calls: its body is the call of itself on the same receiver with the same
arguments, and nothing else.  The result none says that no header was returned
within the bound. -/
def ChainContext.GetHeader {σ : Type} (cc : ChainContext σ) (hash : Nat) (number : Nat) :
    (fuel : Nat) → Option Header
  | 0 => none
  | fuel + 1 => cc.GetHeader hash number fuel

/-- The method ChainContext.Engine. -/
def ChainContext.Engine {σ : Type} (cc : ChainContext σ) : Chain σ := cc.engine

/-- The terminating runs of ChainContext.GetHeader: a call returns the header
that the call in its body returns; the method has no other return. -/
inductive GetHeaderReturns {σ : Type} (cc : ChainContext σ) (hash : Nat) (number : Nat) :
    Header → Prop where
  | call (header : Header) (h : GetHeaderReturns cc hash number header) :
      GetHeaderReturns cc hash number header

/-! ## A concrete chain -/

namespace sample

def str (s : String) : vm.Bytes := s.toList.map Char.toNat

def unstr (bs : vm.Bytes) : String := String.mk (bs.map Char.ofNat)

/-- The contracts of the sample chain: the name registry at "cns" knows the
parameter manager at "0xpm" and the node manager at "0xnm"; the answers are
documents given by name. -/
def evmCall (st : Nat) (conAddr : vm.Address) (data : vm.Bytes) :
    (GoBytes × Option String) × Nat :=
  if conAddr = "cns" ∧ data = str "getContractAddress(__sys_ParamManager,latest)" then
    ((some (str "0xpm"), none), st)
  else if conAddr = "cns" ∧ data = str "getContractAddress(__sys_NodeManager,latest)" then
    ((some (str "0xnm"), none), st)
  else if conAddr = "cns" then ((some (str "0x0"), none), st)
  else if conAddr = "0xpm" ∧ data = str "getVRFParams()" then ((some (str "vrf"), none), st)
  else if conAddr = "0xnm" ∧ data = str "getVrfConsensusNodes()" then
    ((some (str "elected"), none), st)
  else if conAddr = "0xnm" ∧ data = str "getAllNodes()" then ((some (str "all"), none), st)
  else ((none, some "execution reverted"), st)

def elected : List NodeInfo := [⟨"aa", "n1"⟩, ⟨"", "n2"⟩, ⟨"zz", "n3"⟩, ⟨"bb", "n4"⟩]

def candidates : List NodeInfo := [⟨"cc", "n5"⟩, ⟨"aa", "n1"⟩]

/-- The sample chain: the head is block 10, the header of block n has root n
for n up to 10, the states of the blocks before 5 are pruned, the cached VRF
parameters have election epoch 0, and the in-memory candidate list is used for
the head. -/
def chain : Chain Nat where
  CurrentHeaderNumber := 10
  GetHeaderByNumber := fun n => if n ≤ 10 then some ⟨n, n⟩ else none
  stateNew := fun root => if 5 ≤ root then some root else none
  evmCall := evmCall
  CnsManagementAddress := "cns"
  GenCallData := fun f ps => str (f ++ "(" ++ ",".intercalate ps ++ ")")
  CallResAsString := fun res => match res with
    | none => ""
    | some bs => unstr bs
  IsHexZeroAddress := fun s => decide (s = "0x0")
  HexToAddress := fun s => s
  jsonUnmarshalVRFParams := fun s =>
    if s = "vrf" then .ok (some ⟨1, 20, 4⟩)
    else if s = "null" then .ok none
    else .error "unexpected end of JSON input"
  jsonUnmarshalCommonResult := fun s =>
    if s = "elected" then .ok (some ⟨0, "success", elected⟩)
    else if s = "all" then .ok (some ⟨0, "success", candidates⟩)
    else if s = "null" then .ok none
    else .error "unexpected end of JSON input"
  SysCfgVRF := ⟨0, 0, 4⟩
  GetConsensusNodesFilterDelay := fun _ nodes isOldBlock => if isOldBlock then nodes else candidates
  HexID := fun s =>
    if s = "aa" then .ok [0xaa]
    else if s = "bb" then .ok [0xbb]
    else if s = "cc" then .ok [0xcc]
    else .error "wrong length"

/-- The sample chain with the VRF election switched on in the cached
parameters. -/
def vrfChain : Chain Nat := { chain with SysCfgVRF := ⟨1, 20, 4⟩ }

/-- The sample chain with no contract registered: every name-registry lookup
answers the zero address. -/
def unregisteredChain : Chain Nat :=
  { vrfChain with evmCall := fun st conAddr _ =>
      if conAddr = "cns" then ((some (str "0x0"), none), st)
      else ((none, some "execution reverted"), st) }

end sample

end backend

namespace vm

/-! ## Basic facts about the storage primitives -/

theorem emitEvent_storage (a : Address) (db : StateDB) (n : Nat) (t : String) (c : CodeType)
    (m : String) : (emitEvent a db n t c m).storage = db.storage := rfl

theorem emitEvent_logs (a : Address) (db : StateDB) (n : Nat) (t : String) (c : CodeType)
    (m : String) : (emitEvent a db n t c m).logs = db.logs ++ [⟨a, n, t, c, m⟩] := rfl

theorem doParamSet_of_no_permission (env : Env) (u : ParamManager) (key : Bytes) (v : Value)
    (h : env.hasParamOpPermission u.stateDB u.caller = false) :
    u.doParamSet env key v = ⟨failFlag, some Error.errNoPermission, u.stateDB⟩ := by
  simp [ParamManager.doParamSet, h]

theorem doParamSet_of_encode_error (env : Env) (u : ParamManager) (key : Bytes) (v : Value)
    (e : String) (h : env.hasParamOpPermission u.stateDB u.caller = true)
    (he : env.rlpEncodeToBytes v = .error e) :
    u.doParamSet env key v = ⟨failFlag, some Error.errEncodeFailure, u.stateDB⟩ := by
  simp [ParamManager.doParamSet, ParamManager.setParam, h, he]

theorem doParamSet_of_encode_ok (env : Env) (u : ParamManager) (key : Bytes) (v : Value)
    (bs : Bytes) (h : env.hasParamOpPermission u.stateDB u.caller = true)
    (he : env.rlpEncodeToBytes v = .ok bs) :
    u.doParamSet env key v = ⟨sucFlag, none, u.setState key bs⟩ := by
  simp [ParamManager.doParamSet, ParamManager.setParam, h, he]

/-- The three ways doParamSet can end. -/
theorem doParamSet_cases (env : Env) (u : ParamManager) (key : Bytes) (v : Value) :
    (env.hasParamOpPermission u.stateDB u.caller = false ∧
      u.doParamSet env key v = ⟨failFlag, some Error.errNoPermission, u.stateDB⟩) ∨
    (env.hasParamOpPermission u.stateDB u.caller = true ∧
      (∃ e, env.rlpEncodeToBytes v = .error e) ∧
      u.doParamSet env key v = ⟨failFlag, some Error.errEncodeFailure, u.stateDB⟩) ∨
    (env.hasParamOpPermission u.stateDB u.caller = true ∧
      ∃ bs, env.rlpEncodeToBytes v = .ok bs ∧
        u.doParamSet env key v = ⟨sucFlag, none, u.setState key bs⟩) := by
  cases hp : env.hasParamOpPermission u.stateDB u.caller with
  | false => exact Or.inl ⟨rfl, doParamSet_of_no_permission env u key v hp⟩
  | true =>
    cases he : env.rlpEncodeToBytes v with
    | error e => exact Or.inr (Or.inl ⟨rfl, ⟨e, rfl⟩, doParamSet_of_encode_error env u key v e hp he⟩)
    | ok bs => exact Or.inr (Or.inr ⟨rfl, bs, rfl, doParamSet_of_encode_ok env u key v bs hp he⟩)

theorem getParam_of_empty {α : Type} (u : ParamManager) (dec : Bytes → Except String α)
    (key : Bytes) (val : α) (h : u.getState key = []) :
    u.getParam dec key val = (val, some Error.errEmptyValue) := by
  simp [ParamManager.getParam, h]

theorem getParam_of_decode_ok {α : Type} (u : ParamManager) (dec : Bytes → Except String α)
    (key : Bytes) (val v : α) (h : u.getState key ≠ []) (hd : dec (u.getState key) = .ok v) :
    u.getParam dec key val = (v, none) := by
  simp [ParamManager.getParam, h, hd]

theorem getParam_of_decode_error {α : Type} (u : ParamManager) (dec : Bytes → Except String α)
    (key : Bytes) (val : α) (e : String) (h : u.getState key ≠ [])
    (hd : dec (u.getState key) = .error e) :
    u.getParam dec key val = (val, some (Error.rlp e)) := by
  simp [ParamManager.getParam, h, hd]

/-! ## How a setter call can end -/

/-- The error of getParam is nil, errEmptyValue, or an error of the rlp package. -/
theorem getParam_err_cases {α : Type} (u : ParamManager) (dec : Bytes → Except String α)
    (key : Bytes) (val : α) :
    (u.getParam dec key val).2 = none ∨ (u.getParam dec key val).2 = some Error.errEmptyValue ∨
    ∃ m, (u.getParam dec key val).2 = some (Error.rlp m) := by
  unfold ParamManager.getParam
  simp only
  split
  · exact Or.inr (Or.inl rfl)
  · split
    · exact Or.inr (Or.inr ⟨_, rfl⟩)
    · exact Or.inl rfl

theorem getBlockGasLimit_eq (env : Env) (u : ParamManager) :
    u.getBlockGasLimit env =
      if (u.getParam (env.rlpDecodeUint 64) (blockGasLimitKey env) blockGasLimitDefaultValue).2 ≠ none ∧
          (u.getParam (env.rlpDecodeUint 64) (blockGasLimitKey env) blockGasLimitDefaultValue).2
            ≠ some Error.errEmptyValue
      then (blockGasLimitDefaultValue,
        (u.getParam (env.rlpDecodeUint 64) (blockGasLimitKey env) blockGasLimitDefaultValue).2)
      else ((u.getParam (env.rlpDecodeUint 64) (blockGasLimitKey env)
        blockGasLimitDefaultValue).1, none) := rfl

theorem getTxGasLimit_eq (env : Env) (u : ParamManager) :
    u.getTxGasLimit env =
      if (u.getParam (env.rlpDecodeUint 64) (txGasLimitKey env) txGasLimitDefaultValue).2 ≠ none ∧
          (u.getParam (env.rlpDecodeUint 64) (txGasLimitKey env) txGasLimitDefaultValue).2
            ≠ some Error.errEmptyValue
      then (txGasLimitDefaultValue,
        (u.getParam (env.rlpDecodeUint 64) (txGasLimitKey env) txGasLimitDefaultValue).2)
      else ((u.getParam (env.rlpDecodeUint 64) (txGasLimitKey env)
        txGasLimitDefaultValue).1, none) := rfl

/-- The five ways a setter call can end: a failed check on the argument, with
its event; an undecodable sibling slot in a gas-limit setter, without event;
and, for an argument that passes the checks, the three ways doParamSet can
end. -/
theorem callSetter_cases (env : Env) (u : ParamManager) (c : SetterCall) :
    (¬ c.passesValidation env u ∧
      ∃ (err : Option Error) (topic : String) (code : CodeType) (msg : String),
        u.callSetter env c = ⟨c.failStatus, err, u.emitNotifyEventInParam topic code msg⟩ ∧
        (code = paramInvalid ∨ code = contractNameNotExists) ∧
        err ≠ some Error.errNoPermission ∧ err ≠ some Error.errEncodeFailure ∧
        ((err = some Error.errParamInvalid ∧ code = paramInvalid) ∨
         (err = some Error.errContactNameNotExist ∧ code = contractNameNotExists ∧
           ∃ n, c = SetterCall.setGasContractName n) ∨
         (err = none ∧ code = paramInvalid ∧ ∃ b, c = SetterCall.setBlockGasLimit b) ∨
         (err = some Error.errValidatorCountInvalid ∧ code = paramInvalid ∧
           ∃ p, c = SetterCall.setVRFParams p))) ∨
    (¬ c.passesValidation env u ∧
      ((∃ t m, c = SetterCall.setTxGasLimit t ∧
          (u.getBlockGasLimit env).2 = some (Error.rlp m) ∧
          u.callSetter env c = ⟨failFlag, some (Error.rlp m), u.stateDB⟩) ∨
       (∃ b m, c = SetterCall.setBlockGasLimit b ∧
          (u.getTxGasLimit env).2 = some (Error.rlp m) ∧
          u.callSetter env c = ⟨failFlag, some (Error.rlp m), u.stateDB⟩))) ∨
    (c.passesValidation env u ∧ env.hasParamOpPermission u.stateDB u.caller = false ∧
      ∃ (topic msg : String),
        u.callSetter env c = ⟨c.failStatus, some Error.errNoPermission,
          u.emitNotifyEventInParam topic callerHasNoPermission msg⟩) ∨
    (c.passesValidation env u ∧ env.hasParamOpPermission u.stateDB u.caller = true ∧
      (∃ e, env.rlpEncodeToBytes c.value = .error e) ∧
      ∃ (topic msg : String),
        u.callSetter env c = ⟨c.failStatus, some Error.errEncodeFailure,
          u.emitNotifyEventInParam topic encodeFailure msg⟩) ∨
    (c.passesValidation env u ∧ env.hasParamOpPermission u.stateDB u.caller = true ∧
      ∃ (bs : Bytes) (topic msg : String), env.rlpEncodeToBytes c.value = .ok bs ∧
        u.callSetter env c = ⟨sucFlag, none,
          (ParamManager.mk (u.setState (c.key env) bs) u.contractAddr u.caller
            u.blockNumber).emitNotifyEventInParam topic doParamSetSuccess msg⟩) := by
  cases c with
  | setIsProduceEmptyBlock x =>
    by_cases hx : x / 2 = 0
    · rcases doParamSet_cases env u (isProduceEmptyBlockKey env) (Value.u32 x) with h | h | h
      · exact Or.inr (Or.inr (Or.inl ⟨hx, h.1, "IsProduceEmptyBlock", (u.caller ++ " has no permission to adjust param."),
          by simp [SetterCall.failStatus, ParamManager.callSetter, ParamManager.setIsProduceEmptyBlock, hx, h.2]⟩))
      · exact Or.inr (Or.inr (Or.inr (Or.inl ⟨hx, h.1, h.2.1, "IsProduceEmptyBlock",
          (sprintV (isProduceEmptyBlockKey env) ++ " failed to encode."),
          by simp [SetterCall.failStatus, ParamManager.callSetter, ParamManager.setIsProduceEmptyBlock, hx, h.2.2]⟩)))
      · obtain ⟨hp, bs, he, h3⟩ := h
        exact Or.inr (Or.inr (Or.inr (Or.inr ⟨hx, hp, bs, "IsProduceEmptyBlock", "param set successful.", he,
          by simp [SetterCall.failStatus, ParamManager.callSetter, ParamManager.setIsProduceEmptyBlock, hx, h3, SetterCall.key, sucFlag]⟩)))
    · exact Or.inl ⟨hx, some Error.errParamInvalid, "IsProduceEmptyBlock", paramInvalid,
        "param is invalid.", by simp [SetterCall.failStatus, ParamManager.callSetter, ParamManager.setIsProduceEmptyBlock, hx],
        Or.inl rfl, by simp, by simp,
          Or.inl ⟨rfl, rfl⟩⟩
  | setCheckContractDeployPermission x =>
    by_cases hx : x / 2 = 0
    · rcases doParamSet_cases env u (isCheckContractDeployPermission env) (Value.u32 x) with h | h | h
      · exact Or.inr (Or.inr (Or.inl ⟨hx, h.1, "IsCheckContractDeployPermission", (u.caller ++ " has no permission to adjust param."),
          by simp [SetterCall.failStatus, ParamManager.callSetter, ParamManager.setCheckContractDeployPermission, hx, h.2]⟩))
      · exact Or.inr (Or.inr (Or.inr (Or.inl ⟨hx, h.1, h.2.1, "IsCheckContractDeployPermission",
          (sprintV (isCheckContractDeployPermission env) ++ " failed to encode."),
          by simp [SetterCall.failStatus, ParamManager.callSetter, ParamManager.setCheckContractDeployPermission, hx, h.2.2]⟩)))
      · obtain ⟨hp, bs, he, h3⟩ := h
        exact Or.inr (Or.inr (Or.inr (Or.inr ⟨hx, hp, bs, "IsCheckContractDeployPermission", "param set successful.", he,
          by simp [SetterCall.failStatus, ParamManager.callSetter, ParamManager.setCheckContractDeployPermission, hx, h3, SetterCall.key, sucFlag]⟩)))
    · exact Or.inl ⟨hx, some Error.errParamInvalid, "IsCheckContractDeployPermission", paramInvalid,
        "param is invalid.", by simp [SetterCall.failStatus, ParamManager.callSetter, ParamManager.setCheckContractDeployPermission, hx],
        Or.inl rfl, by simp, by simp,
          Or.inl ⟨rfl, rfl⟩⟩
  | setIsApproveDeployedContract x =>
    by_cases hx : x / 2 = 0
    · rcases doParamSet_cases env u (isApproveDeployedContractKey env) (Value.u32 x) with h | h | h
      · exact Or.inr (Or.inr (Or.inl ⟨hx, h.1, "IsApproveDeployedContract", (u.caller ++ " has no permission to adjust param."),
          by simp [SetterCall.failStatus, ParamManager.callSetter, ParamManager.setIsApproveDeployedContract, hx, h.2]⟩))
      · exact Or.inr (Or.inr (Or.inr (Or.inl ⟨hx, h.1, h.2.1, "IsApproveDeployedContract",
          (sprintV (isApproveDeployedContractKey env) ++ " failed to encode."),
          by simp [SetterCall.failStatus, ParamManager.callSetter, ParamManager.setIsApproveDeployedContract, hx, h.2.2]⟩)))
      · obtain ⟨hp, bs, he, h3⟩ := h
        exact Or.inr (Or.inr (Or.inr (Or.inr ⟨hx, hp, bs, "IsApproveDeployedContract", "param set successful.", he,
          by simp [SetterCall.failStatus, ParamManager.callSetter, ParamManager.setIsApproveDeployedContract, hx, h3, SetterCall.key, sucFlag]⟩)))
    · exact Or.inl ⟨hx, some Error.errParamInvalid, "IsApproveDeployedContract", paramInvalid,
        "param is invalid.", by simp [SetterCall.failStatus, ParamManager.callSetter, ParamManager.setIsApproveDeployedContract, hx],
        Or.inl rfl, by simp, by simp,
          Or.inl ⟨rfl, rfl⟩⟩
  | setIsTxUseGas x =>
    by_cases hx : x / 2 = 0
    · rcases doParamSet_cases env u (isTxUseGasKey env) (Value.u64 x) with h | h | h
      · exact Or.inr (Or.inr (Or.inl ⟨hx, h.1, "IsTxUseGas", (u.caller ++ " has no permission to adjust param."),
          by simp [SetterCall.failStatus, ParamManager.callSetter, ParamManager.setIsTxUseGas, hx, h.2]⟩))
      · exact Or.inr (Or.inr (Or.inr (Or.inl ⟨hx, h.1, h.2.1, "IsTxUseGas",
          (sprintV (isTxUseGasKey env) ++ " failed to encode."),
          by simp [SetterCall.failStatus, ParamManager.callSetter, ParamManager.setIsTxUseGas, hx, h.2.2]⟩)))
      · obtain ⟨hp, bs, he, h3⟩ := h
        exact Or.inr (Or.inr (Or.inr (Or.inr ⟨hx, hp, bs, "IsTxUseGas", "param set successful.", he,
          by simp [SetterCall.failStatus, ParamManager.callSetter, ParamManager.setIsTxUseGas, hx, h3, SetterCall.key, sucFlag]⟩)))
    · exact Or.inl ⟨hx, some Error.errParamInvalid, "IsTxUseGas", paramInvalid,
        "param is invalid.", by simp [SetterCall.failStatus, ParamManager.callSetter, ParamManager.setIsTxUseGas, hx],
        Or.inl rfl, by simp, by simp,
          Or.inl ⟨rfl, rfl⟩⟩
  | setIsBlockUseTrieHash x =>
    by_cases hx : x / 2 = 0
    · rcases doParamSet_cases env u (isBlockUseTrieHashKey env) (Value.u64 x) with h | h | h
      · exact Or.inr (Or.inr (Or.inl ⟨hx, h.1, "IsBlockUseTrieHash", (u.caller ++ " has no permission to adjust param."),
          by simp [SetterCall.failStatus, ParamManager.callSetter, ParamManager.setIsBlockUseTrieHash, hx, h.2]⟩))
      · exact Or.inr (Or.inr (Or.inr (Or.inl ⟨hx, h.1, h.2.1, "IsBlockUseTrieHash",
          (sprintV (isTxUseGasKey env) ++ " failed to encode."),
          by simp [SetterCall.failStatus, ParamManager.callSetter, ParamManager.setIsBlockUseTrieHash, hx, h.2.2]⟩)))
      · obtain ⟨hp, bs, he, h3⟩ := h
        exact Or.inr (Or.inr (Or.inr (Or.inr ⟨hx, hp, bs, "IsBlockUseTrieHash", "param set successful.", he,
          by simp [SetterCall.failStatus, ParamManager.callSetter, ParamManager.setIsBlockUseTrieHash, hx, h3, SetterCall.key, sucFlag]⟩)))
    · exact Or.inl ⟨hx, some Error.errParamInvalid, "IsBlockUseTrieHash", paramInvalid,
        "param is invalid.", by simp [SetterCall.failStatus, ParamManager.callSetter, ParamManager.setIsBlockUseTrieHash, hx],
        Or.inl rfl, by simp, by simp,
          Or.inl ⟨rfl, rfl⟩⟩
  | setGasContractName n =>
    by_cases hf : env.checkNameFormat n = true
    · by_cases hg : env.getRegisterStatusByName u.stateDB n = true
      · rcases doParamSet_cases env u (gasContractNameKey env) (Value.str n) with h | h | h
        · exact Or.inr (Or.inr (Or.inl ⟨⟨hf, hg⟩, h.1, "GasContractName", (u.caller ++ " has no permission to adjust param."),
            by simp [SetterCall.failStatus, ParamManager.callSetter, ParamManager.setGasContractName, hf, hg, h.2]⟩))
        · exact Or.inr (Or.inr (Or.inr (Or.inl ⟨⟨hf, hg⟩, h.1, h.2.1, "GasContractName",
            (sprintV (gasContractNameKey env) ++ " failed to encode."),
            by simp [SetterCall.failStatus, ParamManager.callSetter, ParamManager.setGasContractName, hf, hg, h.2.2]⟩)))
        · obtain ⟨hp, bs, he, h3⟩ := h
          exact Or.inr (Or.inr (Or.inr (Or.inr ⟨⟨hf, hg⟩, hp, bs, "GasContractName", "param set successful.", he,
            by simp [SetterCall.failStatus, ParamManager.callSetter, ParamManager.setGasContractName, hf, hg, h3, SetterCall.key, sucFlag]⟩)))
      · exact Or.inl ⟨fun h => hg h.2, some Error.errContactNameNotExist, "GasContractName",
          contractNameNotExists, "contract does not exsits.",
          by simp [SetterCall.failStatus, ParamManager.callSetter, ParamManager.setGasContractName, hf, hg],
          Or.inr rfl, by simp, by simp,
          Or.inr (Or.inl ⟨rfl, rfl, _, rfl⟩)⟩
    · exact Or.inl ⟨fun h => hf h.1, some Error.errParamInvalid, "GasContractName",
        paramInvalid, "param is invalid.",
        by simp [SetterCall.failStatus, ParamManager.callSetter, ParamManager.setGasContractName, hf],
        Or.inl rfl, by simp, by simp,
          Or.inl ⟨rfl, rfl⟩⟩
  | setVRFParams p =>
    by_cases hv : 1 ≤ p.ValidatorCount
    · have hv2 : ¬ p.ValidatorCount < 1 := by omega
      rcases doParamSet_cases env u (vrfParamsKey env) (Value.vrf p) with h | h | h
      · exact Or.inr (Or.inr (Or.inl ⟨hv, h.1, "SetVRFParams", (u.caller ++ " has no permission to adjust param."),
          by simp [SetterCall.failStatus, ParamManager.callSetter, ParamManager.setVRFParams, ParamManager.checkVRFParams, hv2, h.2]⟩))
      · exact Or.inr (Or.inr (Or.inr (Or.inl ⟨hv, h.1, h.2.1, "SetVRFParams",
          (sprintV (isTxUseGasKey env) ++ " failed to encode."),
          by simp [SetterCall.failStatus, ParamManager.callSetter, ParamManager.setVRFParams, ParamManager.checkVRFParams, hv2, h.2.2]⟩)))
      · obtain ⟨hp, bs, he, h3⟩ := h
        exact Or.inr (Or.inr (Or.inr (Or.inr ⟨hv, hp, bs, "SetVRFParams", "param set successful.", he,
          by simp [SetterCall.failStatus, ParamManager.callSetter, ParamManager.setVRFParams, ParamManager.checkVRFParams, hv2, h3, SetterCall.key, sucFlag]⟩)))
    · have hv2 : p.ValidatorCount < 1 := by omega
      exact Or.inl ⟨hv, some Error.errValidatorCountInvalid, "SetVRFParams", paramInvalid,
        "param is invalid.",
        by simp [SetterCall.failStatus, ParamManager.callSetter, ParamManager.setVRFParams, ParamManager.checkVRFParams, hv2],
        Or.inl rfl, by simp, by simp,
          Or.inr (Or.inr (Or.inr ⟨rfl, rfl, _, rfl⟩))⟩
  | setTxGasLimit a =>
    by_cases hr : a < TxGasLimitMinValue ∨ a > TxGasLimitMaxValue
    · exact Or.inl ⟨fun h => by
          have h1 := h.1
          have h2 := h.2.1
          omega, some Error.errParamInvalid, "TxGasLimit", paramInvalid,
        "param is invalid.",
        by simp only [SetterCall.failStatus, ParamManager.callSetter, ParamManager.setTxGasLimit]; rw [if_pos hr],
        Or.inl rfl, by simp, by simp,
          Or.inl ⟨rfl, rfl⟩⟩
    · have hlo : TxGasLimitMinValue ≤ a := by omega
      have hhi : a ≤ TxGasLimitMaxValue := by omega
      by_cases hbad : (u.getParam (env.rlpDecodeUint 64) (blockGasLimitKey env) blockGasLimitDefaultValue).2 ≠ none ∧
          (u.getParam (env.rlpDecodeUint 64) (blockGasLimitKey env) blockGasLimitDefaultValue).2 ≠ some Error.errEmptyValue
      · have hg : u.getBlockGasLimit env
            = (blockGasLimitDefaultValue, (u.getParam (env.rlpDecodeUint 64) (blockGasLimitKey env) blockGasLimitDefaultValue).2) := by
          rw [getBlockGasLimit_eq, if_pos hbad]
        obtain ⟨m, hm⟩ : ∃ m, (u.getParam (env.rlpDecodeUint 64) (blockGasLimitKey env) blockGasLimitDefaultValue).2
            = some (Error.rlp m) := by
          rcases getParam_err_cases u (env.rlpDecodeUint 64) (blockGasLimitKey env) blockGasLimitDefaultValue
            with h1 | h1 | h1
          · exact absurd h1 hbad.1
          · exact absurd h1 hbad.2
          · exact h1
        refine Or.inr (Or.inl ⟨fun h => ?_, ?_⟩)
        · have h3 := h.2.2.1
          rw [hg] at h3
          exact hbad.1 h3
        · refine Or.inl ⟨a, m, rfl, ?_, ?_⟩
          · rw [hg]; exact hm
          · simp only [SetterCall.failStatus, ParamManager.callSetter, ParamManager.setTxGasLimit]
            rw [if_neg hr, if_pos hbad, hm]
      · have hg : u.getBlockGasLimit env
            = ((u.getParam (env.rlpDecodeUint 64) (blockGasLimitKey env) blockGasLimitDefaultValue).1, none) := by
          rw [getBlockGasLimit_eq, if_neg hbad]
        by_cases hc : a > (u.getParam (env.rlpDecodeUint 64) (blockGasLimitKey env) blockGasLimitDefaultValue).1
        · refine Or.inl ⟨fun h => ?_, some Error.errParamInvalid, "TxGasLimit", paramInvalid,
            "setting value is larger than block gas limit", ?_, Or.inl rfl, by simp, by simp,
          Or.inl ⟨rfl, rfl⟩⟩
          · have h4 := h.2.2.2
            rw [hg] at h4
            simp only at h4
            omega
          · simp only [SetterCall.failStatus, ParamManager.callSetter, ParamManager.setTxGasLimit]
            rw [if_neg hr, if_neg hbad, if_pos hc]
        · have hpass : (SetterCall.setTxGasLimit a).passesValidation env u := by
            refine ⟨hlo, hhi, ?_, ?_⟩
            · rw [hg]
            · rw [hg]
              simp only
              omega
          rcases doParamSet_cases env u (txGasLimitKey env) (Value.u64 a) with h | h | h
          · exact Or.inr (Or.inr (Or.inl ⟨hpass, h.1, "TxGasLimit", (u.caller ++ " has no permission to adjust param."),
              by simp [SetterCall.failStatus, ParamManager.callSetter, ParamManager.setTxGasLimit, hr, hbad, hc, h.2]⟩))
          · exact Or.inr (Or.inr (Or.inr (Or.inl ⟨hpass, h.1, h.2.1, "TxGasLimit",
              (sprintV (txGasLimitKey env) ++ " failed to encode."),
              by simp [SetterCall.failStatus, ParamManager.callSetter, ParamManager.setTxGasLimit, hr, hbad, hc, h.2.2]⟩)))
          · obtain ⟨hp, bs, he, h3⟩ := h
            exact Or.inr (Or.inr (Or.inr (Or.inr ⟨hpass, hp, bs, "TxGasLimit", "param set successful.", he,
              by simp [SetterCall.failStatus, ParamManager.callSetter, ParamManager.setTxGasLimit, hr, hbad, hc, h3, SetterCall.key, sucFlag]⟩)))
  | setBlockGasLimit a =>
    by_cases hr : a < BlockGasLimitMinValue ∨ a > BlockGasLimitMaxValue
    · exact Or.inl ⟨fun h => by
          have h1 := h.1
          have h2 := h.2.1
          omega, some Error.errParamInvalid, "BlockGasLimit", paramInvalid,
        "param is invalid.",
        by simp only [SetterCall.failStatus, ParamManager.callSetter, ParamManager.setBlockGasLimit]; rw [if_pos hr],
        Or.inl rfl, by simp, by simp,
          Or.inl ⟨rfl, rfl⟩⟩
    · have hlo : BlockGasLimitMinValue ≤ a := by omega
      have hhi : a ≤ BlockGasLimitMaxValue := by omega
      by_cases hbad : (u.getParam (env.rlpDecodeUint 64) (txGasLimitKey env) txGasLimitDefaultValue).2 ≠ none ∧
          (u.getParam (env.rlpDecodeUint 64) (txGasLimitKey env) txGasLimitDefaultValue).2 ≠ some Error.errEmptyValue
      · have hg : u.getTxGasLimit env
            = (txGasLimitDefaultValue, (u.getParam (env.rlpDecodeUint 64) (txGasLimitKey env) txGasLimitDefaultValue).2) := by
          rw [getTxGasLimit_eq, if_pos hbad]
        obtain ⟨m, hm⟩ : ∃ m, (u.getParam (env.rlpDecodeUint 64) (txGasLimitKey env) txGasLimitDefaultValue).2
            = some (Error.rlp m) := by
          rcases getParam_err_cases u (env.rlpDecodeUint 64) (txGasLimitKey env) txGasLimitDefaultValue
            with h1 | h1 | h1
          · exact absurd h1 hbad.1
          · exact absurd h1 hbad.2
          · exact h1
        refine Or.inr (Or.inl ⟨fun h => ?_, ?_⟩)
        · have h3 := h.2.2.1
          rw [hg] at h3
          exact hbad.1 h3
        · refine Or.inr ⟨a, m, rfl, ?_, ?_⟩
          · rw [hg]; exact hm
          · simp only [SetterCall.failStatus, ParamManager.callSetter, ParamManager.setBlockGasLimit]
            rw [if_neg hr, if_pos hbad, hm]
      · have hg : u.getTxGasLimit env
            = ((u.getParam (env.rlpDecodeUint 64) (txGasLimitKey env) txGasLimitDefaultValue).1, none) := by
          rw [getTxGasLimit_eq, if_neg hbad]
        by_cases hc : (u.getParam (env.rlpDecodeUint 64) (txGasLimitKey env) txGasLimitDefaultValue).1 > a
        · refine Or.inl ⟨fun h => ?_, none, "BlockGasLimit", paramInvalid,
            "setting value is smaller than tx gas limit", ?_, Or.inl rfl, by simp, by simp,
          Or.inr (Or.inr (Or.inl ⟨rfl, rfl, _, rfl⟩))⟩
          · have h4 := h.2.2.2
            rw [hg] at h4
            simp only at h4
            omega
          · simp only [SetterCall.failStatus, ParamManager.callSetter, ParamManager.setBlockGasLimit]
            rw [if_neg hr, if_neg hbad, if_pos hc]
        · have hpass : (SetterCall.setBlockGasLimit a).passesValidation env u := by
            refine ⟨hlo, hhi, ?_, ?_⟩
            · rw [hg]
            · rw [hg]
              simp only
              omega
          rcases doParamSet_cases env u (blockGasLimitKey env) (Value.u64 a) with h | h | h
          · exact Or.inr (Or.inr (Or.inl ⟨hpass, h.1, "BlockGasLimit", (u.caller ++ " has no permission to adjust param."),
              by simp [SetterCall.failStatus, ParamManager.callSetter, ParamManager.setBlockGasLimit, hr, hbad, hc, h.2]⟩))
          · exact Or.inr (Or.inr (Or.inr (Or.inl ⟨hpass, h.1, h.2.1, "BlockGasLimit",
              (sprintV (blockGasLimitKey env) ++ " failed to encode."),
              by simp [SetterCall.failStatus, ParamManager.callSetter, ParamManager.setBlockGasLimit, hr, hbad, hc, h.2.2]⟩)))
          · obtain ⟨hp, bs, he, h3⟩ := h
            exact Or.inr (Or.inr (Or.inr (Or.inr ⟨hpass, hp, bs, "BlockGasLimit", "param set successful.", he,
              by simp [SetterCall.failStatus, ParamManager.callSetter, ParamManager.setBlockGasLimit, hr, hbad, hc, h3, SetterCall.key, sucFlag]⟩)))
/-- The outcomes are pairwise exclusive: the event appended on success carries
the code doParamSetSuccess, a failure event one of the four failure codes, and
a silent decode failure appends nothing. -/
theorem outcomes_exclusive (env : Env) (u : ParamManager) (c : SetterCall) (r : Ret) :
    ¬ (SuccessOutcome env u c r ∧ FailureOutcome u r) ∧
    ¬ (SuccessOutcome env u c r ∧ SilentDecodeFailure env u c r) ∧
    ¬ (FailureOutcome u r ∧ SilentDecodeFailure env u c r) := by
  refine ⟨?_, ?_, ?_⟩
  · rintro ⟨⟨_, _, e1, h1, hc1⟩, _, e2, h2, hc2⟩
    rw [h1] at h2
    have he : e1 = e2 := by simpa using h2
    subst he
    rw [hc1] at hc2
    simp [doParamSetSuccess, callerHasNoPermission, encodeFailure, paramInvalid,
      contractNameNotExists] at hc2
  · rintro ⟨⟨_, _, e1, h1, _⟩, _, h2, _⟩
    rw [h2] at h1
    simp at h1
  · rintro ⟨⟨_, e1, h1, _⟩, _, h2, _⟩
    rw [h2] at h1
    simp at h1

/-- For every in-range block gas limit below the transaction gas limit in
force, setBlockGasLimit returns failFlag with a nil error after emitting one
paramInvalid event. -/
theorem setBlockGasLimit_below_tx_limit (env : Env) (u : ParamManager) (b t : Nat)
    (hlo : BlockGasLimitMinValue ≤ b) (hhi : b ≤ BlockGasLimitMaxValue)
    (ht : u.getTxGasLimit env = (t, none)) (hlt : b < t) :
    u.setBlockGasLimit env b = ⟨failFlag, none,
      u.emitNotifyEventInParam "BlockGasLimit" paramInvalid
        "setting value is smaller than tx gas limit"⟩ := by
  have hr : ¬ (b < BlockGasLimitMinValue ∨ b > BlockGasLimitMaxValue) := by omega
  rw [getTxGasLimit_eq] at ht
  by_cases hbad : (u.getParam (env.rlpDecodeUint 64) (txGasLimitKey env) txGasLimitDefaultValue).2
      ≠ none ∧ (u.getParam (env.rlpDecodeUint 64) (txGasLimitKey env) txGasLimitDefaultValue).2
      ≠ some Error.errEmptyValue
  · rw [if_pos hbad] at ht
    exact absurd (congrArg Prod.snd ht) hbad.1
  · rw [if_neg hbad] at ht
    have h1 : (u.getParam (env.rlpDecodeUint 64) (txGasLimitKey env) txGasLimitDefaultValue).1
        = t := congrArg Prod.fst ht
    have hc : (u.getParam (env.rlpDecodeUint 64) (txGasLimitKey env) txGasLimitDefaultValue).1
        > b := by omega
    simp only [ParamManager.setBlockGasLimit]
    rw [if_neg hr, if_neg hbad, if_pos hc]

/-! ## Reading a slot after a write -/

theorem getParam_congr {α : Type} (u v : ParamManager) (dec : Bytes → Except String α)
    (key : Bytes) (val : α) (h : v.getState key = u.getState key) :
    v.getParam dec key val = u.getParam dec key val := by
  simp [ParamManager.getParam, h]

/-- The storage seen by any later call after a successful setter call. -/
theorem getState_after_write (u : ParamManager) (key bs : Bytes) (topic : String)
    (code : CodeType) (msg : String) (caller : Address) (blockNumber : Nat) (k : Bytes) :
    (ParamManager.mk ((ParamManager.mk (u.setState key bs) u.contractAddr u.caller
        u.blockNumber).emitNotifyEventInParam topic code msg) u.contractAddr caller
        blockNumber).getState k = if k = key then bs else u.getState k := by
  simp [ParamManager.getState, ParamManager.emitNotifyEventInParam, emitEvent,
    ParamManager.setState, StateDB.SetState, StateDB.GetState]

/-- Only the two gas-limit setters use the two gas-limit keys. -/
theorem key_eq_gas_limit_key (env : Env) (hk : KeysDistinct env) (c : SetterCall) :
    (c.key env = txGasLimitKey env → ∃ t, c = SetterCall.setTxGasLimit t) ∧
    (c.key env = blockGasLimitKey env → ∃ b, c = SetterCall.setBlockGasLimit b) := by
  simp only [KeysDistinct, stateKeys, List.nodup_cons, List.mem_cons, List.mem_singleton,
    not_or, List.not_mem_nil, not_false_eq_true, List.nodup_nil, and_true] at hk
  cases c <;> simp only [SetterCall.key] <;> constructor <;> intro h <;>
    first
    | exact ⟨_, rfl⟩
    | (exfalso; simp_all)

theorem txGasLimitKey_ne_blockGasLimitKey (env : Env) (hk : KeysDistinct env) :
    txGasLimitKey env ≠ blockGasLimitKey env := by
  intro h
  obtain ⟨b, hb⟩ := (key_eq_gas_limit_key env hk (SetterCall.setTxGasLimit 0)).2 h
  cases hb

/-- After a successful setBlockGasLimit(b) every later call reads b as the block
gas limit. -/
theorem getBlockGasLimit_after_set (env : Env) (hl : RlpLawful env) (u : ParamManager)
    (b : Nat) (bs : Bytes) (hb : b < 2 ^ 64) (he : env.rlpEncodeToBytes (Value.u64 b) = .ok bs)
    (topic : String) (code : CodeType) (msg : String) (caller : Address) (blockNumber : Nat) :
    (ParamManager.mk ((ParamManager.mk (u.setState (blockGasLimitKey env) bs) u.contractAddr
        u.caller u.blockNumber).emitNotifyEventInParam topic code msg) u.contractAddr caller
        blockNumber).getBlockGasLimit env = (b, none) := by
  have hs := getState_after_write u (blockGasLimitKey env) bs topic code msg caller blockNumber
    (blockGasLimitKey env)
  rw [if_pos rfl] at hs
  have hne : bs ≠ [] := hl.encode_ne_nil (Value.u64 b) bs hb he
  rw [getBlockGasLimit_eq, getParam_of_decode_ok _ _ _ _ b (by rw [hs]; exact hne)
    (by rw [hs]; exact hl.decode_u64 b bs hb he)]
  simp

/-- After a successful setTxGasLimit(t) every later call reads t as the
transaction gas limit. -/
theorem getTxGasLimit_after_set (env : Env) (hl : RlpLawful env) (u : ParamManager)
    (t : Nat) (bs : Bytes) (ht : t < 2 ^ 64) (he : env.rlpEncodeToBytes (Value.u64 t) = .ok bs)
    (topic : String) (code : CodeType) (msg : String) (caller : Address) (blockNumber : Nat) :
    (ParamManager.mk ((ParamManager.mk (u.setState (txGasLimitKey env) bs) u.contractAddr
        u.caller u.blockNumber).emitNotifyEventInParam topic code msg) u.contractAddr caller
        blockNumber).getTxGasLimit env = (t, none) := by
  have hs := getState_after_write u (txGasLimitKey env) bs topic code msg caller blockNumber
    (txGasLimitKey env)
  rw [if_pos rfl] at hs
  have hne : bs ≠ [] := hl.encode_ne_nil (Value.u64 t) bs ht he
  rw [getTxGasLimit_eq, getParam_of_decode_ok _ _ _ _ t (by rw [hs]; exact hne)
    (by rw [hs]; exact hl.decode_u64 t bs ht he)]
  simp

/-- A call that does not pass the checks of its setter writes nothing and does
not return the success status, unless it is setVRFParams, whose status is
always 0. -/
theorem callSetter_of_not_valid (env : Env) (u : ParamManager) (c : SetterCall)
    (h : ¬ c.passesValidation env u) :
    (u.callSetter env c).stateDB.storage = u.stateDB.storage ∧
    (u.callSetter env c).val = c.failStatus := by
  rcases callSetter_cases env u c with
    ⟨_, err, topic, code, msg, hr, _, _, _⟩ | ⟨_, hd⟩ | ⟨hv, _⟩ | ⟨hv, _⟩ | ⟨hv, _⟩
  · rw [hr]; exact ⟨rfl, rfl⟩
  · rcases hd with ⟨t, m, hc, _, hr⟩ | ⟨b, m, hc, _, hr⟩ <;>
    · rw [hr, hc]; exact ⟨rfl, rfl⟩
  · exact absurd hv h
  · exact absurd hv h
  · exact absurd hv h

/-- A call that returns the success status, other than setVRFParams, passed the
checks, was permitted, and wrote the encoding of its argument. -/
theorem callSetter_of_success (env : Env) (u : ParamManager) (c : SetterCall)
    (hc : c.failStatus = failFlag) (h : (u.callSetter env c).val = sucFlag) :
    c.passesValidation env u ∧
    ∃ (bs : Bytes) (topic msg : String), env.rlpEncodeToBytes c.value = .ok bs ∧
      u.callSetter env c = ⟨sucFlag, none,
        (ParamManager.mk (u.setState (c.key env) bs) u.contractAddr u.caller
          u.blockNumber).emitNotifyEventInParam topic doParamSetSuccess msg⟩ := by
  have hne : failFlag ≠ sucFlag := by decide
  rcases callSetter_cases env u c with
    ⟨_, err, topic, code, msg, hr, _, _, _⟩ | ⟨_, hd⟩ | ⟨_, _, topic, msg, hr⟩ |
    ⟨_, _, _, topic, msg, hr⟩ | ⟨hv, _, bs, topic, msg, he, hr⟩
  · rw [hr, hc] at h; exact absurd h hne
  · rcases hd with ⟨t, m, _, _, hr⟩ | ⟨b, m, _, _, hr⟩ <;>
    · rw [hr] at h; exact absurd h hne
  · rw [hr, hc] at h; exact absurd h hne
  · rw [hr, hc] at h; exact absurd h hne
  · exact ⟨hv, bs, topic, msg, he, hr⟩

theorem getTxGasLimit_congr (env : Env) (u v : ParamManager)
    (h : v.getState (txGasLimitKey env) = u.getState (txGasLimitKey env)) :
    v.getTxGasLimit env = u.getTxGasLimit env := by
  rw [getTxGasLimit_eq, getTxGasLimit_eq, getParam_congr u v _ _ _ h]

theorem getBlockGasLimit_congr (env : Env) (u v : ParamManager)
    (h : v.getState (blockGasLimitKey env) = u.getState (blockGasLimitKey env)) :
    v.getBlockGasLimit env = u.getBlockGasLimit env := by
  rw [getBlockGasLimit_eq, getBlockGasLimit_eq, getParam_congr u v _ _ _ h]

/-- One setter call keeps the relation between the two gas limits. -/
theorem gas_limit_invariant_step (env : Env) (hl : RlpLawful env) (hk : KeysDistinct env)
    (u : ParamManager) (c : SetterCall)
    (ih : (u.getTxGasLimit env).2 = none ∧ (u.getBlockGasLimit env).2 = none ∧
      (u.getTxGasLimit env).1 ≤ (u.getBlockGasLimit env).1)
    (caller : Address) (blockNumber : Nat) :
    ((ParamManager.mk (u.callSetter env c).stateDB u.contractAddr caller
        blockNumber).getTxGasLimit env).2 = none ∧
    ((ParamManager.mk (u.callSetter env c).stateDB u.contractAddr caller
        blockNumber).getBlockGasLimit env).2 = none ∧
    ((ParamManager.mk (u.callSetter env c).stateDB u.contractAddr caller
        blockNumber).getTxGasLimit env).1 ≤
      ((ParamManager.mk (u.callSetter env c).stateDB u.contractAddr caller
        blockNumber).getBlockGasLimit env).1 := by
  have hsame : (u.callSetter env c).stateDB.storage = u.stateDB.storage →
      (ParamManager.mk (u.callSetter env c).stateDB u.contractAddr caller
          blockNumber).getTxGasLimit env = u.getTxGasLimit env ∧
      (ParamManager.mk (u.callSetter env c).stateDB u.contractAddr caller
          blockNumber).getBlockGasLimit env = u.getBlockGasLimit env := by
    intro h
    constructor
    · apply getTxGasLimit_congr
      simp [ParamManager.getState, StateDB.GetState, h]
    · apply getBlockGasLimit_congr
      simp [ParamManager.getState, StateDB.GetState, h]
  rcases callSetter_cases env u c with
    ⟨_, err, topic, code, msg, hr, _, _, _⟩ | ⟨_, hd⟩ | ⟨_, _, topic, msg, hr⟩ |
    ⟨_, _, _, topic, msg, hr⟩ | ⟨hv, _, bs, topic, msg, he, hr⟩
  · obtain ⟨h1, h2⟩ := hsame (by rw [hr]; rfl)
    rw [h1, h2]; exact ih
  · have h3 : (u.callSetter env c).stateDB.storage = u.stateDB.storage := by
      rcases hd with ⟨t, m, _, _, hr⟩ | ⟨b, m, _, _, hr⟩ <;> rw [hr]
    obtain ⟨h1, h2⟩ := hsame h3
    rw [h1, h2]; exact ih
  · obtain ⟨h1, h2⟩ := hsame (by rw [hr]; rfl)
    rw [h1, h2]; exact ih
  · obtain ⟨h1, h2⟩ := hsame (by rw [hr]; rfl)
    rw [h1, h2]; exact ih
  · rw [hr]
    have hs := getState_after_write u (c.key env) bs topic doParamSetSuccess msg caller blockNumber
    by_cases hkt : c.key env = txGasLimitKey env
    · obtain ⟨t, hc⟩ := (key_eq_gas_limit_key env hk c).1 hkt
      subst hc
      simp only [SetterCall.key] at hs
      have ht : t < 2 ^ 64 := by
        have h2 : t ≤ TxGasLimitMaxValue := hv.2.1
        simp only [TxGasLimitMaxValue] at h2
        omega
      have hg := getTxGasLimit_after_set env hl u t bs ht he topic doParamSetSuccess msg
        caller blockNumber
      have hb : (ParamManager.mk ((ParamManager.mk (u.setState (txGasLimitKey env) bs)
          u.contractAddr u.caller u.blockNumber).emitNotifyEventInParam topic doParamSetSuccess
          msg) u.contractAddr caller blockNumber).getBlockGasLimit env = u.getBlockGasLimit env := by
        apply getBlockGasLimit_congr
        have h5 := hs (blockGasLimitKey env)
        rw [if_neg (fun h => txGasLimitKey_ne_blockGasLimitKey env hk h.symm)] at h5
        exact h5
      show (ParamManager.getTxGasLimit env _).2 = none ∧ (ParamManager.getBlockGasLimit env _).2
        = none ∧ (ParamManager.getTxGasLimit env _).1 ≤ (ParamManager.getBlockGasLimit env _).1
      simp only [SetterCall.key]
      rw [hg, hb]
      exact ⟨rfl, ih.2.1, hv.2.2.2⟩
    · by_cases hkb : c.key env = blockGasLimitKey env
      · obtain ⟨b, hc⟩ := (key_eq_gas_limit_key env hk c).2 hkb
        subst hc
        simp only [SetterCall.key] at hs
        have hb : b < 2 ^ 64 := by
          have h2 : b ≤ BlockGasLimitMaxValue := hv.2.1
          simp only [BlockGasLimitMaxValue] at h2
          omega
        have hg := getBlockGasLimit_after_set env hl u b bs hb he topic doParamSetSuccess msg
          caller blockNumber
        have ht : (ParamManager.mk ((ParamManager.mk (u.setState (blockGasLimitKey env) bs)
            u.contractAddr u.caller u.blockNumber).emitNotifyEventInParam topic doParamSetSuccess
            msg) u.contractAddr caller blockNumber).getTxGasLimit env = u.getTxGasLimit env := by
          apply getTxGasLimit_congr
          have h5 := hs (txGasLimitKey env)
          rw [if_neg (txGasLimitKey_ne_blockGasLimitKey env hk)] at h5
          exact h5
        show (ParamManager.getTxGasLimit env _).2 = none ∧ (ParamManager.getBlockGasLimit env _).2
          = none ∧ (ParamManager.getTxGasLimit env _).1 ≤ (ParamManager.getBlockGasLimit env _).1
        simp only [SetterCall.key]
        rw [hg, ht]
        exact ⟨ih.1, rfl, hv.2.2.2⟩
      · have h1 : (ParamManager.mk ((ParamManager.mk (u.setState (c.key env) bs)
            u.contractAddr u.caller u.blockNumber).emitNotifyEventInParam topic doParamSetSuccess
            msg) u.contractAddr caller blockNumber).getTxGasLimit env = u.getTxGasLimit env := by
          apply getTxGasLimit_congr
          have h5 := hs (txGasLimitKey env)
          rw [if_neg (fun h => hkt h.symm)] at h5
          exact h5
        have h2 : (ParamManager.mk ((ParamManager.mk (u.setState (c.key env) bs)
            u.contractAddr u.caller u.blockNumber).emitNotifyEventInParam topic doParamSetSuccess
            msg) u.contractAddr caller blockNumber).getBlockGasLimit env
            = u.getBlockGasLimit env := by
          apply getBlockGasLimit_congr
          have h5 := hs (blockGasLimitKey env)
          rw [if_neg (fun h => hkb h.symm)] at h5
          exact h5
        rw [h1, h2]; exact ih

theorem getTxGasLimit_of_empty_slot (env : Env) (u : ParamManager)
    (h : u.getState (txGasLimitKey env) = []) :
    u.getTxGasLimit env = (txGasLimitDefaultValue, none) := by
  simp [getTxGasLimit_eq, getParam_of_empty _ _ _ _ h]

theorem getBlockGasLimit_of_empty_slot (env : Env) (u : ParamManager)
    (h : u.getState (blockGasLimitKey env) = []) :
    u.getBlockGasLimit env = (blockGasLimitDefaultValue, none) := by
  simp [getBlockGasLimit_eq, getParam_of_empty _ _ _ _ h]

/-! ## The sample collaborators satisfy the assumptions -/

namespace sample

theorem fromBigEndian_append (xs : Bytes) (b : Nat) :
    fromBigEndian (xs ++ [b]) = fromBigEndian xs * 256 + b := by
  simp [fromBigEndian, List.foldl_append]

theorem fromBigEndian_toBigEndian (fuel n : Nat) (h : n < 256 ^ fuel) :
    fromBigEndian (toBigEndian fuel n) = n := by
  induction fuel generalizing n with
  | zero =>
    have h0 : n = 0 := by simpa using h
    subst h0
    rfl
  | succ f ih =>
    unfold toBigEndian
    split
    · rename_i h0
      subst h0
      rfl
    · have hd : n / 256 < 256 ^ f := by
        apply Nat.div_lt_of_lt_mul
        rw [pow_succ] at h
        omega
      rw [fromBigEndian_append, ih (n / 256) hd]
      omega

theorem toBigEndian_length_le_fuel (fuel n : Nat) : (toBigEndian fuel n).length ≤ fuel := by
  induction fuel generalizing n with
  | zero => simp [toBigEndian]
  | succ f ih =>
    unfold toBigEndian
    split
    · simp
    · have := ih (n / 256)
      simp
      omega

theorem toBigEndian_length_le (fuel k n : Nat) (h : n < 256 ^ k) :
    (toBigEndian fuel n).length ≤ k := by
  induction fuel generalizing n k with
  | zero => simp [toBigEndian]
  | succ f ih =>
    unfold toBigEndian
    split
    · simp
    · rename_i hn
      cases k with
      | zero =>
        simp at h
        omega
      | succ k =>
        have hd : n / 256 < 256 ^ k := by
          apply Nat.div_lt_of_lt_mul
          rw [pow_succ] at h
          omega
        have := ih k (n / 256) hd
        simp
        omega

theorem toBigEndian_ne_nil (fuel n : Nat) (hn : n ≠ 0) : toBigEndian (fuel + 1) n ≠ [] := by
  unfold toBigEndian
  simp [hn]

theorem toBigEndian_eq_nil (fuel n : Nat) (h : toBigEndian fuel n = []) : n = 0 ∨ fuel = 0 := by
  cases fuel with
  | zero => exact Or.inr rfl
  | succ f =>
    by_cases hn : n = 0
    · exact Or.inl hn
    · exact absurd h (toBigEndian_ne_nil f n hn)

theorem toBigEndian_head (fuel n : Nat) (h : n < 256 ^ fuel) :
    (toBigEndian fuel n).head? ≠ some 0 := by
  induction fuel generalizing n with
  | zero => simp [toBigEndian]
  | succ f ih =>
    unfold toBigEndian
    split
    · simp
    · rename_i hn
      have hd : n / 256 < 256 ^ f := by
        apply Nat.div_lt_of_lt_mul
        rw [pow_succ] at h
        omega
      cases hxs : toBigEndian f (n / 256) with
      | nil =>
        have h0 : n / 256 = 0 := by
          rcases toBigEndian_eq_nil f (n / 256) hxs with h1 | h1
          · exact h1
          · subst h1
            simp at h
            omega
        simp
        omega
      | cons x xs =>
        have := ih (n / 256) hd
        rw [hxs] at this
        simpa using this

theorem rlpDecodeUint_encode (k n : Nat) (hk : k ≤ 8) (h : n < 256 ^ k) :
    rlpDecodeUint (8 * k) (rlpEncodeUint n) = .ok n := by
  have h8 : n < 256 ^ 8 := lt_of_lt_of_le h (Nat.pow_le_pow_right (by decide) hk)
  unfold rlpEncodeUint
  split
  · rename_i h0
    subst h0
    simp [rlpDecodeUint, fromBigEndian]
  · split
    · rename_i h0 h1
      simp [rlpDecodeUint, h1, h0]
    · rename_i h0 h1
      have hlen := toBigEndian_length_le 8 k n h
      have hne := toBigEndian_ne_nil 7 n h0
      have hhead := toBigEndian_head 8 n h8
      have hval := fromBigEndian_toBigEndian 8 n h8
      generalize toBigEndian 8 n = bs at hlen hne hhead hval
      have hpos : 0 < bs.length := List.length_pos.mpr hne
      have hsingle : ¬ (bs.length = 1 ∧ bs.headD 0 < 0x80) := by
        rintro ⟨hl, hh⟩
        match bs, hl with
        | [b], _ =>
          simp [fromBigEndian] at hval
          simp at hh
          omega
      unfold rlpDecodeUint
      have e1 : ¬ (0x80 + bs.length < 0x80) := by omega
      have e2 : 0x80 + bs.length ≤ 0xb7 := by omega
      have e3 : ¬ (0x80 + bs.length - 0x80 > 8 * k / 8) := by
        have : 8 * k / 8 = k := by omega
        omega
      have e4 : ¬ (bs.length < 0x80 + bs.length - 0x80) := by omega
      have e5 : ¬ (bs.length > 0x80 + bs.length - 0x80) := by omega
      have e6 : ¬ (bs.length = 1 ∧ bs.head? = some 0) := fun h => hhead h.2
      simp only [e1, e2, e3, e4, e5, e6, hsingle, hhead, if_true, if_false, hval, and_false]

theorem rlpEncodeUint_ne_nil (n : Nat) : rlpEncodeUint n ≠ [] := by
  unfold rlpEncodeUint
  split
  · simp
  · split <;> simp

theorem rlpEncodeUint_length (n : Nat) : (rlpEncodeUint n).length ≤ 9 := by
  unfold rlpEncodeUint
  have := toBigEndian_length_le_fuel 8 n
  split
  · simp
  · split
    · simp
    · simp
      omega

theorem splitItem_encodeUint (n : Nat) (rest : Bytes) :
    splitItem (rlpEncodeUint n ++ rest) = some (rlpEncodeUint n, rest) := by
  unfold rlpEncodeUint
  have hlen := toBigEndian_length_le_fuel 8 n
  split
  · simp [splitItem]
  · split
    · rename_i h0 h1
      simp [splitItem, h1]
    · generalize toBigEndian 8 n = bs at hlen
      have e1 : ¬ (0x80 + bs.length < 0x80) := by omega
      have e2 : 0x80 + bs.length ≤ 0xb7 := by omega
      have e3 : ¬ ((bs ++ rest).length < 0x80 + bs.length - 0x80) := by
        simp
      have e4 : 0x80 + bs.length - 0x80 = bs.length := by omega
      simp only [List.cons_append, splitItem, e1, e2, e3, if_true, if_false, e4]
      simp


theorem string_of_stringBytes (s : String) :
    String.mk ((stringBytes s).map Char.ofNat) = s := by
  cases s with
  | mk cs =>
    simp only [stringBytes, String.toList, List.map_map]
    congr 1
    induction cs with
    | nil => rfl
    | cons c cs ih =>
      simp only [List.map_cons, Function.comp_apply, Char.ofNat_toNat]
      rw [ih]

theorem stringBytes_length (s : String) : (stringBytes s).length = s.length := by
  cases s
  simp only [stringBytes, String.toList, List.length_map, String.length]

theorem rlpEncodeString_ne_nil (s : String) : rlpEncodeString s ≠ [] := by
  unfold rlpEncodeString
  simp only
  split
  · rename_i h
    intro h2
    rw [h2] at h
    simp at h
  · split <;> simp

theorem rlpDecodeString_encode (s : String) (h : s.length < 2 ^ 64) :
    rlpDecodeString (rlpEncodeString s) = .ok s := by
  have hs := string_of_stringBytes s
  have hl := stringBytes_length s
  unfold rlpEncodeString
  simp only
  generalize stringBytes s = bs at hs hl
  split
  · rename_i h1
    match bs, h1 with
    | [b], h1 =>
      have hb : b < 0x80 := by simpa using h1.2
      simp only [rlpDecodeString, hb, if_true, ne_eq, not_true_eq_false, if_false]
      rw [hs]
  · rename_i h1
    split
    · rename_i h2
      have e1 : ¬ (0x80 + bs.length < 0x80) := by omega
      have e2 : 0x80 + bs.length ≤ 0xb7 := by omega
      have e3 : ¬ (bs.length ≠ 0x80 + bs.length - 0x80) := by omega
      simp only [rlpDecodeString, e1, e2, e3, h1, if_true, if_false]
      rw [hs]
    · rename_i h2
      have h8 : bs.length < 256 ^ 8 := by
        rw [hl]
        exact lt_of_lt_of_le h (by norm_num)
      have hlen := toBigEndian_length_le_fuel 8 bs.length
      have hne := toBigEndian_ne_nil 7 bs.length (by omega)
      have hhead := toBigEndian_head 8 bs.length h8
      have hval := fromBigEndian_toBigEndian 8 bs.length h8
      generalize toBigEndian 8 bs.length = lb at hlen hne hhead hval
      have hpos : 0 < lb.length := List.length_pos.mpr hne
      have e1 : ¬ (0xb7 + lb.length < 0x80) := by omega
      have e2 : ¬ (0xb7 + lb.length ≤ 0xb7) := by omega
      have e3 : 0xb7 + lb.length ≤ 0xbf := by omega
      have e4 : 0xb7 + lb.length - 0xb7 = lb.length := by omega
      have e5 : ¬ ((lb ++ bs).length < lb.length) := by simp
      have e6 : (lb ++ bs).take lb.length = lb := by simp
      have e7 : (lb ++ bs).drop lb.length = bs := by simp
      have e8 : ¬ (bs.length < 56) := h2
      simp only [rlpDecodeString, e1, e2, e3, e4, e5, e6, e7, e8, hhead, hval, if_true,
        if_false, ne_eq, not_true_eq_false]
      rw [hs]

theorem rlpEncodeVRFParams_ne_nil (p : VRFParams) : rlpEncodeVRFParams p ≠ [] := by
  simp [rlpEncodeVRFParams]

theorem rlpDecodeVRFParams_encode (p : VRFParams) (h : (Value.vrf p).WellTyped) :
    rlpDecodeVRFParams (rlpEncodeVRFParams p) = .ok p := by
  obtain ⟨h1, h2, h3⟩ := h
  have d1 := rlpDecodeUint_encode 8 p.ElectionEpoch (le_refl 8) (by simpa using h1)
  have d2 := rlpDecodeUint_encode 8 p.NextElectionBlock (le_refl 8) (by simpa using h2)
  have d3 := rlpDecodeUint_encode 8 p.ValidatorCount (le_refl 8) (by simpa using h3)
  have l1 := rlpEncodeUint_length p.ElectionEpoch
  have l2 := rlpEncodeUint_length p.NextElectionBlock
  have l3 := rlpEncodeUint_length p.ValidatorCount
  have s3 := splitItem_encodeUint p.ValidatorCount []
  rw [List.append_nil] at s3
  unfold rlpEncodeVRFParams rlpDecodeVRFParams
  simp only
  have e1 : ¬ (0xc0 + (rlpEncodeUint p.ElectionEpoch ++ (rlpEncodeUint p.NextElectionBlock ++
      rlpEncodeUint p.ValidatorCount)).length < 0xc0) := by omega
  have e2 : ¬ (0xc0 + (rlpEncodeUint p.ElectionEpoch ++ (rlpEncodeUint p.NextElectionBlock ++
      rlpEncodeUint p.ValidatorCount)).length > 0xf7) := by
    simp only [List.length_append]
    omega
  have e3 : ¬ ((rlpEncodeUint p.ElectionEpoch ++ (rlpEncodeUint p.NextElectionBlock ++
      rlpEncodeUint p.ValidatorCount)).length ≠ 0xc0 + (rlpEncodeUint p.ElectionEpoch ++
      (rlpEncodeUint p.NextElectionBlock ++ rlpEncodeUint p.ValidatorCount)).length - 0xc0) := by
    omega
  rw [if_neg e1, if_neg e2, if_neg e3]
  simp only [splitItem_encodeUint, s3, d1, d2, d3, ne_eq, not_true_eq_false, if_false]

/-- The sample collaborators satisfy the assumptions made on the rlp package. -/
theorem env_lawful : RlpLawful env where
  encode_total := by
    intro v _
    cases v <;> exact ⟨_, rfl⟩
  encode_ne_nil := by
    intro v bs _ he
    cases v <;> simp only [env, rlpEncodeToBytes, Except.ok.injEq] at he <;> subst he
    · exact rlpEncodeUint_ne_nil _
    · exact rlpEncodeUint_ne_nil _
    · exact rlpEncodeString_ne_nil _
    · exact rlpEncodeVRFParams_ne_nil _
  decode_u32 := by
    intro n bs hn he
    simp only [env, rlpEncodeToBytes, Except.ok.injEq] at he
    subst he
    exact rlpDecodeUint_encode 4 n (by decide) (by simpa using hn)
  decode_u64 := by
    intro n bs hn he
    simp only [env, rlpEncodeToBytes, Except.ok.injEq] at he
    subst he
    exact rlpDecodeUint_encode 8 n (by decide) (by simpa using hn)
  decode_u64_as_u32 := by
    intro n bs hn he
    simp only [env, rlpEncodeToBytes, Except.ok.injEq] at he
    subst he
    exact rlpDecodeUint_encode 4 n (by decide) (by simpa using hn)
  decode_str := by
    intro s bs hs he
    simp only [env, rlpEncodeToBytes, Except.ok.injEq] at he
    subst he
    exact rlpDecodeString_encode s hs
  decode_vrf := by
    intro p bs hp he
    simp only [env, rlpEncodeToBytes, Except.ok.injEq] at he
    subst he
    exact rlpDecodeVRFParams_encode p hp

theorem env_keys_distinct : KeysDistinct env := by
  unfold KeysDistinct
  decide

end sample

/-- Every call of every setter, on every state, caller and argument, ends in
exactly one of three outcomes: success, failure with an event, or, for
setTxGasLimit and setBlockGasLimit only, a decoding error of the sibling
gas-limit slot returned with failFlag, nothing written and no event emitted. -/
theorem setter_outcome_cases (env : Env) (u : ParamManager) (c : SetterCall) :
    (SuccessOutcome env u c (u.callSetter env c) ∨ FailureOutcome u (u.callSetter env c) ∨
      SilentDecodeFailure env u c (u.callSetter env c)) ∧
    ¬ (SuccessOutcome env u c (u.callSetter env c) ∧ FailureOutcome u (u.callSetter env c)) ∧
    ¬ (SuccessOutcome env u c (u.callSetter env c) ∧
        SilentDecodeFailure env u c (u.callSetter env c)) ∧
    ¬ (FailureOutcome u (u.callSetter env c) ∧
        SilentDecodeFailure env u c (u.callSetter env c)) := by
  refine ⟨?_, outcomes_exclusive env u c _⟩
  rcases callSetter_cases env u c with
    ⟨_, err, topic, code, msg, hr, hcode, _, _⟩ | ⟨_, hd⟩ | ⟨_, _, topic, msg, hr⟩ |
    ⟨_, _, _, topic, msg, hr⟩ | ⟨_, _, bs, topic, msg, he, hr⟩
  · rw [hr]
    refine Or.inr (Or.inl ⟨rfl, _, rfl, ?_⟩)
    rcases hcode with h | h
    · exact Or.inr (Or.inr (Or.inl h))
    · exact Or.inr (Or.inr (Or.inr h))
  · rcases hd with ⟨t, m, hc, hg, hr⟩ | ⟨b, m, hc, hg, hr⟩
    · rw [hr]
      exact Or.inr (Or.inr ⟨rfl, rfl, rfl, m, rfl, Or.inl ⟨t, hc, hg⟩⟩)
    · rw [hr]
      exact Or.inr (Or.inr ⟨rfl, rfl, rfl, m, rfl, Or.inr ⟨b, hc, hg⟩⟩)
  · rw [hr]
    exact Or.inr (Or.inl ⟨rfl, _, rfl, Or.inl rfl⟩)
  · rw [hr]
    exact Or.inr (Or.inl ⟨rfl, _, rfl, Or.inr (Or.inl rfl)⟩)
  · rw [hr]
    refine Or.inl ⟨rfl, ⟨bs, he, ?_, rfl⟩, _, rfl, rfl⟩
    simp [ParamManager.emitNotifyEventInParam, emitEvent, StateDB.GetState,
      ParamManager.setState, StateDB.SetState]

/-! ## Frame, the exported getters, and the codes of the reported errors -/

/-- A setter call leaves the storage as it was or writes one value at the key
of its parameter. -/
theorem callSetter_storage (env : Env) (u : ParamManager) (c : SetterCall) :
    (u.callSetter env c).stateDB.storage = u.stateDB.storage ∨
    ∃ bs, (u.callSetter env c).stateDB.storage = (u.setState (c.key env) bs).storage := by
  rcases callSetter_cases env u c with
    ⟨_, err, topic, code, msg, hr, _⟩ | ⟨_, hd⟩ | ⟨_, _, topic, msg, hr⟩ |
    ⟨_, _, _, topic, msg, hr⟩ | ⟨_, _, bs, topic, msg, _, hr⟩
  · rw [hr]; exact Or.inl rfl
  · rcases hd with ⟨t, m, _, _, hr⟩ | ⟨b, m, _, _, hr⟩ <;> rw [hr] <;> exact Or.inl rfl
  · rw [hr]; exact Or.inl rfl
  · rw [hr]; exact Or.inl rfl
  · rw [hr]; exact Or.inr ⟨bs, rfl⟩

/-- The handler bound to the exported name getVRFParams swallows the error of
getVRFParams. -/
theorem getVRFParamsWrapper_of_error (env : Env)
    (jsonMarshal : VRFParams → Except String String) (u : ParamManager)
    (h : (u.getVRFParams env).2 ≠ none) :
    u.getVRFParamsWrapper env jsonMarshal = ("", none) := by
  unfold ParamManager.getVRFParamsWrapper
  simp only [h, ne_eq, not_false_eq_true, if_true]

/-- The handler bound to the exported name getVRFParams never returns an
error. -/
theorem getVRFParamsWrapper_err (env : Env) (jsonMarshal : VRFParams → Except String String)
    (u : ParamManager) : (u.getVRFParamsWrapper env jsonMarshal).2 = none := by
  unfold ParamManager.getVRFParamsWrapper
  simp only
  split
  · rfl
  · split <;> rfl

/-- The method getVRFParams itself reports a decoding error. -/
theorem getVRFParams_of_decode_error (env : Env) (u : ParamManager) (m : String)
    (h : u.getState (vrfParamsKey env) ≠ [])
    (hd : env.rlpDecodeVRFParams (u.getState (vrfParamsKey env)) = .error m) :
    (u.getVRFParams env).2 = some (Error.rlp m) := by
  unfold ParamManager.getVRFParams
  rw [getParam_of_decode_error _ _ _ _ m h hd]
  simp

/-- Every exported getter other than getVRFParams returns the decoding error
when the slot it reads holds a non-empty value that fails to decode. -/
theorem callGetter_of_decode_error (env : Env)
    (jsonMarshal : VRFParams → Except String String) (u : ParamManager) (g : GetterCall)
    (hg : g ≠ GetterCall.getVRFParams) (h : g.slotFailsToDecode env u) :
    ∃ m, (u.callGetter env jsonMarshal g).2 = some (Error.rlp m) := by
  cases g with
  | getVRFParams => exact absurd rfl hg
  | getGasContractName =>
    obtain ⟨hne, m, hd⟩ := h
    refine ⟨m, ?_⟩
    simp only [ParamManager.callGetter, ParamManager.getGasContractName]
    rw [getParam_of_decode_error _ _ _ _ m hne hd]
    simp
  | getIsProduceEmptyBlock =>
    obtain ⟨hne, m, hd⟩ := h
    simp only [GetterCall.key] at hne hd
    refine ⟨m, ?_⟩
    simp only [ParamManager.callGetter, ParamManager.getIsProduceEmptyBlock]
    rw [getParam_of_decode_error _ _ _ _ m hne hd]
    simp
  | getTxGasLimit =>
    obtain ⟨hne, m, hd⟩ := h
    refine ⟨m, ?_⟩
    simp only [ParamManager.callGetter, ParamManager.getTxGasLimit]
    rw [getParam_of_decode_error _ _ _ _ m hne hd]
    simp
  | getBlockGasLimit =>
    obtain ⟨hne, m, hd⟩ := h
    refine ⟨m, ?_⟩
    simp only [ParamManager.callGetter, ParamManager.getBlockGasLimit]
    rw [getParam_of_decode_error _ _ _ _ m hne hd]
    simp
  | getCheckContractDeployPermission =>
    obtain ⟨hne, m, hd⟩ := h
    simp only [GetterCall.key] at hne hd
    refine ⟨m, ?_⟩
    simp only [ParamManager.callGetter, ParamManager.getCheckContractDeployPermission]
    rw [getParam_of_decode_error _ _ _ _ m hne hd]
    simp
  | getIsApproveDeployedContract =>
    obtain ⟨hne, m, hd⟩ := h
    simp only [GetterCall.key] at hne hd
    refine ⟨m, ?_⟩
    simp only [ParamManager.callGetter, ParamManager.getIsApproveDeployedContract]
    rw [getParam_of_decode_error _ _ _ _ m hne hd]
    simp
  | getIsTxUseGas =>
    obtain ⟨hne, m, hd⟩ := h
    simp only [GetterCall.key] at hne hd
    refine ⟨m, ?_⟩
    simp only [ParamManager.callGetter, ParamManager.getIsTxUseGas]
    rw [getParam_of_decode_error _ _ _ _ m hne hd]
    simp
  | getIsBlockUseTrieHash =>
    obtain ⟨hne, m, hd⟩ := h
    simp only [GetterCall.key] at hne hd
    refine ⟨m, ?_⟩
    simp only [ParamManager.callGetter, ParamManager.getIsBlockUseTrieHash]
    rw [getParam_of_decode_error _ _ _ _ m hne hd]
    simp

/-! ## The claims -/

/-- C1. In every state reachable from empty governance storage by any sequence
of setter calls, by any callers with any arguments, getTxGasLimit and
getBlockGasLimit both return a nil error and the value returned by
getTxGasLimit is less than or equal to the value returned by getBlockGasLimit
(an absent slot reading as its default, 1500000000 and 10000000000).  The rlp
package is assumed to decode what it encoded, and generateStateKey to give the
nine parameter names distinct keys. -/
theorem txGasLimit_le_blockGasLimit (env : Env) (hl : RlpLawful env) (hk : KeysDistinct env)
    (addr : Address) (db : StateDB) (h : Reachable env addr db) (caller : Address)
    (blockNumber : Nat) :
    ((ParamManager.mk db addr caller blockNumber).getTxGasLimit env).2 = none ∧
    ((ParamManager.mk db addr caller blockNumber).getBlockGasLimit env).2 = none ∧
    ((ParamManager.mk db addr caller blockNumber).getTxGasLimit env).1 ≤
      ((ParamManager.mk db addr caller blockNumber).getBlockGasLimit env).1 := by
  induction h generalizing caller blockNumber with
  | init db h0 =>
    rw [getTxGasLimit_of_empty_slot env (ParamManager.mk db addr caller blockNumber) (h0 _),
      getBlockGasLimit_of_empty_slot env (ParamManager.mk db addr caller blockNumber) (h0 _)]
    exact ⟨rfl, rfl, by decide⟩
  | step db caller0 blockNumber0 c _ ih =>
    exact gas_limit_invariant_step env hl hk (ParamManager.mk db addr caller0 blockNumber0) c
      (ih caller0 blockNumber0) caller blockNumber

/-- C1, at a concrete reachable state: the state the administrator's call
setTxGasLimit(2000000000) leaves behind, read by "guest" at block 9. -/
theorem txGasLimit_le_blockGasLimit_witness :
    RlpLawful sample.env ∧ KeysDistinct sample.env ∧
    Reachable sample.env sample.paramManagerAddr
      ((ParamManager.mk sample.emptyDB sample.paramManagerAddr "admin" 7).callSetter sample.env
        (SetterCall.setTxGasLimit 2000000000)).stateDB ∧
    ((ParamManager.mk
        ((ParamManager.mk sample.emptyDB sample.paramManagerAddr "admin" 7).callSetter sample.env
          (SetterCall.setTxGasLimit 2000000000)).stateDB
        sample.paramManagerAddr "guest" 9).getTxGasLimit sample.env).1 ≤
      ((ParamManager.mk
        ((ParamManager.mk sample.emptyDB sample.paramManagerAddr "admin" 7).callSetter sample.env
          (SetterCall.setTxGasLimit 2000000000)).stateDB
        sample.paramManagerAddr "guest" 9).getBlockGasLimit sample.env).1 :=
  ⟨sample.env_lawful, sample.env_keys_distinct,
    Reachable.step sample.emptyDB "admin" 7 (SetterCall.setTxGasLimit 2000000000)
      (Reachable.init sample.emptyDB (fun _ => rfl)),
    (txGasLimit_le_blockGasLimit sample.env sample.env_lawful sample.env_keys_distinct
      sample.paramManagerAddr _
      (Reachable.step sample.emptyDB "admin" 7 (SetterCall.setTxGasLimit 2000000000)
        (Reachable.init sample.emptyDB (fun _ => rfl))) "guest" 9).2.2⟩

/-- C2. For every governed parameter, every caller that has parameter-operation
permission and every argument that is valid for the parameter (it passes the
checks of its setter: bounds, boolean domain, comparison with the sibling gas
limit, registered name, validator count), calling the setter returns the
success status with a nil error, and the getter of the parameter, called by
anyone on the resulting state, returns the argument with a nil error.  The rlp
package is assumed to decode what it encoded. -/
theorem set_then_get_returns_value (env : Env) (hl : RlpLawful env) (u : ParamManager)
    (c : SetterCall) (hperm : env.hasParamOpPermission u.stateDB u.caller = true)
    (hvalid : c.passesValidation env u) (hty : c.value.WellTyped)
    (caller : Address) (blockNumber : Nat) :
    (u.callSetter env c).val = sucFlag ∧ (u.callSetter env c).err = none ∧
    c.readsBack env
      (ParamManager.mk (u.callSetter env c).stateDB u.contractAddr caller blockNumber) := by
  rcases callSetter_cases env u c with
    ⟨hv, _⟩ | ⟨hv, _⟩ | ⟨_, hp, _⟩ | ⟨_, _, ⟨e, hee⟩, _⟩ | ⟨_, _, bs, topic, msg, he, hr⟩
  · exact absurd hvalid hv
  · exact absurd hvalid hv
  · rw [hperm] at hp; exact absurd hp (by simp)
  · obtain ⟨bs, he⟩ := hl.encode_total _ hty
    rw [he] at hee; exact absurd hee (by simp)
  · rw [hr]
    refine ⟨rfl, rfl, ?_⟩
    have hne : bs ≠ [] := hl.encode_ne_nil _ bs hty he
    have hs := getState_after_write u (c.key env) bs topic doParamSetSuccess msg caller
      blockNumber (c.key env)
    rw [if_pos rfl] at hs
    cases c with
    | setGasContractName n =>
      simp only [SetterCall.key, SetterCall.value] at hs he
      simp only [SetterCall.readsBack, ParamManager.getGasContractName, SetterCall.key]
      rw [getParam_of_decode_ok _ _ _ _ n (by rw [hs]; exact hne) (by rw [hs]; exact hl.decode_str n bs hty he)]
      simp
    | setIsProduceEmptyBlock x =>
      simp only [SetterCall.key, SetterCall.value] at hs he
      simp only [SetterCall.readsBack, ParamManager.getIsProduceEmptyBlock, SetterCall.key]
      rw [getParam_of_decode_ok _ _ _ _ x (by rw [hs]; exact hne) (by rw [hs]; exact hl.decode_u32 x bs hty he)]
      simp
    | setTxGasLimit x =>
      simp only [SetterCall.key, SetterCall.value] at hs he
      simp only [SetterCall.readsBack, ParamManager.getTxGasLimit, SetterCall.key]
      rw [getParam_of_decode_ok _ _ _ _ x (by rw [hs]; exact hne) (by rw [hs]; exact hl.decode_u64 x bs hty he)]
      simp
    | setBlockGasLimit x =>
      simp only [SetterCall.key, SetterCall.value] at hs he
      simp only [SetterCall.readsBack, ParamManager.getBlockGasLimit, SetterCall.key]
      rw [getParam_of_decode_ok _ _ _ _ x (by rw [hs]; exact hne) (by rw [hs]; exact hl.decode_u64 x bs hty he)]
      simp
    | setCheckContractDeployPermission x =>
      simp only [SetterCall.key, SetterCall.value] at hs he
      simp only [SetterCall.readsBack, ParamManager.getCheckContractDeployPermission, SetterCall.key]
      rw [getParam_of_decode_ok _ _ _ _ x (by rw [hs]; exact hne) (by rw [hs]; exact hl.decode_u32 x bs hty he)]
      simp
    | setIsApproveDeployedContract x =>
      simp only [SetterCall.key, SetterCall.value] at hs he
      simp only [SetterCall.readsBack, ParamManager.getIsApproveDeployedContract, SetterCall.key]
      rw [getParam_of_decode_ok _ _ _ _ x (by rw [hs]; exact hne) (by rw [hs]; exact hl.decode_u32 x bs hty he)]
      simp
    | setIsTxUseGas x =>
      simp only [SetterCall.key, SetterCall.value] at hs he
      simp only [SetterCall.readsBack, ParamManager.getIsTxUseGas, SetterCall.key]
      rw [getParam_of_decode_ok _ _ _ _ x (by rw [hs]; exact hne) (by rw [hs]; exact hl.decode_u64_as_u32 x bs (by have h2 : x / 2 = 0 := hvalid; omega) he)]
      simp
    | setVRFParams p =>
      simp only [SetterCall.key, SetterCall.value] at hs he
      simp only [SetterCall.readsBack, ParamManager.getVRFParams, SetterCall.key]
      rw [getParam_of_decode_ok _ _ _ _ p (by rw [hs]; exact hne) (by rw [hs]; exact hl.decode_vrf p bs hty he)]
      simp
    | setIsBlockUseTrieHash x =>
      simp only [SetterCall.key, SetterCall.value] at hs he
      simp only [SetterCall.readsBack, ParamManager.getIsBlockUseTrieHash, SetterCall.key]
      rw [getParam_of_decode_ok _ _ _ _ x (by rw [hs]; exact hne) (by rw [hs]; exact hl.decode_u64_as_u32 x bs (by have h2 : x / 2 = 0 := hvalid; omega) he)]
      simp

/-- C2, at a concrete call: the administrator sets the transaction gas limit to
1500000000 on empty storage, and "guest" reads it back at block 9. -/
theorem set_then_get_returns_value_witness :
    RlpLawful sample.env ∧
    sample.env.hasParamOpPermission sample.admin.stateDB sample.admin.caller = true ∧
    (SetterCall.setTxGasLimit 1500000000).passesValidation sample.env sample.admin ∧
    (SetterCall.setTxGasLimit 1500000000).value.WellTyped ∧
    (ParamManager.mk
        (sample.admin.callSetter sample.env (SetterCall.setTxGasLimit 1500000000)).stateDB
        sample.admin.contractAddr "guest" 9).getTxGasLimit sample.env = (1500000000, none) :=
  ⟨sample.env_lawful, by decide, by unfold SetterCall.passesValidation; decide,
    by simp [SetterCall.value, Value.WellTyped],
    (set_then_get_returns_value sample.env sample.env_lawful sample.admin
      (SetterCall.setTxGasLimit 1500000000) (by decide)
      (by unfold SetterCall.passesValidation; decide)
      (by simp [SetterCall.value, Value.WellTyped]) "guest" 9).2.2⟩

/-- C3. A caller for which hasParamOpPermission is false cannot change the
storage: whatever setter it calls, with whatever argument and on whatever
state, every storage slot (of the governance contract and of every other
address) reads after the call as it did before. -/
theorem setter_without_permission_keeps_storage (env : Env) (u : ParamManager) (c : SetterCall)
    (h : env.hasParamOpPermission u.stateDB u.caller = false) :
    (u.callSetter env c).stateDB.storage = u.stateDB.storage := by
  cases c <;>
    simp only [ParamManager.callSetter, ParamManager.setGasContractName,
      ParamManager.setIsProduceEmptyBlock, ParamManager.setTxGasLimit,
      ParamManager.setBlockGasLimit, ParamManager.setCheckContractDeployPermission,
      ParamManager.setIsApproveDeployedContract, ParamManager.setIsTxUseGas,
      ParamManager.setVRFParams, ParamManager.setIsBlockUseTrieHash,
      doParamSet_of_no_permission env u _ _ h, ParamManager.emitNotifyEventInParam] <;>
    (repeat' split) <;> rfl

/-- C3, at a concrete call: the caller "guest" has no permission in the sample
collaborators, and its call of setTxGasLimit leaves the storage as it was. -/
theorem setter_without_permission_keeps_storage_witness :
    sample.env.hasParamOpPermission sample.guest.stateDB sample.guest.caller = false ∧
    (sample.guest.callSetter sample.env (SetterCall.setTxGasLimit 1500000000)).stateDB.storage
      = sample.guest.stateDB.storage :=
  ⟨by decide, setter_without_permission_keeps_storage sample.env sample.guest
    (SetterCall.setTxGasLimit 1500000000) (by decide)⟩

/-- C4, refuted as stated: in the sample collaborators the caller "guest" has no
permission, yet setIsProduceEmptyBlock(2) reports ParamInvalid, not
NoPermission, and the one event it emits carries the code paramInvalid. -/
theorem permission_check_is_not_first :
    sample.env.hasParamOpPermission sample.guest.stateDB sample.guest.caller = false ∧
    (sample.guest.setIsProduceEmptyBlock sample.env 2).err = some Error.errParamInvalid ∧
    (sample.guest.setIsProduceEmptyBlock sample.env 2).err ≠ some Error.errNoPermission ∧
    (sample.guest.setIsProduceEmptyBlock sample.env 2).stateDB.logs.map Log.code
      = [paramInvalid] := by
  decide

/-- C4, amended. The permission check comes after the setter's own checks on
its argument.  For every caller for which hasParamOpPermission is false: when
the argument passes those checks, the setter reports NoPermission, emits
exactly one event, with code callerHasNoPermission, and writes nothing; when
the argument fails them, the setter does not report NoPermission and emits no
callerHasNoPermission event: the events the call adds to the log are at most
one, and its code is paramInvalid or contractNameNotExists. -/
theorem setter_without_permission_reports_after_validation (env : Env) (u : ParamManager)
    (c : SetterCall) (h : env.hasParamOpPermission u.stateDB u.caller = false) :
    (c.passesValidation env u →
      (u.callSetter env c).err = some Error.errNoPermission ∧
      (∃ e : Log, (u.callSetter env c).stateDB.logs = u.stateDB.logs ++ [e] ∧
        e.code = callerHasNoPermission) ∧
      (u.callSetter env c).stateDB.storage = u.stateDB.storage) ∧
    (¬ c.passesValidation env u →
      (u.callSetter env c).err ≠ some Error.errNoPermission ∧
      ∃ added : List Log, (u.callSetter env c).stateDB.logs = u.stateDB.logs ++ added ∧
        added.length ≤ 1 ∧
        (∀ e ∈ added, e.code = paramInvalid ∨ e.code = contractNameNotExists) ∧
        (∀ e ∈ added, e.code ≠ callerHasNoPermission)) := by
  rcases callSetter_cases env u c with
    ⟨hv, err, topic, code, msg, hr, hcode, hne, _⟩ | ⟨hv, hd⟩ | ⟨hv, _, topic, msg, hr⟩ |
    ⟨_, hp, _⟩ | ⟨_, hp, _⟩
  · refine ⟨fun hpass => absurd hpass hv, fun _ => ?_⟩
    rw [hr]
    refine ⟨hne, [⟨u.contractAddr, u.blockNumber % 2 ^ 64, topic, code, msg⟩], rfl,
      le_refl 1, ?_, ?_⟩
    · intro e he
      have he2 : e = ⟨u.contractAddr, u.blockNumber % 2 ^ 64, topic, code, msg⟩ := by
        simpa using he
      subst he2
      exact hcode
    · intro e he
      have he2 : e = ⟨u.contractAddr, u.blockNumber % 2 ^ 64, topic, code, msg⟩ := by
        simpa using he
      subst he2
      rcases hcode with hcode | hcode <;>
        simp [hcode, paramInvalid, contractNameNotExists, callerHasNoPermission]
  · refine ⟨fun hpass => absurd hpass hv, fun _ => ?_⟩
    rcases hd with ⟨t, m, _, _, hr⟩ | ⟨b, m, _, _, hr⟩ <;>
    · rw [hr]
      exact ⟨by simp, [], by simp, by simp, by simp, by simp⟩
  · refine ⟨fun _ => ?_, fun hn => absurd hv hn⟩
    rw [hr]
    exact ⟨rfl, ⟨_, rfl, rfl⟩, rfl⟩
  · rw [h] at hp; exact absurd hp (by simp)
  · rw [h] at hp; exact absurd hp (by simp)

/-- C4, amended, at two concrete calls: "guest" has no permission; the argument
1500000000 passes the checks of setTxGasLimit on empty storage, and the call
reports NoPermission; the argument 2 fails the check of setIsProduceEmptyBlock,
and the call does not report NoPermission. -/
theorem setter_without_permission_reports_after_validation_witness :
    sample.env.hasParamOpPermission sample.guest.stateDB sample.guest.caller = false ∧
    (SetterCall.setTxGasLimit 1500000000).passesValidation sample.env sample.guest ∧
    (sample.guest.callSetter sample.env (SetterCall.setTxGasLimit 1500000000)).err
      = some Error.errNoPermission ∧
    ¬ (SetterCall.setIsProduceEmptyBlock 2).passesValidation sample.env sample.guest ∧
    (sample.guest.callSetter sample.env (SetterCall.setIsProduceEmptyBlock 2)).err
      ≠ some Error.errNoPermission :=
  ⟨by decide, by unfold SetterCall.passesValidation; decide,
    ((setter_without_permission_reports_after_validation sample.env sample.guest
      (SetterCall.setTxGasLimit 1500000000) (by decide)).1
        (by unfold SetterCall.passesValidation; decide)).1,
    by unfold SetterCall.passesValidation; decide,
    ((setter_without_permission_reports_after_validation sample.env sample.guest
      (SetterCall.setIsProduceEmptyBlock 2) (by decide)).2
        (by unfold SetterCall.passesValidation; decide)).1⟩

/-- C5, refuted as stated: on the sample state whose block-gas-limit slot does
not decode, setTxGasLimit(1500000000) called by the administrator ends in
neither of the two outcomes: it returns a non-nil error, and it emits no
event. -/
theorem setter_outcome_dichotomy_fails :
    ¬ (SuccessOutcome sample.env sample.corruptAdmin (SetterCall.setTxGasLimit 1500000000)
          (sample.corruptAdmin.callSetter sample.env (SetterCall.setTxGasLimit 1500000000)) ∨
       FailureOutcome sample.corruptAdmin
          (sample.corruptAdmin.callSetter sample.env (SetterCall.setTxGasLimit 1500000000))) := by
  have herr : (sample.corruptAdmin.callSetter sample.env
      (SetterCall.setTxGasLimit 1500000000)).err ≠ none := by decide
  have hlogs : (sample.corruptAdmin.callSetter sample.env
      (SetterCall.setTxGasLimit 1500000000)).stateDB.logs = [] := by decide
  rintro (⟨h, _⟩ | ⟨_, e, he, _⟩)
  · exact herr h
  · rw [hlogs] at he
    simp at he

/-- C5, amended. Every call of every setter, by every caller and with every
argument, on every state in which the sibling gas-limit slot that setTxGasLimit
or setBlockGasLimit reads is absent or decodes, ends in exactly one of two
outcomes: success (nil error, the slot holds the encoding of the argument,
exactly one event, with code doParamSetSuccess) or failure (no storage slot
changed, an event with one of the four failure codes emitted). -/
theorem setter_outcome_dichotomy (env : Env) (u : ParamManager) (c : SetterCall)
    (h : c.siblingReadable env u) :
    (SuccessOutcome env u c (u.callSetter env c) ∨ FailureOutcome u (u.callSetter env c)) ∧
    ¬ (SuccessOutcome env u c (u.callSetter env c) ∧ FailureOutcome u (u.callSetter env c)) := by
  obtain ⟨h3, hex, _, _⟩ := setter_outcome_cases env u c
  refine ⟨?_, hex⟩
  rcases h3 with hs | hf | ⟨_, _, _, m, _, hd⟩
  · exact Or.inl hs
  · exact Or.inr hf
  · exfalso
    rcases hd with ⟨t, hc, hg⟩ | ⟨b, hc, hg⟩
    · subst hc
      have h2 : (u.getBlockGasLimit env).2 = none := h
      rw [h2] at hg
      exact absurd hg (by simp)
    · subst hc
      have h2 : (u.getTxGasLimit env).2 = none := h
      rw [h2] at hg
      exact absurd hg (by simp)

/-- C5, amended, at a concrete call: on empty storage the block gas limit reads
as its default, and the administrator's call setTxGasLimit(1500000000) ends in
one of the two outcomes. -/
theorem setter_outcome_dichotomy_witness :
    (SetterCall.setTxGasLimit 1500000000).siblingReadable sample.env sample.admin ∧
    (SuccessOutcome sample.env sample.admin (SetterCall.setTxGasLimit 1500000000)
        (sample.admin.callSetter sample.env (SetterCall.setTxGasLimit 1500000000)) ∨
      FailureOutcome sample.admin
        (sample.admin.callSetter sample.env (SetterCall.setTxGasLimit 1500000000))) :=
  ⟨by unfold SetterCall.siblingReadable; decide,
    (setter_outcome_dichotomy sample.env sample.admin (SetterCall.setTxGasLimit 1500000000)
      (by unfold SetterCall.siblingReadable; decide)).1⟩

/-- C6, the code at a failing input: after the administrator has set the
transaction gas limit to 2000000000, the in-range block gas limit 1500000000
is below it; setBlockGasLimit returns failFlag with a nil error, not
ParamInvalid, while it does emit a paramInvalid event and leaves the block gas
limit slot as it was. -/
theorem setBlockGasLimit_below_tx_limit_returns_nil_error :
    BlockGasLimitMinValue ≤ 1500000000 ∧ 1500000000 ≤ BlockGasLimitMaxValue ∧
    sample.adminAfterTx.getTxGasLimit sample.env = (2000000000, none) ∧
    (sample.adminAfterTx.setBlockGasLimit sample.env 1500000000).val = failFlag ∧
    (sample.adminAfterTx.setBlockGasLimit sample.env 1500000000).err = none ∧
    (sample.adminAfterTx.setBlockGasLimit sample.env 1500000000).err
      ≠ some Error.errParamInvalid ∧
    (sample.adminAfterTx.setBlockGasLimit sample.env 1500000000).stateDB.logs.map Log.code
      = [doParamSetSuccess, paramInvalid] ∧
    (sample.adminAfterTx.setBlockGasLimit sample.env 1500000000).stateDB.GetState
        sample.paramManagerAddr (blockGasLimitKey sample.env)
      = sample.adminAfterTx.getState (blockGasLimitKey sample.env) := by
  decide

/-- C7. For all transaction limits t and block limits b with t > b, in both call
orders: after a setBlockGasLimit(b) that returned the success status, a call of
setTxGasLimit(t), by any caller at any block, changes no storage slot and does
not return the success status; and after a setTxGasLimit(t) that returned the
success status, a call of setBlockGasLimit(b) changes no storage slot and does
not return the success status. -/
theorem gas_limit_order_enforced (env : Env) (hl : RlpLawful env) (u : ParamManager)
    (t b : Nat) (htb : t > b) (caller : Address) (blockNumber : Nat) :
    ((u.setBlockGasLimit env b).val = sucFlag →
      ((ParamManager.mk (u.setBlockGasLimit env b).stateDB u.contractAddr caller
          blockNumber).setTxGasLimit env t).stateDB.storage
        = (u.setBlockGasLimit env b).stateDB.storage ∧
      ((ParamManager.mk (u.setBlockGasLimit env b).stateDB u.contractAddr caller
          blockNumber).setTxGasLimit env t).val ≠ sucFlag) ∧
    ((u.setTxGasLimit env t).val = sucFlag →
      ((ParamManager.mk (u.setTxGasLimit env t).stateDB u.contractAddr caller
          blockNumber).setBlockGasLimit env b).stateDB.storage
        = (u.setTxGasLimit env t).stateDB.storage ∧
      ((ParamManager.mk (u.setTxGasLimit env t).stateDB u.contractAddr caller
          blockNumber).setBlockGasLimit env b).val ≠ sucFlag) := by
  have hne : failFlag ≠ sucFlag := by decide
  constructor
  · intro hs
    obtain ⟨hv, bs, topic, msg, he, hr⟩ :=
      callSetter_of_success env u (SetterCall.setBlockGasLimit b) rfl hs
    have hr2 : u.setBlockGasLimit env b = _ := hr
    have hb : b < 2 ^ 64 := by
      have h2 : b ≤ BlockGasLimitMaxValue := hv.2.1
      simp only [BlockGasLimitMaxValue] at h2
      omega
    rw [hr2]
    have hg := getBlockGasLimit_after_set env hl u b bs hb he topic doParamSetSuccess msg
      caller blockNumber
    have hnv : ¬ (SetterCall.setTxGasLimit t).passesValidation env
        (ParamManager.mk ((ParamManager.mk (u.setState (blockGasLimitKey env) bs) u.contractAddr
          u.caller u.blockNumber).emitNotifyEventInParam topic doParamSetSuccess msg)
          u.contractAddr caller blockNumber) := by
      intro h
      have h4 := h.2.2.2
      rw [hg] at h4
      simp only at h4
      omega
    have h5 := callSetter_of_not_valid env _ _ hnv
    exact ⟨h5.1, fun h6 => hne (h5.2.symm.trans h6)⟩
  · intro hs
    obtain ⟨hv, bs, topic, msg, he, hr⟩ :=
      callSetter_of_success env u (SetterCall.setTxGasLimit t) rfl hs
    have hr2 : u.setTxGasLimit env t = _ := hr
    have ht : t < 2 ^ 64 := by
      have h2 : t ≤ TxGasLimitMaxValue := hv.2.1
      simp only [TxGasLimitMaxValue] at h2
      omega
    rw [hr2]
    have hg := getTxGasLimit_after_set env hl u t bs ht he topic doParamSetSuccess msg
      caller blockNumber
    have hnv : ¬ (SetterCall.setBlockGasLimit b).passesValidation env
        (ParamManager.mk ((ParamManager.mk (u.setState (txGasLimitKey env) bs) u.contractAddr
          u.caller u.blockNumber).emitNotifyEventInParam topic doParamSetSuccess msg)
          u.contractAddr caller blockNumber) := by
      intro h
      have h4 := h.2.2.2
      rw [hg] at h4
      simp only at h4
      omega
    have h5 := callSetter_of_not_valid env _ _ hnv
    exact ⟨h5.1, fun h6 => hne (h5.2.symm.trans h6)⟩

/-- C7, at concrete calls: the administrator sets the block gas limit to
1500000000 on empty storage; a later setTxGasLimit(2000000000) by "guest" does
not return the success status. -/
theorem gas_limit_order_enforced_witness :
    RlpLawful sample.env ∧ 2000000000 > 1500000000 ∧
    (sample.admin.setBlockGasLimit sample.env 1500000000).val = sucFlag ∧
    ((ParamManager.mk (sample.admin.setBlockGasLimit sample.env 1500000000).stateDB
        sample.admin.contractAddr "guest" 9).setTxGasLimit sample.env 2000000000).val
      ≠ sucFlag :=
  ⟨sample.env_lawful, by decide, by decide,
    ((gas_limit_order_enforced sample.env sample.env_lawful sample.admin 2000000000 1500000000
      (by decide) "guest" 9).1 (by decide)).2⟩

/-- C8. For every state and every caller, setVRFParams called with a record
whose ValidatorCount is 0 returns the error ValidatorCountInvalid, leaves every
storage slot unchanged (the vrfParamsKey slot among them), and so leaves the
result of getVRFParams, for whoever reads it afterwards, unchanged. -/
theorem setVRFParams_zero_validator_count (env : Env) (u : ParamManager) (params : VRFParams)
    (h : params.ValidatorCount = 0) :
    (u.setVRFParams env params).err = some Error.errValidatorCountInvalid ∧
    (u.setVRFParams env params).stateDB.storage = u.stateDB.storage ∧
    (u.setVRFParams env params).stateDB.GetState u.contractAddr (vrfParamsKey env)
      = u.getState (vrfParamsKey env) ∧
    ∀ (caller : Address) (blockNumber : Nat),
      (ParamManager.mk (u.setVRFParams env params).stateDB u.contractAddr caller
          blockNumber).getVRFParams env
        = (ParamManager.mk u.stateDB u.contractAddr caller blockNumber).getVRFParams env := by
  have hr : u.setVRFParams env params
      = ⟨0, some Error.errValidatorCountInvalid,
          u.emitNotifyEventInParam "SetVRFParams" paramInvalid "param is invalid."⟩ := by
    simp [ParamManager.setVRFParams, ParamManager.checkVRFParams, h]
  rw [hr]
  refine ⟨rfl, rfl, rfl, ?_⟩
  intro caller blockNumber
  rfl

/-- C8, at a concrete call: the administrator sets a record with no validator. -/
theorem setVRFParams_zero_validator_count_witness :
    (sample.admin.setVRFParams sample.env ⟨5, 100, 0⟩).err
      = some Error.errValidatorCountInvalid :=
  (setVRFParams_zero_validator_count sample.env sample.admin ⟨5, 100, 0⟩ rfl).1

/-- C9. For every unsigned argument x, the check x/2 != 0 holds exactly when x
is neither 0 nor 1; when it holds, each of the five boolean-flag setters,
for every caller and state, returns (failFlag, ParamInvalid) and changes no
storage slot; when it does not hold, none of them reports ParamInvalid. -/
theorem flag_setters_reject_non_boolean (env : Env) (u : ParamManager) (x : Nat) :
    (x / 2 ≠ 0 ↔ (x ≠ 0 ∧ x ≠ 1)) ∧
    ((x ≠ 0 ∧ x ≠ 1) →
      ((u.setIsProduceEmptyBlock env x).val = failFlag ∧
        (u.setIsProduceEmptyBlock env x).err = some Error.errParamInvalid ∧
        (u.setIsProduceEmptyBlock env x).stateDB.storage = u.stateDB.storage) ∧
      ((u.setCheckContractDeployPermission env x).val = failFlag ∧
        (u.setCheckContractDeployPermission env x).err = some Error.errParamInvalid ∧
        (u.setCheckContractDeployPermission env x).stateDB.storage = u.stateDB.storage) ∧
      ((u.setIsApproveDeployedContract env x).val = failFlag ∧
        (u.setIsApproveDeployedContract env x).err = some Error.errParamInvalid ∧
        (u.setIsApproveDeployedContract env x).stateDB.storage = u.stateDB.storage) ∧
      ((u.setIsTxUseGas env x).val = failFlag ∧
        (u.setIsTxUseGas env x).err = some Error.errParamInvalid ∧
        (u.setIsTxUseGas env x).stateDB.storage = u.stateDB.storage) ∧
      ((u.setIsBlockUseTrieHash env x).val = failFlag ∧
        (u.setIsBlockUseTrieHash env x).err = some Error.errParamInvalid ∧
        (u.setIsBlockUseTrieHash env x).stateDB.storage = u.stateDB.storage)) ∧
    ((x = 0 ∨ x = 1) →
      (u.setIsProduceEmptyBlock env x).err ≠ some Error.errParamInvalid ∧
      (u.setCheckContractDeployPermission env x).err ≠ some Error.errParamInvalid ∧
      (u.setIsApproveDeployedContract env x).err ≠ some Error.errParamInvalid ∧
      (u.setIsTxUseGas env x).err ≠ some Error.errParamInvalid ∧
      (u.setIsBlockUseTrieHash env x).err ≠ some Error.errParamInvalid) := by
  have hiff : x / 2 ≠ 0 ↔ (x ≠ 0 ∧ x ≠ 1) := by omega
  refine ⟨hiff, ?_, ?_⟩
  · intro hx
    have h2 : x / 2 ≠ 0 := hiff.mpr hx
    simp [ParamManager.setIsProduceEmptyBlock, ParamManager.setCheckContractDeployPermission,
      ParamManager.setIsApproveDeployedContract, ParamManager.setIsTxUseGas,
      ParamManager.setIsBlockUseTrieHash, h2, ParamManager.emitNotifyEventInParam,
      emitEvent_storage]
  · intro hx
    have h2 : x / 2 = 0 := by omega
    simp only [ParamManager.setIsProduceEmptyBlock, ParamManager.setCheckContractDeployPermission,
      ParamManager.setIsApproveDeployedContract, ParamManager.setIsTxUseGas,
      ParamManager.setIsBlockUseTrieHash, h2, ne_eq, not_true_eq_false, if_false]
    refine ⟨?_, ?_, ?_, ?_, ?_⟩ <;>
      (rcases doParamSet_cases env u _ _ with h | h | h
       · rw [h.2]; simp
       · rw [h.2.2]; simp
       · obtain ⟨_, bs, _, h3⟩ := h
         rw [h3]; simp)

/-- C9, at a concrete call: the argument 2 is rejected for the administrator. -/
theorem flag_setters_reject_non_boolean_witness :
    (sample.admin.setIsTxUseGas sample.env 2).val = failFlag ∧
    (sample.admin.setIsTxUseGas sample.env 2).err = some Error.errParamInvalid :=
  have h := (flag_setters_reject_non_boolean sample.env sample.admin 2).2.1 (by decide)
  ⟨h.2.2.2.1.1, h.2.2.2.1.2.1⟩

/-- C10. On a state in which a parameter's slot was never written (getState
returns an empty value) its getter returns the documented default with a nil
error: 1500000000 for the transaction gas limit, 10000000000 for the block gas
limit, the empty name, 0 for the four flags that default to false, 1 for
IsBlockUseTrieHash, the zero VRFParams.  And on every state no getter returns
the internal errEmptyValue. -/
theorem getters_default_when_unset (env : Env) (u : ParamManager) :
    ((u.getState (txGasLimitKey env) = [] → u.getTxGasLimit env = (1500000000, none)) ∧
     (u.getState (blockGasLimitKey env) = [] → u.getBlockGasLimit env = (10000000000, none)) ∧
     (u.getState (gasContractNameKey env) = [] → u.getGasContractName env = ("", none)) ∧
     (u.getState (isProduceEmptyBlockKey env) = [] → u.getIsProduceEmptyBlock env = (0, none)) ∧
     (u.getState (isCheckContractDeployPermission env) = [] →
        u.getCheckContractDeployPermission env = (0, none)) ∧
     (u.getState (isApproveDeployedContractKey env) = [] →
        u.getIsApproveDeployedContract env = (0, none)) ∧
     (u.getState (isTxUseGasKey env) = [] → u.getIsTxUseGas env = (0, none)) ∧
     (u.getState (isBlockUseTrieHashKey env) = [] → u.getIsBlockUseTrieHash env = (1, none)) ∧
     (u.getState (vrfParamsKey env) = [] → u.getVRFParams env = (⟨0, 0, 0⟩, none))) ∧
    ((u.getTxGasLimit env).2 ≠ some Error.errEmptyValue ∧
     (u.getBlockGasLimit env).2 ≠ some Error.errEmptyValue ∧
     (u.getGasContractName env).2 ≠ some Error.errEmptyValue ∧
     (u.getIsProduceEmptyBlock env).2 ≠ some Error.errEmptyValue ∧
     (u.getCheckContractDeployPermission env).2 ≠ some Error.errEmptyValue ∧
     (u.getIsApproveDeployedContract env).2 ≠ some Error.errEmptyValue ∧
     (u.getIsTxUseGas env).2 ≠ some Error.errEmptyValue ∧
     (u.getIsBlockUseTrieHash env).2 ≠ some Error.errEmptyValue ∧
     (u.getVRFParams env).2 ≠ some Error.errEmptyValue) := by
  constructor
  · refine ⟨?_, ?_, ?_, ?_, ?_, ?_, ?_, ?_, ?_⟩ <;>
    (intro h
     simp [ParamManager.getTxGasLimit, ParamManager.getBlockGasLimit,
      ParamManager.getGasContractName, ParamManager.getIsProduceEmptyBlock,
      ParamManager.getCheckContractDeployPermission, ParamManager.getIsApproveDeployedContract,
      ParamManager.getIsTxUseGas, ParamManager.getIsBlockUseTrieHash, ParamManager.getVRFParams,
      getParam_of_empty _ _ _ _ h, txGasLimitDefaultValue, blockGasLimitDefaultValue,
      gasContractNameDefault, isProduceEmptyBlockDefault, isCheckContractDeployPermissionDefault,
      isApproveDeployedContractDefault, isTxUseGasDefault, isBlockUseTrieHashDefault,
      paramTrue, paramFalse])
  · refine ⟨?_, ?_, ?_, ?_, ?_, ?_, ?_, ?_, ?_⟩ <;>
    (simp only [ParamManager.getTxGasLimit, ParamManager.getBlockGasLimit,
      ParamManager.getGasContractName, ParamManager.getIsProduceEmptyBlock,
      ParamManager.getCheckContractDeployPermission, ParamManager.getIsApproveDeployedContract,
      ParamManager.getIsTxUseGas, ParamManager.getIsBlockUseTrieHash, ParamManager.getVRFParams]
     split
     · rename_i he
       exact he.2
     · simp)

/-- C10, on the empty sample state: the transaction gas limit reads as its
default. -/
theorem getters_default_when_unset_witness :
    sample.admin.getState (txGasLimitKey sample.env) = [] ∧
    sample.admin.getTxGasLimit sample.env = (1500000000, none) :=
  ⟨rfl, (getters_default_when_unset sample.env sample.admin).1.1 rfl⟩

/-- C14. For a caller with parameter-operation permission and a state whose
block-gas-limit slot is absent or decodes, setTxGasLimit(v) returns
(sucFlag, nil) if and only if 1277159600 <= v <= 2000000000 and v is at most
the current block gas limit (10000000000 when the slot is absent); in that case
the tx-gas-limit slot holds the encoding of v and getTxGasLimit reads v back;
in every other case it returns failFlag with ParamInvalid and writes nothing.
The rlp package is assumed to decode what it encoded. -/
theorem setTxGasLimit_succeeds_iff_valid (env : Env) (hl : RlpLawful env) (u : ParamManager)
    (v : Nat) (hperm : env.hasParamOpPermission u.stateDB u.caller = true)
    (hread : (u.getBlockGasLimit env).2 = none) :
    (((u.setTxGasLimit env v).val = sucFlag ∧ (u.setTxGasLimit env v).err = none) ↔
      (1277159600 ≤ v ∧ v ≤ 2000000000 ∧ v ≤ (u.getBlockGasLimit env).1)) ∧
    ((1277159600 ≤ v ∧ v ≤ 2000000000 ∧ v ≤ (u.getBlockGasLimit env).1) →
      (∃ bs, env.rlpEncodeToBytes (Value.u64 v) = .ok bs ∧
        (u.setTxGasLimit env v).stateDB.GetState u.contractAddr (txGasLimitKey env) = bs) ∧
      ∀ (caller : Address) (blockNumber : Nat),
        (ParamManager.mk (u.setTxGasLimit env v).stateDB u.contractAddr caller
          blockNumber).getTxGasLimit env = (v, none)) ∧
    (¬ (1277159600 ≤ v ∧ v ≤ 2000000000 ∧ v ≤ (u.getBlockGasLimit env).1) →
      (u.setTxGasLimit env v).val = failFlag ∧
      (u.setTxGasLimit env v).err = some Error.errParamInvalid ∧
      (u.setTxGasLimit env v).stateDB.storage = u.stateDB.storage) ∧
    (u.getState (blockGasLimitKey env) = [] → (u.getBlockGasLimit env).1 = 10000000000) := by
  have hne : failFlag ≠ sucFlag := by decide
  have hpv : (SetterCall.setTxGasLimit v).passesValidation env u ↔
      (1277159600 ≤ v ∧ v ≤ 2000000000 ∧ v ≤ (u.getBlockGasLimit env).1) := by
    simp only [SetterCall.passesValidation, TxGasLimitMinValue, TxGasLimitMaxValue, hread,
      true_and]
  have hgood : (1277159600 ≤ v ∧ v ≤ 2000000000 ∧ v ≤ (u.getBlockGasLimit env).1) →
      ∃ (bs : Bytes) (topic msg : String), env.rlpEncodeToBytes (Value.u64 v) = .ok bs ∧
        u.setTxGasLimit env v = ⟨sucFlag, none,
          (ParamManager.mk (u.setState (txGasLimitKey env) bs) u.contractAddr u.caller
            u.blockNumber).emitNotifyEventInParam topic doParamSetSuccess msg⟩ := by
    intro hc
    have hv64 : v < 2 ^ 64 := by omega
    rcases callSetter_cases env u (SetterCall.setTxGasLimit v) with
      ⟨hv, _⟩ | ⟨hv, _⟩ | ⟨_, hp, _⟩ | ⟨_, _, ⟨e, hee⟩, _⟩ | ⟨_, _, bs, topic, msg, he, hr⟩
    · exact absurd (hpv.mpr hc) hv
    · exact absurd (hpv.mpr hc) hv
    · rw [hperm] at hp; exact absurd hp (by simp)
    · obtain ⟨bs, he⟩ := hl.encode_total (Value.u64 v) hv64
      rw [show (SetterCall.setTxGasLimit v).value = Value.u64 v from rfl, he] at hee
      exact absurd hee (by simp)
    · exact ⟨bs, topic, msg, he, hr⟩
  have hbad : ¬ (1277159600 ≤ v ∧ v ≤ 2000000000 ∧ v ≤ (u.getBlockGasLimit env).1) →
      (u.setTxGasLimit env v).val = failFlag ∧
      (u.setTxGasLimit env v).err = some Error.errParamInvalid ∧
      (u.setTxGasLimit env v).stateDB.storage = u.stateDB.storage := by
    intro hc
    have hnv : ¬ (SetterCall.setTxGasLimit v).passesValidation env u := fun h => hc (hpv.mp h)
    rcases callSetter_cases env u (SetterCall.setTxGasLimit v) with
      ⟨_, err, topic, code, msg, hr, _, _, _, hpair⟩ | ⟨_, hd⟩ | ⟨hv, _⟩ | ⟨hv, _⟩ | ⟨hv, _⟩
    · have hr2 : u.setTxGasLimit env v = _ := hr
      rw [hr2]
      rcases hpair with ⟨h1, _⟩ | ⟨_, _, n, hn⟩ | ⟨_, _, b, hb⟩ | ⟨_, _, p, hp⟩
      · exact ⟨rfl, h1, rfl⟩
      · cases hn
      · cases hb
      · cases hp
    · rcases hd with ⟨t, m, _, hg, _⟩ | ⟨b, m, hb, _⟩
      · rw [hread] at hg; exact absurd hg (by simp)
      · cases hb
    · exact absurd hv hnv
    · exact absurd hv hnv
    · exact absurd hv hnv
  refine ⟨⟨?_, ?_⟩, ?_, hbad, ?_⟩
  · rintro ⟨hs, _⟩
    by_contra hc
    exact hne ((hbad hc).1.symm.trans hs)
  · intro hc
    obtain ⟨bs, topic, msg, _, hr⟩ := hgood hc
    rw [hr]
    exact ⟨rfl, rfl⟩
  · intro hc
    obtain ⟨bs, topic, msg, he, hr⟩ := hgood hc
    have hv64 : v < 2 ^ 64 := by omega
    rw [hr]
    refine ⟨⟨bs, he, ?_⟩, ?_⟩
    · simp [ParamManager.emitNotifyEventInParam, emitEvent, StateDB.GetState,
        ParamManager.setState, StateDB.SetState]
    · intro caller blockNumber
      exact getTxGasLimit_after_set env hl u v bs hv64 he topic doParamSetSuccess msg caller
        blockNumber
  · intro h0
    rw [getBlockGasLimit_of_empty_slot env u h0]
    rfl

/-- C14, at concrete calls by the administrator on empty storage: the argument
1500000000 is accepted, since it is in range and below the default block gas
limit. -/
theorem setTxGasLimit_succeeds_iff_valid_witness :
    RlpLawful sample.env ∧
    sample.env.hasParamOpPermission sample.admin.stateDB sample.admin.caller = true ∧
    (sample.admin.getBlockGasLimit sample.env).2 = none ∧
    (((sample.admin.setTxGasLimit sample.env 1500000000).val = sucFlag ∧
        (sample.admin.setTxGasLimit sample.env 1500000000).err = none) ↔
      (1277159600 ≤ 1500000000 ∧ 1500000000 ≤ 2000000000 ∧
        1500000000 ≤ (sample.admin.getBlockGasLimit sample.env).1)) :=
  ⟨sample.env_lawful, by decide, by decide,
    (setTxGasLimit_succeeds_iff_valid sample.env sample.env_lawful sample.admin 1500000000
      (by decide) (by decide)).1⟩

/-- C15, refuted as stated: in the sample collaborators the empty name fails the
name-format check, and setGasContractName reports ParamInvalid with a
paramInvalid event, not the not-registered condition. -/
theorem name_format_failure_is_not_not_registered :
    sample.env.checkNameFormat "" = false ∧
    (sample.admin.setGasContractName sample.env "").err = some Error.errParamInvalid ∧
    (sample.admin.setGasContractName sample.env "").err ≠ some Error.errContactNameNotExist ∧
    (sample.admin.setGasContractName sample.env "").stateDB.logs.map Log.code
      = [paramInvalid] := by
  decide

/-- C15, amended. For every caller, permitted or not, and every contract name
that fails the name-format check or is not registered, setGasContractName
changes no storage slot and returns before doParamSet: a name that fails the
format check gives failFlag and ParamInvalid with one paramInvalid event; a name
that passes it but is not registered gives failFlag and
ContractNameNotRegistered with one contractNameNotExists event. -/
theorem setGasContractName_rejects_bad_name (env : Env) (u : ParamManager)
    (contractName : String)
    (h : env.checkNameFormat contractName = false ∨
      env.getRegisterStatusByName u.stateDB contractName = false) :
    (u.setGasContractName env contractName).stateDB.storage = u.stateDB.storage ∧
    (env.checkNameFormat contractName = false →
      u.setGasContractName env contractName = ⟨failFlag, some Error.errParamInvalid,
        u.emitNotifyEventInParam "GasContractName" paramInvalid "param is invalid."⟩) ∧
    (env.checkNameFormat contractName = true →
      u.setGasContractName env contractName = ⟨failFlag, some Error.errContactNameNotExist,
        u.emitNotifyEventInParam "GasContractName" contractNameNotExists
          "contract does not exsits."⟩) := by
  have h1 : env.checkNameFormat contractName = false →
      u.setGasContractName env contractName = ⟨failFlag, some Error.errParamInvalid,
        u.emitNotifyEventInParam "GasContractName" paramInvalid "param is invalid."⟩ := by
    intro hf
    simp [ParamManager.setGasContractName, hf]
  have h2 : env.checkNameFormat contractName = true →
      u.setGasContractName env contractName = ⟨failFlag, some Error.errContactNameNotExist,
        u.emitNotifyEventInParam "GasContractName" contractNameNotExists
          "contract does not exsits."⟩ := by
    intro hf
    have hg : env.getRegisterStatusByName u.stateDB contractName = false := by
      rcases h with h | h
      · rw [hf] at h; exact absurd h (by simp)
      · exact h
    simp [ParamManager.setGasContractName, hf, hg]
  refine ⟨?_, h1, h2⟩
  cases hf : env.checkNameFormat contractName with
  | false => rw [h1 hf]; rfl
  | true => rw [h2 hf]; rfl

/-- C15, amended, at a concrete call: the name "gas" passes the format check of
the sample collaborators, is not registered on empty storage, and the call by
"guest" reports ContractNameNotRegistered. -/
theorem setGasContractName_rejects_bad_name_witness :
    sample.env.getRegisterStatusByName sample.guest.stateDB "gas" = false ∧
    sample.env.checkNameFormat "gas" = true ∧
    (sample.guest.setGasContractName sample.env "gas").err
      = some Error.errContactNameNotExist :=
  ⟨by decide, by decide,
    by rw [(setGasContractName_rejects_bad_name sample.env sample.guest "gas"
      (Or.inr (by decide))).2.2 (by decide)]⟩

/-- C16, the code at a failing input: on the sample state whose VRF-parameters
slot holds 0x80, a non-empty value that does not decode, the method getVRFParams
reports the decoding error, but the handler exported under the name
getVRFParams returns the empty string with a nil error. -/
theorem exported_getVRFParams_hides_decode_error :
    GetterCall.slotFailsToDecode sample.env sample.corruptVrfReader GetterCall.getVRFParams ∧
    (sample.corruptVrfReader.getVRFParams sample.env).2
      = some (Error.rlp "rlp: expected input list") ∧
    sample.corruptVrfReader.callGetter sample.env sample.jsonMarshal GetterCall.getVRFParams
      = (GetterValue.str "", none) := by
  refine ⟨⟨by decide, _, rfl⟩, by decide, by decide⟩

/-- C17, refuted as stated: ValidatorCountInvalid, reported by setVRFParams, and
ParamInvalid, reported by setIsProduceEmptyBlock, are distinct errors
accompanied by the same audit code, paramInvalid. -/
theorem two_errors_share_audit_code :
    (sample.admin.setVRFParams sample.env ⟨5, 100, 0⟩).err
      = some Error.errValidatorCountInvalid ∧
    (sample.admin.setVRFParams sample.env ⟨5, 100, 0⟩).stateDB.logs.map Log.code
      = [paramInvalid] ∧
    (sample.admin.setIsProduceEmptyBlock sample.env 2).err = some Error.errParamInvalid ∧
    (sample.admin.setIsProduceEmptyBlock sample.env 2).stateDB.logs.map Log.code
      = [paramInvalid] ∧
    Error.errValidatorCountInvalid ≠ Error.errParamInvalid := by
  decide

/-- C17, amended. The error a setter reports together with an audit event
determines the code of that event: NoPermission goes with
callerHasNoPermission, EncodeFailure with encodeFailure,
ContractNameNotRegistered with contractNameNotExists, and both ParamInvalid and
ValidatorCountInvalid with paramInvalid.  Apart from that pair, no two
distinct reported errors are accompanied by the same code. -/
theorem reported_error_determines_audit_code (env : Env) (u : ParamManager) (c : SetterCall)
    (e : Error) (ev : Log) (he : (u.callSetter env c).err = some e)
    (hev : (u.callSetter env c).stateDB.logs = u.stateDB.logs ++ [ev]) :
    auditCodeOf e = some ev.code ∧
    ∀ (e1 e2 : Error) (k : CodeType), auditCodeOf e1 = some k → auditCodeOf e2 = some k →
      e1 = e2 ∨
      (e1 = Error.errParamInvalid ∧ e2 = Error.errValidatorCountInvalid) ∨
      (e1 = Error.errValidatorCountInvalid ∧ e2 = Error.errParamInvalid) := by
  constructor
  · rcases callSetter_cases env u c with
      ⟨_, err, topic, code, msg, hr, _, _, _, hpair⟩ | ⟨_, hd⟩ | ⟨_, _, topic, msg, hr⟩ |
      ⟨_, _, _, topic, msg, hr⟩ | ⟨_, _, bs, topic, msg, _, hr⟩
    · rw [hr] at he hev
      have hev2 : (⟨u.contractAddr, u.blockNumber % 2 ^ 64, topic, code, msg⟩ : Log) = ev := by
        simpa [ParamManager.emitNotifyEventInParam, emitEvent] using hev
      subst hev2
      simp only at he
      rcases hpair with ⟨h1, h2⟩ | ⟨h1, h2, _⟩ | ⟨h1, _, _⟩ | ⟨h1, h2, _⟩
      · rw [h1] at he
        cases he
        simp [auditCodeOf, h2]
      · rw [h1] at he
        cases he
        simp [auditCodeOf, h2]
      · rw [h1] at he
        cases he
      · rw [h1] at he
        cases he
        simp [auditCodeOf, h2]
    · exfalso
      rcases hd with ⟨t, m, _, _, hr⟩ | ⟨b, m, _, _, hr⟩ <;>
      · rw [hr] at hev
        simp at hev
    · rw [hr] at he hev
      have hev2 : (⟨u.contractAddr, u.blockNumber % 2 ^ 64, topic, callerHasNoPermission,
          msg⟩ : Log) = ev := by
        simpa [ParamManager.emitNotifyEventInParam, emitEvent] using hev
      subst hev2
      cases he
      rfl
    · rw [hr] at he hev
      have hev2 : (⟨u.contractAddr, u.blockNumber % 2 ^ 64, topic, encodeFailure,
          msg⟩ : Log) = ev := by
        simpa [ParamManager.emitNotifyEventInParam, emitEvent] using hev
      subst hev2
      cases he
      rfl
    · rw [hr] at he
      cases he
  · intro e1 e2 k h1 h2
    cases e1 <;> cases e2 <;>
      simp_all [auditCodeOf, callerHasNoPermission, encodeFailure, paramInvalid,
        contractNameNotExists] <;>
      exact absurd (h1.trans h2.symm) (by decide)

/-- C17, amended, at a concrete call: "guest" is refused by setTxGasLimit with
NoPermission and one event, whose code is callerHasNoPermission. -/
theorem reported_error_determines_audit_code_witness :
    (sample.guest.callSetter sample.env (SetterCall.setTxGasLimit 1500000000)).err
      = some Error.errNoPermission ∧
    (sample.guest.callSetter sample.env (SetterCall.setTxGasLimit 1500000000)).stateDB.logs
      = sample.guest.stateDB.logs ++
        [⟨sample.paramManagerAddr, 7, "TxGasLimit", callerHasNoPermission,
          "guest has no permission to adjust param."⟩] ∧
    auditCodeOf Error.errNoPermission = some callerHasNoPermission :=
  ⟨by decide, by decide,
    (reported_error_determines_audit_code sample.env sample.guest
      (SetterCall.setTxGasLimit 1500000000) Error.errNoPermission
      ⟨sample.paramManagerAddr, 7, "TxGasLimit", callerHasNoPermission,
        "guest has no permission to adjust param."⟩ (by decide) (by decide)).1⟩

/-- C20. Frame property of the setters: every setter call changes at most the
storage slot of its own parameter at the contract address; every other slot
reads after the call as before.  With the nine keys pairwise distinct,
setTxGasLimit never changes the block-gas-limit slot and setBlockGasLimit never
changes the tx-gas-limit slot. -/
theorem setter_frame (env : Env) (hk : KeysDistinct env) (u : ParamManager) (c : SetterCall) :
    (∀ (a : Address) (k : Bytes), ¬ (a = u.contractAddr ∧ k = c.key env) →
      (u.callSetter env c).stateDB.GetState a k = u.stateDB.GetState a k) ∧
    (∀ k : Bytes, k ≠ c.key env →
      (u.callSetter env c).stateDB.GetState u.contractAddr k = u.getState k) ∧
    (∀ t : Nat, (u.setTxGasLimit env t).stateDB.GetState u.contractAddr (blockGasLimitKey env)
      = u.getState (blockGasLimitKey env)) ∧
    (∀ b : Nat, (u.setBlockGasLimit env b).stateDB.GetState u.contractAddr (txGasLimitKey env)
      = u.getState (txGasLimitKey env)) := by
  have hframe : ∀ (c : SetterCall) (a : Address) (k : Bytes),
      ¬ (a = u.contractAddr ∧ k = c.key env) →
      (u.callSetter env c).stateDB.GetState a k = u.stateDB.GetState a k := by
    intro c a k hne
    rcases callSetter_storage env u c with h | ⟨bs, h⟩
    · simp only [StateDB.GetState, h]
    · simp only [StateDB.GetState, h, ParamManager.setState, StateDB.SetState, hne, if_false]
  refine ⟨hframe c, ?_, ?_, ?_⟩
  · intro k hne
    exact hframe c u.contractAddr k (fun h => hne h.2)
  · intro t
    exact hframe (SetterCall.setTxGasLimit t) u.contractAddr (blockGasLimitKey env)
      (fun h => txGasLimitKey_ne_blockGasLimitKey env hk h.2.symm)
  · intro b
    exact hframe (SetterCall.setBlockGasLimit b) u.contractAddr (txGasLimitKey env)
      (fun h => txGasLimitKey_ne_blockGasLimitKey env hk h.2)

/-- C20, at a concrete call: the administrator's setTxGasLimit(1500000000) on
empty storage leaves the block-gas-limit slot empty. -/
theorem setter_frame_witness :
    KeysDistinct sample.env ∧
    (sample.admin.setTxGasLimit sample.env 1500000000).stateDB.GetState
        sample.admin.contractAddr (blockGasLimitKey sample.env)
      = sample.admin.getState (blockGasLimitKey sample.env) :=
  ⟨sample.env_keys_distinct,
    (setter_frame sample.env sample.env_keys_distinct sample.admin
      (SetterCall.setTxGasLimit 1500000000)).2.2.1 1500000000⟩

/-- C21. The method setVRFParams returns the status 0, the value of sucFlag, on
every path: also when it returns ValidatorCountInvalid (validator count 0),
NoPermission (valid argument, caller without permission) or EncodeFailure
(valid argument, permitted caller, encoding error).  Every other setter
returns failFlag, which is -1, whenever it returns a non-nil error. -/
theorem setVRFParams_status_is_always_zero (env : Env) (u : ParamManager) :
    (∀ params : VRFParams,
      (u.setVRFParams env params).val = 0 ∧ (u.setVRFParams env params).val = sucFlag) ∧
    (∀ params : VRFParams, params.ValidatorCount < 1 →
      (u.setVRFParams env params).err = some Error.errValidatorCountInvalid) ∧
    (∀ params : VRFParams, 1 ≤ params.ValidatorCount →
      env.hasParamOpPermission u.stateDB u.caller = false →
      (u.setVRFParams env params).err = some Error.errNoPermission) ∧
    (∀ (params : VRFParams) (m : String), 1 ≤ params.ValidatorCount →
      env.hasParamOpPermission u.stateDB u.caller = true →
      env.rlpEncodeToBytes (Value.vrf params) = .error m →
      (u.setVRFParams env params).err = some Error.errEncodeFailure) ∧
    (∀ c : SetterCall, (∀ params, c ≠ SetterCall.setVRFParams params) →
      (u.callSetter env c).err ≠ none →
      (u.callSetter env c).val = failFlag ∧ (u.callSetter env c).val = -1 ∧
      (u.callSetter env c).val ≠ sucFlag) := by
  refine ⟨?_, ?_, ?_, ?_, ?_⟩
  · intro params
    have h0 : (u.setVRFParams env params).val = 0 := by
      rcases callSetter_cases env u (SetterCall.setVRFParams params) with
        ⟨_, err, topic, code, msg, hr, _⟩ | ⟨_, hd⟩ | ⟨_, _, topic, msg, hr⟩ |
        ⟨_, _, _, topic, msg, hr⟩ | ⟨_, _, bs, topic, msg, _, hr⟩
      · have hr2 : u.setVRFParams env params = _ := hr
        rw [hr2]; rfl
      · rcases hd with ⟨t, m, hc, _⟩ | ⟨b, m, hc, _⟩ <;> cases hc
      · have hr2 : u.setVRFParams env params = _ := hr
        rw [hr2]; rfl
      · have hr2 : u.setVRFParams env params = _ := hr
        rw [hr2]; rfl
      · have hr2 : u.setVRFParams env params = _ := hr
        rw [hr2]; rfl
    exact ⟨h0, h0⟩
  · intro params hv
    simp [ParamManager.setVRFParams, ParamManager.checkVRFParams, hv]
  · intro params hv hp
    have hv2 : ¬ params.ValidatorCount < 1 := by omega
    simp [ParamManager.setVRFParams, ParamManager.checkVRFParams, hv2,
      doParamSet_of_no_permission env u _ _ hp]
  · intro params m hv hp he
    have hv2 : ¬ params.ValidatorCount < 1 := by omega
    simp [ParamManager.setVRFParams, ParamManager.checkVRFParams, hv2,
      doParamSet_of_encode_error env u _ _ m hp he]
  · intro c hc herr
    have hfs : c.failStatus = failFlag := by
      cases c <;> first | rfl | exact absurd rfl (hc _)
    have hval : (u.callSetter env c).val = failFlag := by
      rcases callSetter_cases env u c with
        ⟨_, err, topic, code, msg, hr, _⟩ | ⟨_, hd⟩ | ⟨_, _, topic, msg, hr⟩ |
        ⟨_, _, _, topic, msg, hr⟩ | ⟨_, _, bs, topic, msg, _, hr⟩
      · rw [hr]; exact hfs
      · rcases hd with ⟨t, m, _, _, hr⟩ | ⟨b, m, _, _, hr⟩ <;> rw [hr]
      · rw [hr]; exact hfs
      · rw [hr]; exact hfs
      · rw [hr] at herr; exact absurd rfl herr
    refine ⟨hval, ?_, ?_⟩
    · rw [hval]; rfl
    · rw [hval]; decide

/-- C21, at concrete calls: the administrator's setVRFParams with no validator
returns the status 0 with ValidatorCountInvalid, while setIsTxUseGas(2) returns
failFlag with ParamInvalid. -/
theorem setVRFParams_status_is_always_zero_witness :
    (sample.admin.setVRFParams sample.env ⟨5, 100, 0⟩).val = 0 ∧
    (sample.admin.setVRFParams sample.env ⟨5, 100, 0⟩).err
      = some Error.errValidatorCountInvalid ∧
    (sample.admin.callSetter sample.env (SetterCall.setIsTxUseGas 2)).err ≠ none ∧
    (sample.admin.callSetter sample.env (SetterCall.setIsTxUseGas 2)).val = failFlag :=
  ⟨((setVRFParams_status_is_always_zero sample.env sample.admin).1 ⟨5, 100, 0⟩).1,
    (setVRFParams_status_is_always_zero sample.env sample.admin).2.1 ⟨5, 100, 0⟩ (by decide),
    by decide,
    ((setVRFParams_status_is_always_zero sample.env sample.admin).2.2.2.2
      (SetterCall.setIsTxUseGas 2) (fun _ h => by cases h) (by decide)).1⟩

end vm

/-! # The consensus node list resolver: lemmas and claims -/

namespace backend

/-- The loop appends to what it has collected the filter-map of what it reads. -/
theorem foldl_appendNodeID {σ : Type} (ch : Chain σ) (acc : List NodeID) (L : List NodeInfo) :
    L.foldl (appendNodeID ch) acc = acc ++ L.filterMap (usableNodeID ch) := by
  induction L generalizing acc with
  | nil => simp
  | cons d L ih =>
    rw [List.foldl_cons, ih]
    unfold appendNodeID usableNodeID
    by_cases hk : d.PublicKey.length > 0
    · cases hid : ch.HexID d.PublicKey with
      | error e => simp [List.filterMap_cons, hk, hid]
      | ok nodeID => simp [List.filterMap_cons, hk, hid]
    · simp [List.filterMap_cons, hk]

theorem nodeIDsOf_eq_filterMap {σ : Type} (ch : Chain σ) (L : List NodeInfo) :
    nodeIDsOf ch L = L.filterMap (usableNodeID ch) := by
  unfold nodeIDsOf
  rw [foldl_appendNodeID]
  simp

/-- What getConsensusNodesList returns when it does not panic: a nil error, and
the identities of the list selected by the election epoch. -/
theorem getConsensusNodesList_ok {σ : Type} (ch : Chain σ) (number : Nat)
    (r : (List NodeID × Option String) × List Effect)
    (h : getConsensusNodesList ch number = .ok r) :
    r.1.2 = none ∧
    ∃ (p : vm.VRFParams) (L : List NodeInfo) (eff1 eff2 : List Effect),
      getVRFParamsAtNumber ch number = .ok (some p, eff1) ∧
      ((p.ElectionEpoch ≠ 0 ∧ getVrfConsensusNodesAtNumber ch number = .ok (L, eff2)) ∨
       (p.ElectionEpoch = 0 ∧ getCandidateNodesAtNumber ch number = .ok (L, eff2))) ∧
      r = ((nodeIDsOf ch L, none), eff1 ++ eff2) := by
  unfold getConsensusNodesList at h
  cases hv : getVRFParamsAtNumber ch number with
  | error e => rw [hv] at h; simp at h
  | ok v =>
    obtain ⟨op, eff1⟩ := v
    cases op with
    | none => rw [hv] at h; simp at h
    | some p =>
      rw [hv] at h
      simp only at h
      by_cases he : p.ElectionEpoch ≠ 0
      · rw [if_pos he] at h
        cases hn : getVrfConsensusNodesAtNumber ch number with
        | error e => rw [hn] at h; simp at h
        | ok w =>
          obtain ⟨L, eff2⟩ := w
          rw [hn] at h
          simp only [Except.ok.injEq] at h
          subst h
          exact ⟨rfl, p, L, eff1, eff2, rfl, Or.inl ⟨he, rfl⟩, rfl⟩
      · rw [if_neg he] at h
        cases hn : getCandidateNodesAtNumber ch number with
        | error e => rw [hn] at h; simp at h
        | ok w =>
          obtain ⟨L, eff2⟩ := w
          rw [hn] at h
          simp only [Except.ok.injEq] at h
          subst h
          exact ⟨rfl, p, L, eff1, eff2, rfl, Or.inr ⟨by simpa using he, rfl⟩, rfl⟩

/-- When getVRFParamsAtNumber returns the nil pointer, getConsensusNodesList
dereferences it. -/
theorem getConsensusNodesList_of_nil_params {σ : Type} (ch : Chain σ) (number : Nat)
    (eff : List Effect) (h : getVRFParamsAtNumber ch number = .ok (none, eff)) :
    getConsensusNodesList ch number = .error Panic.nilPointerDereference := by
  unfold getConsensusNodesList
  rw [h]

/-- For a block below the head, getVRFParamsAtNumber returns the nil pointer
whenever the synthetic call gives no result and the empty result does not
parse. -/
theorem getVRFParamsAtNumber_of_no_result {σ : Type} (ch : Chain σ) (number : Nat)
    (eff : List Effect) (hold : number < ch.CurrentHeaderNumber)
    (hcall : CallSystemContractAtBlockNumber ch number "__sys_ParamManager" "getVRFParams" []
      = .ok (none, eff))
    (hparse : ParseResultToExtractType ch ch.jsonUnmarshalVRFParams none = none) :
    getVRFParamsAtNumber ch number = .ok (none, eff) := by
  unfold getVRFParamsAtNumber
  simp only [hold, decide_True, Bool.not_true, Bool.false_eq_true, if_false, hcall, hparse]

/-- What CallSystemContractAtBlockNumber does once the header and its state are
there, in terms of the name-registry lookup. -/
theorem CallSystemContractAtBlockNumber_of_state {σ : Type} (ch : Chain σ) (number : Nat)
    (sysContractName sysFuncName : String) (sysFuncParams : List String) (header : Header)
    (st : σ) (hh : ch.GetHeaderByNumber number = some header)
    (hs : ch.stateNew header.Root = some st) :
    CallSystemContractAtBlockNumber ch number sysContractName sysFuncName sysFuncParams =
      if (ch.CallResAsString (callContract ch st ch.CnsManagementAddress
            (ch.GenCallData "getContractAddress" [sysContractName, "latest"])).1).length = 0 ∨
          ch.IsHexZeroAddress (ch.CallResAsString (callContract ch st ch.CnsManagementAddress
            (ch.GenCallData "getContractAddress" [sysContractName, "latest"])).1) = true then
        .ok (none, [Effect.openState header.Root,
          Effect.call ch.CnsManagementAddress
            (ch.GenCallData "getContractAddress" [sysContractName, "latest"])])
      else
        .ok ((callContract ch
            (callContract ch st ch.CnsManagementAddress
              (ch.GenCallData "getContractAddress" [sysContractName, "latest"])).2
            (ch.HexToAddress (ch.CallResAsString (callContract ch st ch.CnsManagementAddress
              (ch.GenCallData "getContractAddress" [sysContractName, "latest"])).1))
            (ch.GenCallData sysFuncName sysFuncParams)).1,
          [Effect.openState header.Root,
            Effect.call ch.CnsManagementAddress
              (ch.GenCallData "getContractAddress" [sysContractName, "latest"]),
            Effect.call
              (ch.HexToAddress (ch.CallResAsString (callContract ch st ch.CnsManagementAddress
                (ch.GenCallData "getContractAddress" [sysContractName, "latest"])).1))
              (ch.GenCallData sysFuncName sysFuncParams)]) := by
  unfold CallSystemContractAtBlockNumber
  simp only [hh, hs]

theorem callContract_of_error {σ : Type} (ch : Chain σ) (st : σ) (conAddr : vm.Address)
    (data : vm.Bytes) (h : (ch.evmCall st conAddr data).1.2 ≠ none) :
    (callContract ch st conAddr data).1 = none := by
  unfold callContract
  simp only [h, ne_eq, not_false_eq_true, if_true]

theorem callContract_of_no_error {σ : Type} (ch : Chain σ) (st : σ) (conAddr : vm.Address)
    (data : vm.Bytes) (h : (ch.evmCall st conAddr data).1.2 = none) :
    callContract ch st conAddr data = ((ch.evmCall st conAddr data).1.1,
      (ch.evmCall st conAddr data).2) := by
  unfold callContract
  simp only [h, ne_eq, not_true_eq_false, if_false]

theorem callContract_fst {σ : Type} (ch : Chain σ) (st : σ) (conAddr : vm.Address)
    (data : vm.Bytes) :
    (callContract ch st conAddr data).1 =
      if (ch.evmCall st conAddr data).1.2 ≠ none then none
      else (ch.evmCall st conAddr data).1.1 := by
  unfold callContract
  split
  rename_i res err st1 heq
  rw [heq]
  split <;> rfl

theorem callContract_state {σ : Type} (ch : Chain σ) (st : σ) (conAddr : vm.Address)
    (data : vm.Bytes) :
    (callContract ch st conAddr data).2 = (ch.evmCall st conAddr data).2 := by
  unfold callContract
  split
  rename_i res err st1 heq
  rw [heq]
  split <;> rfl

/-- Once the header of the block is there, CallSystemContractAtBlockNumber
returns. -/
theorem CallSystemContractAtBlockNumber_returns {σ : Type} (ch : Chain σ) (number : Nat)
    (sysContractName sysFuncName : String) (sysFuncParams : List String) (header : Header)
    (hh : ch.GetHeaderByNumber number = some header) :
    ∃ (res : GoBytes) (eff : List Effect),
      CallSystemContractAtBlockNumber ch number sysContractName sysFuncName sysFuncParams
        = .ok (res, eff) := by
  cases hs : ch.stateNew header.Root with
  | none =>
    refine ⟨none, [Effect.openState header.Root], ?_⟩
    unfold CallSystemContractAtBlockNumber
    simp only [hh, hs]
  | some st =>
    rw [CallSystemContractAtBlockNumber_of_state ch number _ _ _ header st hh hs]
    split
    · exact ⟨_, _, rfl⟩
    · exact ⟨_, _, rfl⟩

/-- Once the header of the block is there, getVrfConsensusNodesAtNumber
returns. -/
theorem getVrfConsensusNodesAtNumber_returns {σ : Type} (ch : Chain σ) (number : Nat)
    (header : Header) (hh : ch.GetHeaderByNumber number = some header) :
    ∃ (S : List NodeInfo) (eff : List Effect),
      getVrfConsensusNodesAtNumber ch number = .ok (S, eff) := by
  obtain ⟨res, eff, hc⟩ := CallSystemContractAtBlockNumber_returns ch number
    "__sys_NodeManager" "getVrfConsensusNodes" [] header hh
  unfold getVrfConsensusNodesAtNumber
  rw [hc]
  simp only
  cases ParseResultToExtractType ch ch.jsonUnmarshalCommonResult res with
  | none => exact ⟨_, _, rfl⟩
  | some nodes => exact ⟨_, _, rfl⟩

/-- Once the header of the block is there, getCandidateNodesAtNumber returns. -/
theorem getCandidateNodesAtNumber_returns {σ : Type} (ch : Chain σ) (number : Nat)
    (header : Header) (hh : ch.GetHeaderByNumber number = some header) :
    ∃ (S : List NodeInfo) (eff : List Effect),
      getCandidateNodesAtNumber ch number = .ok (S, eff) := by
  obtain ⟨res, eff, hc⟩ := CallSystemContractAtBlockNumber_returns ch number
    "__sys_NodeManager" "getAllNodes" [] header hh
  unfold getCandidateNodesAtNumber
  by_cases hold : number < ch.CurrentHeaderNumber
  · simp only [hold, decide_True, if_true, hc]
    cases ParseResultToExtractType ch ch.jsonUnmarshalCommonResult res with
    | none => exact ⟨_, _, rfl⟩
    | some nodes => exact ⟨_, _, rfl⟩
  · simp only [hold, decide_False, Bool.false_eq_true, if_false]
    exact ⟨_, _, rfl⟩

/-- What getConsensusNodesList returns once the VRF parameters and the list
selected by the election epoch are there. -/
theorem getConsensusNodesList_of_selected {σ : Type} (ch : Chain σ) (number : Nat)
    (p : vm.VRFParams) (S : List NodeInfo) (eff1 eff2 : List Effect)
    (hv : getVRFParamsAtNumber ch number = .ok (some p, eff1))
    (hsel : (p.ElectionEpoch ≠ 0 ∧ getVrfConsensusNodesAtNumber ch number = .ok (S, eff2)) ∨
      (p.ElectionEpoch = 0 ∧ getCandidateNodesAtNumber ch number = .ok (S, eff2))) :
    getConsensusNodesList ch number
      = .ok ((S.filterMap (usableNodeID ch), none), eff1 ++ eff2) := by
  unfold getConsensusNodesList
  rw [hv]
  rcases hsel with ⟨he, hn⟩ | ⟨he, hn⟩
  · simp only [he, ne_eq, not_false_eq_true, if_true, hn, nodeIDsOf_eq_filterMap]
  · simp only [he, ne_eq, not_true_eq_false, if_false, hn, nodeIDsOf_eq_filterMap]

/-! ## The claims -/

/-- C11, the code at two failing inputs: on the sample chain, whose head is block
10, the state of block 3 is pruned, and getConsensusNodesList(3) dereferences
the nil pointer returned by getVRFParamsAtNumber; on the sample chain with no
contract registered the same happens for block 7.  For the head block 10 of
that chain the call returns the empty sequence with a nil error. -/
theorem getConsensusNodesList_faults_on_historical_no_result :
    (3 < sample.chain.CurrentHeaderNumber ∧
      CallSystemContractAtBlockNumber sample.chain 3 "__sys_ParamManager" "getVRFParams" []
        = .ok (none, [Effect.openState 3]) ∧
      getConsensusNodesList sample.chain 3 = .error Panic.nilPointerDereference) ∧
    (7 < sample.unregisteredChain.CurrentHeaderNumber ∧
      (CallSystemContractAtBlockNumber sample.unregisteredChain 7 "__sys_ParamManager"
        "getVRFParams" []).map Prod.fst = .ok none ∧
      getConsensusNodesList sample.unregisteredChain 7 = .error Panic.nilPointerDereference) ∧
    (getConsensusNodesList sample.unregisteredChain 10).map Prod.fst = .ok ([], none) := by
  refine ⟨⟨by decide, rfl, rfl⟩, ⟨by decide, rfl, rfl⟩, rfl⟩

/-- C12. For every list L of NodeInfo records, the loop of getConsensusNodesList
returns the filter-map of L that keeps the records whose PublicKey is not
empty and that discover.HexID accepts, mapped to the parsed identity: its
length is at most that of L, and it is computed piecewise in the order of L.
Whenever L is the list the resolver selected for a block, getConsensusNodesList
returns that filter-map of L with a nil error, whatever the records of L are;
whenever getConsensusNodesList returns, its error is nil and its sequence is
that filter-map of the list selected by the election epoch; and it does return
whenever the header of the block is there and the VRF parameters are not the
nil pointer. -/
theorem consensus_nodes_are_filter_map {σ : Type} (ch : Chain σ) (L : List NodeInfo) :
    nodeIDsOf ch L = L.filterMap (usableNodeID ch) ∧
    (nodeIDsOf ch L).length ≤ L.length ∧
    (∀ L1 L2 : List NodeInfo, nodeIDsOf ch (L1 ++ L2) = nodeIDsOf ch L1 ++ nodeIDsOf ch L2) ∧
    (∀ (number : Nat) (p : vm.VRFParams) (eff1 eff2 : List Effect),
      getVRFParamsAtNumber ch number = .ok (some p, eff1) →
      ((p.ElectionEpoch ≠ 0 ∧ getVrfConsensusNodesAtNumber ch number = .ok (L, eff2)) ∨
       (p.ElectionEpoch = 0 ∧ getCandidateNodesAtNumber ch number = .ok (L, eff2))) →
      getConsensusNodesList ch number
        = .ok ((L.filterMap (usableNodeID ch), none), eff1 ++ eff2)) ∧
    (∀ (number : Nat) (r : (List NodeID × Option String) × List Effect),
      getConsensusNodesList ch number = .ok r →
      r.1.2 = none ∧
      ∃ (p : vm.VRFParams) (S : List NodeInfo) (eff1 eff2 : List Effect),
        getVRFParamsAtNumber ch number = .ok (some p, eff1) ∧
        ((p.ElectionEpoch ≠ 0 ∧ getVrfConsensusNodesAtNumber ch number = .ok (S, eff2)) ∨
         (p.ElectionEpoch = 0 ∧ getCandidateNodesAtNumber ch number = .ok (S, eff2))) ∧
        r.1.1 = S.filterMap (usableNodeID ch)) ∧
    (∀ (number : Nat) (header : Header) (p : vm.VRFParams) (eff1 : List Effect),
      ch.GetHeaderByNumber number = some header →
      getVRFParamsAtNumber ch number = .ok (some p, eff1) →
      ∃ (S : List NodeInfo) (eff2 : List Effect),
        ((p.ElectionEpoch ≠ 0 ∧ getVrfConsensusNodesAtNumber ch number = .ok (S, eff2)) ∨
         (p.ElectionEpoch = 0 ∧ getCandidateNodesAtNumber ch number = .ok (S, eff2))) ∧
        getConsensusNodesList ch number
          = .ok ((S.filterMap (usableNodeID ch), none), eff1 ++ eff2)) := by
  refine ⟨nodeIDsOf_eq_filterMap ch L, ?_, ?_, ?_, ?_, ?_⟩
  · rw [nodeIDsOf_eq_filterMap]
    exact List.length_filterMap_le _ _
  · intro L1 L2
    simp only [nodeIDsOf_eq_filterMap, List.filterMap_append]
  · intro number p eff1 eff2 hv hsel
    exact getConsensusNodesList_of_selected ch number p L eff1 eff2 hv hsel
  · intro number r h
    obtain ⟨h1, p, S, eff1, eff2, hv, hsel, hr⟩ := getConsensusNodesList_ok ch number r h
    refine ⟨h1, p, S, eff1, eff2, hv, hsel, ?_⟩
    rw [hr, nodeIDsOf_eq_filterMap]
  · intro number header p eff1 hh hv
    by_cases he : p.ElectionEpoch = 0
    · obtain ⟨S, eff2, hn⟩ := getCandidateNodesAtNumber_returns ch number header hh
      exact ⟨S, eff2, Or.inr ⟨he, hn⟩,
        getConsensusNodesList_of_selected ch number p S eff1 eff2 hv (Or.inr ⟨he, hn⟩)⟩
    · obtain ⟨S, eff2, hn⟩ := getVrfConsensusNodesAtNumber_returns ch number header hh
      exact ⟨S, eff2, Or.inl ⟨he, hn⟩,
        getConsensusNodesList_of_selected ch number p S eff1 eff2 hv (Or.inl ⟨he, hn⟩)⟩

/-- C12, on the sample chain: of the four elected records "aa", "", "zz", "bb"
the loop keeps the first and the last, the second has an empty key and the
third is not accepted by HexID; getConsensusNodesList(7), for which the
resolver selects these records, returns the two identities with a nil error. -/
theorem consensus_nodes_are_filter_map_witness :
    nodeIDsOf sample.chain sample.elected = [[0xaa], [0xbb]] ∧
    (nodeIDsOf sample.chain sample.elected).length ≤ 4 ∧
    getVRFParamsAtNumber sample.chain 7 = .ok (some ⟨1, 20, 4⟩,
      [Effect.openState 7,
        Effect.call "cns" (sample.str "getContractAddress(__sys_ParamManager,latest)"),
        Effect.call "0xpm" (sample.str "getVRFParams()")]) ∧
    getVrfConsensusNodesAtNumber sample.chain 7 = .ok (sample.elected,
      [Effect.openState 7,
        Effect.call "cns" (sample.str "getContractAddress(__sys_NodeManager,latest)"),
        Effect.call "0xnm" (sample.str "getVrfConsensusNodes()")]) ∧
    getConsensusNodesList sample.chain 7 = .ok (([[0xaa], [0xbb]], none),
      [Effect.openState 7,
        Effect.call "cns" (sample.str "getContractAddress(__sys_ParamManager,latest)"),
        Effect.call "0xpm" (sample.str "getVRFParams()"),
        Effect.openState 7,
        Effect.call "cns" (sample.str "getContractAddress(__sys_NodeManager,latest)"),
        Effect.call "0xnm" (sample.str "getVrfConsensusNodes()")]) :=
  ⟨(consensus_nodes_are_filter_map sample.chain sample.elected).1.trans rfl,
    (consensus_nodes_are_filter_map sample.chain sample.elected).2.1,
    rfl, rfl,
    ((consensus_nodes_are_filter_map sample.chain sample.elected).2.2.2.1 7 ⟨1, 20, 4⟩ _ _ rfl
      (Or.inl ⟨by decide, rfl⟩)).trans rfl⟩

/-- C13. When the VRF parameters obtained for n have ElectionEpoch != 0, for
every n, getConsensusNodesList(n) returns, with a nil error, the identities of
the records that the node-manager entry getVrfConsensusNodes, called at block
n, gives in the field Data of its result: the filter-map of Data that keeps the
records with a non-empty PublicKey that discover.HexID accepts (of the empty
list when the result does not parse).  When n is the head number and
ElectionEpoch == 0, it returns the identities of
SysCfg.GetConsensusNodesFilterDelay(n, [], false), and neither a snapshot is
opened nor a synthetic call made. -/
theorem consensus_nodes_selected_by_epoch {σ : Type} (ch : Chain σ) (number : Nat)
    (p : vm.VRFParams) (eff : List Effect)
    (h : getVRFParamsAtNumber ch number = .ok (some p, eff)) :
    (p.ElectionEpoch ≠ 0 →
      getConsensusNodesList ch number =
        match CallSystemContractAtBlockNumber ch number "__sys_NodeManager"
            "getVrfConsensusNodes" [] with
        | .error e => .error e
        | .ok (res, eff2) =>
          match ParseResultToExtractType ch ch.jsonUnmarshalCommonResult res with
          | some nodes => .ok ((nodes.Data.filterMap (usableNodeID ch), none), eff ++ eff2)
          | none => .ok (([], none), eff ++ eff2)) ∧
    (number = ch.CurrentHeaderNumber → p.ElectionEpoch = 0 →
      getConsensusNodesList ch number =
        .ok (((ch.GetConsensusNodesFilterDelay number [] false).filterMap (usableNodeID ch),
          none), [])) := by
  refine ⟨?_, ?_⟩
  · intro he
    unfold getConsensusNodesList
    rw [h]
    simp only [he, ne_eq, not_false_eq_true, if_true]
    unfold getVrfConsensusNodesAtNumber
    cases CallSystemContractAtBlockNumber ch number "__sys_NodeManager"
        "getVrfConsensusNodes" [] with
    | error e => rfl
    | ok w =>
      obtain ⟨res, eff2⟩ := w
      simp only
      cases ParseResultToExtractType ch ch.jsonUnmarshalCommonResult res with
      | none => rfl
      | some nodes => simp only [nodeIDsOf_eq_filterMap]
  · intro hn he
    have hnot : ¬ number < ch.CurrentHeaderNumber := by omega
    have hv : getVRFParamsAtNumber ch number = .ok (some ch.SysCfgVRF, []) := by
      unfold getVRFParamsAtNumber
      simp [hnot]
    rw [hv] at h
    simp only [Except.ok.injEq, Prod.mk.injEq, Option.some.injEq] at h
    obtain ⟨hp, heff⟩ := h
    have hc : getCandidateNodesAtNumber ch number
        = .ok (ch.GetConsensusNodesFilterDelay number [] false, []) := by
      unfold getCandidateNodesAtNumber
      simp [hnot]
    have hr := getConsensusNodesList_of_selected ch number ch.SysCfgVRF
      (ch.GetConsensusNodesFilterDelay number [] false) [] [] hv
      (Or.inr ⟨by rw [hp]; exact he, hc⟩)
    simpa using hr

/-- C13, on the sample chains.  For the historical block 7 the contract reports
election epoch 1, and the result is the two identities of the elected records
"aa", "", "zz", "bb" that have a usable key.  For the head block 10 the cached
epoch is 0, and the result is the two identities of the in-memory candidate
records "cc", "aa", with no effect on the chain.  With the election switched on
in the cached parameters, the head block 10 gives the identities of the elected
records, and the only synthetic calls are the name lookup and
getVrfConsensusNodes. -/
theorem consensus_nodes_selected_by_epoch_witness :
    getVRFParamsAtNumber sample.chain 7 = .ok (some ⟨1, 20, 4⟩,
      [Effect.openState 7,
        Effect.call "cns" (sample.str "getContractAddress(__sys_ParamManager,latest)"),
        Effect.call "0xpm" (sample.str "getVRFParams()")]) ∧
    getConsensusNodesList sample.chain 7 = .ok (([[0xaa], [0xbb]], none),
      [Effect.openState 7,
        Effect.call "cns" (sample.str "getContractAddress(__sys_ParamManager,latest)"),
        Effect.call "0xpm" (sample.str "getVRFParams()"),
        Effect.openState 7,
        Effect.call "cns" (sample.str "getContractAddress(__sys_NodeManager,latest)"),
        Effect.call "0xnm" (sample.str "getVrfConsensusNodes()")]) ∧
    getVRFParamsAtNumber sample.chain 10 = .ok (some ⟨0, 0, 4⟩, []) ∧
    sample.chain.GetConsensusNodesFilterDelay 10 [] false = [⟨"cc", "n5"⟩, ⟨"aa", "n1"⟩] ∧
    getConsensusNodesList sample.chain 10 = .ok (([[0xcc], [0xaa]], none), []) ∧
    getVRFParamsAtNumber sample.vrfChain 10 = .ok (some ⟨1, 20, 4⟩, []) ∧
    getConsensusNodesList sample.vrfChain 10 = .ok (([[0xaa], [0xbb]], none),
      [Effect.openState 10,
        Effect.call "cns" (sample.str "getContractAddress(__sys_NodeManager,latest)"),
        Effect.call "0xnm" (sample.str "getVrfConsensusNodes()")]) :=
  ⟨rfl,
    ((consensus_nodes_selected_by_epoch sample.chain 7 ⟨1, 20, 4⟩ _ rfl).1 (by decide)).trans rfl,
    rfl,
    rfl,
    ((consensus_nodes_selected_by_epoch sample.chain 10 ⟨0, 0, 4⟩ [] rfl).2 rfl rfl).trans rfl,
    rfl,
    ((consensus_nodes_selected_by_epoch sample.vrfChain 10 ⟨1, 20, 4⟩ [] rfl).1
      (by decide)).trans rfl⟩

/-- C18. The function getVRFParamsAtNumber treats n as historical exactly when n
is below the head number: for every n at or above the head it returns the
cached SysCfg.SysParam.VRF, opening no snapshot and making no synthetic call;
for every n below the head it returns what ParseResultToExtractType makes of the
result of the synthetic call of getVRFParams on "__sys_ParamManager" at block n
(the nil pointer when that does not parse). -/
theorem getVRFParamsAtNumber_historical_iff_below_head {σ : Type} (ch : Chain σ)
    (number : Nat) :
    (ch.CurrentHeaderNumber ≤ number →
      getVRFParamsAtNumber ch number = .ok (some ch.SysCfgVRF, [])) ∧
    (number < ch.CurrentHeaderNumber →
      getVRFParamsAtNumber ch number =
        match CallSystemContractAtBlockNumber ch number "__sys_ParamManager" "getVRFParams" []
        with
        | .error e => .error e
        | .ok (resVRF, eff) =>
          .ok (ParseResultToExtractType ch ch.jsonUnmarshalVRFParams resVRF, eff)) := by
  constructor
  · intro hn
    have hnot : ¬ number < ch.CurrentHeaderNumber := by omega
    unfold getVRFParamsAtNumber
    simp [hnot]
  · intro hn
    unfold getVRFParamsAtNumber
    simp only [hn, decide_True, Bool.not_true, Bool.false_eq_true, if_false]
    cases CallSystemContractAtBlockNumber ch number "__sys_ParamManager" "getVRFParams" [] with
    | error e => rfl
    | ok w =>
      obtain ⟨res, eff⟩ := w
      simp only
      cases ParseResultToExtractType ch ch.jsonUnmarshalVRFParams res <;> rfl

/-- C18, on the sample chain: block 10 is the head and block 12 is above it, both
read the cache; block 7 is below the head and reads the contract. -/
theorem getVRFParamsAtNumber_historical_iff_below_head_witness :
    getVRFParamsAtNumber sample.chain 10 = .ok (some sample.chain.SysCfgVRF, []) ∧
    getVRFParamsAtNumber sample.chain 12 = .ok (some sample.chain.SysCfgVRF, []) ∧
    (getVRFParamsAtNumber sample.chain 7).map Prod.fst = .ok (some ⟨1, 20, 4⟩) :=
  ⟨(getVRFParamsAtNumber_historical_iff_below_head sample.chain 10).1 (by decide),
    (getVRFParamsAtNumber_historical_iff_below_head sample.chain 12).1 (by decide),
    by rw [(getVRFParamsAtNumber_historical_iff_below_head sample.chain 7).2 (by decide)]; rfl⟩

/-- C19. In CallSystemContractAtBlockNumber, once the state of the block is
loaded: when the name-registry lookup errors (the nil result being rendered as
the empty string by CallResAsString), or yields an empty string or a hex zero
address, the function returns nil and its only synthetic call is the lookup;
otherwise it makes one more call, of the target function at the resolved
address, and returns its output, or nil if that call errors. -/
theorem system_call_resolution {σ : Type} (ch : Chain σ) (number : Nat)
    (sysContractName sysFuncName : String) (sysFuncParams : List String) (header : Header)
    (st : σ) (hh : ch.GetHeaderByNumber number = some header)
    (hs : ch.stateNew header.Root = some st) :
    ((registryLookup ch st sysContractName).1.2 ≠ none →
      (ch.CallResAsString none).length = 0 →
      CallSystemContractAtBlockNumber ch number sysContractName sysFuncName sysFuncParams
        = .ok (none, [Effect.openState header.Root,
            Effect.call ch.CnsManagementAddress
              (ch.GenCallData "getContractAddress" [sysContractName, "latest"])])) ∧
    ((registryLookup ch st sysContractName).1.2 = none →
      ((ch.CallResAsString (registryLookup ch st sysContractName).1.1).length = 0 ∨
        ch.IsHexZeroAddress (ch.CallResAsString (registryLookup ch st sysContractName).1.1)
          = true) →
      CallSystemContractAtBlockNumber ch number sysContractName sysFuncName sysFuncParams
        = .ok (none, [Effect.openState header.Root,
            Effect.call ch.CnsManagementAddress
              (ch.GenCallData "getContractAddress" [sysContractName, "latest"])])) ∧
    ((registryLookup ch st sysContractName).1.2 = none →
      (ch.CallResAsString (registryLookup ch st sysContractName).1.1).length ≠ 0 →
      ch.IsHexZeroAddress (ch.CallResAsString (registryLookup ch st sysContractName).1.1)
        = false →
      CallSystemContractAtBlockNumber ch number sysContractName sysFuncName sysFuncParams
        = .ok (
          (if (ch.evmCall (registryLookup ch st sysContractName).2
                (ch.HexToAddress
                  (ch.CallResAsString (registryLookup ch st sysContractName).1.1))
                (ch.GenCallData sysFuncName sysFuncParams)).1.2 ≠ none then none
           else (ch.evmCall (registryLookup ch st sysContractName).2
                (ch.HexToAddress
                  (ch.CallResAsString (registryLookup ch st sysContractName).1.1))
                (ch.GenCallData sysFuncName sysFuncParams)).1.1),
          [Effect.openState header.Root,
            Effect.call ch.CnsManagementAddress
              (ch.GenCallData "getContractAddress" [sysContractName, "latest"]),
            Effect.call
              (ch.HexToAddress
                (ch.CallResAsString (registryLookup ch st sysContractName).1.1))
              (ch.GenCallData sysFuncName sysFuncParams)])) := by
  have hmain := CallSystemContractAtBlockNumber_of_state ch number sysContractName sysFuncName
    sysFuncParams header st hh hs
  unfold registryLookup
  refine ⟨?_, ?_, ?_⟩
  · intro herr hnil
    have hc := callContract_of_error ch st ch.CnsManagementAddress
      (ch.GenCallData "getContractAddress" [sysContractName, "latest"]) herr
    rw [hmain, hc, if_pos (Or.inl hnil)]
  · intro hok hbad
    have hc := callContract_of_no_error ch st ch.CnsManagementAddress
      (ch.GenCallData "getContractAddress" [sysContractName, "latest"]) hok
    rw [hmain, hc]
    exact if_pos hbad
  · intro hok hlen hzero
    have hc := callContract_of_no_error ch st ch.CnsManagementAddress
      (ch.GenCallData "getContractAddress" [sysContractName, "latest"]) hok
    have hnot : ¬ ((ch.CallResAsString (ch.evmCall st ch.CnsManagementAddress
          (ch.GenCallData "getContractAddress" [sysContractName, "latest"])).1.1).length = 0 ∨
        ch.IsHexZeroAddress (ch.CallResAsString (ch.evmCall st ch.CnsManagementAddress
          (ch.GenCallData "getContractAddress" [sysContractName, "latest"])).1.1) = true) := by
      rintro (h | h)
      · exact hlen h
      · rw [hzero] at h; exact absurd h (by simp)
    rw [hmain, hc]
    rw [if_neg hnot, callContract_fst]

/-- C19, on the sample chain: at block 7 the lookup of "__sys_ParamManager"
resolves to "0xpm" and the output of getVRFParams is returned; on the chain
with no contract registered the lookup answers the zero address, nil is
returned and the lookup is the only call. -/
theorem system_call_resolution_witness :
    CallSystemContractAtBlockNumber sample.chain 7 "__sys_ParamManager" "getVRFParams" []
      = .ok (some (sample.str "vrf"),
          [Effect.openState 7,
            Effect.call "cns" (sample.str "getContractAddress(__sys_ParamManager,latest)"),
            Effect.call "0xpm" (sample.str "getVRFParams()")]) ∧
    CallSystemContractAtBlockNumber sample.unregisteredChain 7 "__sys_ParamManager"
        "getVRFParams" []
      = .ok (none,
          [Effect.openState 7,
            Effect.call "cns" (sample.str "getContractAddress(__sys_ParamManager,latest)")]) :=
  ⟨((system_call_resolution sample.chain 7 "__sys_ParamManager" "getVRFParams" [] ⟨7, 7⟩ 7
      rfl rfl).2.2 rfl (by decide) rfl).trans rfl,
    ((system_call_resolution sample.unregisteredChain 7 "__sys_ParamManager" "getVRFParams" []
      ⟨7, 7⟩ 7 rfl rfl).2.1 rfl (Or.inr rfl)).trans rfl⟩

/-- C22. The method ChainContext.GetHeader calls itself with the same receiver
and the same arguments and does nothing else: for every bound on the depth of
the calls, every receiver, hash and number, the call yields no header within
the bound, and no terminating run of the method returns a header. -/
theorem GetHeader_never_returns {σ : Type} (cc : ChainContext σ) (hash : Nat) (number : Nat) :
    (∀ fuel : Nat, cc.GetHeader hash number (fuel + 1) = cc.GetHeader hash number fuel) ∧
    (∀ fuel : Nat, cc.GetHeader hash number fuel = none) ∧
    (∀ header : Header, ¬ GetHeaderReturns cc hash number header) := by
  have hnone : ∀ fuel : Nat, cc.GetHeader hash number fuel = none := by
    intro fuel
    induction fuel with
    | zero => rfl
    | succ fuel ih =>
      show cc.GetHeader hash number fuel = none
      exact ih
  refine ⟨fun _ => rfl, hnone, ?_⟩
  intro header h
  induction h with
  | call _ ih => exact ih

end backend
